import Mathlib

/-!
# BLE OTA GATT handlers: long-write reassembly, attribute reads, control point

A shallow embedding of `source/COMPONENT_OTA_BLUETOOTH/app_bt_gatt_handler.c`
and of `init_ota` from `main.c`.

* Bytes and machine integers are natural numbers; the one place where a
  `uint16_t` is incremented (`write_buff.written += to_write`) reduces modulo
  `2 ^ 16`, and the `int` comparison of `remaining` and `to_write` is done in `Int`.
* The globals `app_gatt_db_ext_attr_tbl`, `ota_app` and `write_buff` are the
  fields of `State`; `State.calls` records, oldest first, every call made to the
  Bluetooth stack and to the OTA library. The static `bondinfo`, which only the
  management callback uses, lives in a `BtmState` of its own.
* What those external calls return is read from an `Env`; outside the two
  read loops each handler invocation makes each external call at most once, so
  one value per call suffices; the calls made inside a loop get a list of values.
* Constants that come from generated or library headers are the fields of `Config`.
* A write request carries the memory at `p_val` as a list, which may be longer
  than `val_len`. A read `p_val[i]` yields the byte at that index also when `i`
  is not below `val_len`; only a read past the end of the list has no result.
* Logging (`cy_log_msg`) is omitted.
-/

namespace LeOta

/-! ## Types -/

/-- GATT status codes named in the source; `other` stands for every remaining code. -/
inductive wiced_bt_gatt_status_t where
  | WICED_BT_GATT_SUCCESS
  | WICED_BT_GATT_INVALID_HANDLE
  | WICED_BT_GATT_REQ_NOT_SUPPORTED
  | WICED_BT_GATT_INVALID_OFFSET
  | WICED_BT_GATT_INVALID_ATTR_LEN
  | WICED_BT_GATT_ERR_UNLIKELY
  | WICED_BT_GATT_INSUF_RESOURCE
  | WICED_BT_GATT_BUSY
  | WICED_BT_GATT_ERROR
  | other (code : Nat)
  deriving DecidableEq, Repr

/-- Result codes of the OTA library; `failure` stands for every other error code. -/
inductive cy_rslt_t where
  | CY_RSLT_SUCCESS
  | CY_RSLT_OTA_ERROR_BADARG
  | failure (code : Nat)
  deriving DecidableEq, Repr

/-- Transport kinds of the OTA library. -/
inductive cy_ota_connection_t where
  | CY_OTA_CONNECTION_UNKNOWN
  | CY_OTA_CONNECTION_MQTT
  | CY_OTA_CONNECTION_HTTP
  | CY_OTA_CONNECTION_HTTPS
  | CY_OTA_CONNECTION_BLE
  deriving DecidableEq, Repr

/-- ATT opcodes named in `app_bt_server_callback`; `other` stands for the rest. -/
inductive wiced_bt_gatt_opcode_t where
  | GATT_REQ_READ
  | GATT_REQ_READ_BLOB
  | GATT_REQ_READ_BY_TYPE
  | GATT_REQ_READ_MULTI
  | GATT_REQ_READ_MULTI_VAR_LENGTH
  | GATT_REQ_WRITE
  | GATT_CMD_WRITE
  | GATT_CMD_SIGNED_WRITE
  | GATT_REQ_PREPARE_WRITE
  | GATT_REQ_EXECUTE_WRITE
  | GATT_REQ_MTU
  | GATT_HANDLE_VALUE_CONF
  | GATT_HANDLE_VALUE_NOTIF
  | other (code : Nat)
  deriving DecidableEq, Repr

/-- Constants taken from headers outside the translated files: `CY_BT_MTU_SIZE`
(`CY_BT_RX_PDU_SIZE`), the attribute handles of the generated GATT database and
the command and status bytes of the OTA library. -/
structure Config where
  CY_BT_MTU_SIZE : Nat
  HDLD_OTA_FW_UPGRADE_SERVICE_OTA_UPGRADE_CONTROL_POINT_CLIENT_CHAR_CONFIG : Nat
  HDLC_OTA_FW_UPGRADE_SERVICE_OTA_UPGRADE_CONTROL_POINT_VALUE : Nat
  HDLC_OTA_FW_UPGRADE_SERVICE_OTA_UPGRADE_DATA_VALUE : Nat
  CY_OTA_UPGRADE_COMMAND_PREPARE_DOWNLOAD : Nat
  CY_OTA_UPGRADE_COMMAND_DOWNLOAD : Nat
  CY_OTA_UPGRADE_COMMAND_VERIFY : Nat
  CY_OTA_UPGRADE_COMMAND_ABORT : Nat
  CY_OTA_UPGRADE_STATUS_OK : Nat
  CY_OTA_UPGRADE_STATUS_BAD : Nat
  deriving DecidableEq, Repr

/-- The case labels of each `switch` are pairwise different (the C compiler
rejects duplicates) and the MTU fits the `uint16_t` it is passed around in. -/
def Config.wf (cfg : Config) : Prop :=
  cfg.CY_BT_MTU_SIZE ≤ 65535 ∧
  cfg.HDLD_OTA_FW_UPGRADE_SERVICE_OTA_UPGRADE_CONTROL_POINT_CLIENT_CHAR_CONFIG ≠
    cfg.HDLC_OTA_FW_UPGRADE_SERVICE_OTA_UPGRADE_CONTROL_POINT_VALUE ∧
  cfg.HDLD_OTA_FW_UPGRADE_SERVICE_OTA_UPGRADE_CONTROL_POINT_CLIENT_CHAR_CONFIG ≠
    cfg.HDLC_OTA_FW_UPGRADE_SERVICE_OTA_UPGRADE_DATA_VALUE ∧
  cfg.HDLC_OTA_FW_UPGRADE_SERVICE_OTA_UPGRADE_CONTROL_POINT_VALUE ≠
    cfg.HDLC_OTA_FW_UPGRADE_SERVICE_OTA_UPGRADE_DATA_VALUE ∧
  cfg.CY_OTA_UPGRADE_COMMAND_PREPARE_DOWNLOAD ≠ cfg.CY_OTA_UPGRADE_COMMAND_DOWNLOAD ∧
  cfg.CY_OTA_UPGRADE_COMMAND_PREPARE_DOWNLOAD ≠ cfg.CY_OTA_UPGRADE_COMMAND_VERIFY ∧
  cfg.CY_OTA_UPGRADE_COMMAND_PREPARE_DOWNLOAD ≠ cfg.CY_OTA_UPGRADE_COMMAND_ABORT ∧
  cfg.CY_OTA_UPGRADE_COMMAND_DOWNLOAD ≠ cfg.CY_OTA_UPGRADE_COMMAND_VERIFY ∧
  cfg.CY_OTA_UPGRADE_COMMAND_DOWNLOAD ≠ cfg.CY_OTA_UPGRADE_COMMAND_ABORT ∧
  cfg.CY_OTA_UPGRADE_COMMAND_VERIFY ≠ cfg.CY_OTA_UPGRADE_COMMAND_ABORT

instance (cfg : Config) : Decidable cfg.wf := by
  unfold Config.wf
  infer_instance

/-- One row of `app_gatt_db_ext_attr_tbl`; `p_data` is the row's buffer. -/
structure gatt_db_lookup_table_t where
  handle : Nat
  max_len : Nat
  cur_len : Nat
  p_data : List Nat
  deriving DecidableEq, Repr

/-- The long-write buffer `write_buff`. -/
structure gatt_write_req_buf_t where
  value : List Nat
  written : Nat
  handle : Nat
  in_use : Bool
  deriving DecidableEq, Repr

/-- The fields of `ota_app` that the GATT handlers and `init_ota` touch. -/
structure ota_app_context_t where
  tag : Nat
  ota_context : Nat
  connection_type : cy_ota_connection_t
  bt_conn_id : Nat
  bt_peer_addr : List Nat
  bt_config_descriptor : Nat
  update_flow : Nat
  reboot_at_end : Nat
  deriving DecidableEq, Repr

/-- A write request: `p_val` holds the bytes of the memory `p_val` points at.
The first `val_len` of them are the value written; the bytes after those are
whatever that memory holds behind the value (for a request built by
execute-write, the rest of `write_buff.value`). -/
structure wiced_bt_gatt_write_req_t where
  handle : Nat
  offset : Nat
  p_val : List Nat
  val_len : Nat
  deriving DecidableEq, Repr

/-- A read request. -/
structure wiced_bt_gatt_read_t where
  handle : Nat
  offset : Nat
  deriving DecidableEq, Repr

/-- A read-by-type request: handle range and attribute type. -/
structure wiced_bt_gatt_read_by_type_t where
  s_handle : Nat
  e_handle : Nat
  uuid : Nat
  deriving DecidableEq, Repr

/-- A read-multiple request: the number of handles and the bytes at `p_handle_stream`. -/
structure wiced_bt_gatt_read_multiple_req_t where
  num_handles : Nat
  p_handle_stream : List Nat
  deriving DecidableEq, Repr

/-- An attribute request as `app_bt_server_callback` receives it; the members of
the `data` union are separate fields, each branch reading its own. -/
structure wiced_bt_gatt_attribute_request_t where
  conn_id : Nat
  opcode : wiced_bt_gatt_opcode_t
  len_requested : Nat
  read_req : wiced_bt_gatt_read_t
  read_by_type : wiced_bt_gatt_read_by_type_t
  read_multiple_req : wiced_bt_gatt_read_multiple_req_t
  write_req : wiced_bt_gatt_write_req_t
  remote_mtu : Nat
  deriving DecidableEq, Repr

/-- States of the OTA agent: the one the source names, and every other. -/
inductive cy_ota_agent_state_t where
  | CY_OTA_STATE_OTA_COMPLETE
  | other (code : Nat)
  deriving DecidableEq, Repr

/-- What the stack answers in one round of the read-by-type loop: the handle
`wiced_bt_gatt_find_handle_by_type` returns, and the byte count and pair length
`wiced_bt_gatt_put_read_by_type_rsp_in_stream` leaves, should the round get there. -/
structure read_by_type_step where
  found : Nat
  filled : Nat
  pair_len : Nat
  deriving DecidableEq, Repr

/-- A device address, `uint8_t[6]`. -/
structure wiced_bt_device_address_t where
  b0 : Nat
  b1 : Nat
  b2 : Nat
  b3 : Nat
  b4 : Nat
  b5 : Nat
  deriving DecidableEq, Repr

/-- The six bytes of an address, in order. -/
def wiced_bt_device_address_t.bytes (a : wiced_bt_device_address_t) : List Nat :=
  [a.b0, a.b1, a.b2, a.b3, a.b4, a.b5]

/-- A link-key record: the peer address, and the rest of the record as one number. -/
structure wiced_bt_device_link_keys_t where
  bd_addr : wiced_bt_device_address_t
  key_data : Nat
  deriving DecidableEq, Repr

/-- The array `slot_data`, indexed by the enum `NUM_BONDED`, `NEXT_FREE`. -/
structure slot_data_t where
  NUM_BONDED : Nat
  NEXT_FREE : Nat
  deriving DecidableEq, Repr

/-- The fields of `bondinfo` that the link-key events use. -/
structure bondinfo_t where
  slot_data : slot_data_t
  link_keys : List wiced_bt_device_link_keys_t
  deriving DecidableEq, Repr

/-- Result codes of the management callback named in the link-key cases;
`WICED_BT_SUCCESS` and `WICED_SUCCESS` are one value. -/
inductive wiced_result_t where
  | WICED_BT_SUCCESS
  | WICED_BT_ERROR
  | other (code : Nat)
  deriving DecidableEq, Repr

/-- Advertisement modes used by `app_bt_connect_callback`. -/
inductive wiced_bt_ble_advert_mode_t where
  | BTM_BLE_ADVERT_OFF
  | BTM_BLE_ADVERT_UNDIRECTED_HIGH
  deriving DecidableEq, Repr

/-- The fields of a connection status event that `app_bt_connect_callback`
uses outside logging. -/
structure wiced_bt_gatt_connection_status_t where
  connected : Bool
  bd_addr : wiced_bt_device_address_t
  conn_id : Nat
  deriving DecidableEq, Repr

/-- A GATT event with its data, as `app_bt_gatt_event_handler` receives it;
`other` stands for every event without a case of its own. -/
inductive wiced_bt_gatt_event where
  | GATT_CONNECTION_STATUS_EVT (connection_status : wiced_bt_gatt_connection_status_t)
  | GATT_ATTRIBUTE_REQUEST_EVT (attribute_request : wiced_bt_gatt_attribute_request_t)
  | GATT_GET_RESPONSE_BUFFER_EVT (len_requested : Nat)
  | GATT_APP_BUFFER_TRANSMITTED_EVT
  | GATT_OPERATION_CPLT_EVT
  | other (code : Nat)
  deriving DecidableEq, Repr

/-- Calls into the Bluetooth stack and the OTA library, with their arguments.
A pointer and length pair is recorded as the length and the bytes it denotes. -/
inductive Call where
  | cy_ota_agent_start (initial_connection : cy_ota_connection_t) (use_get_job_flow : Nat)
      (validate_after_reboot : Nat)
  | cy_ota_ble_download_prepare (ota_context : Nat)
  | cy_ota_ble_download (ota_context : Nat) (total_size : Nat)
  | cy_ota_ble_download_verify (ota_context : Nat) (final_crc32 : Nat)
      (crc_or_sig_verify : Bool)
  | cy_ota_ble_download_abort (ota_context : Nat)
  | cy_ota_ble_download_write (ota_context : Nat) (data : List Nat) (len : Nat) (offset : Nat)
  | wiced_bt_gatt_server_send_notification (conn_id : Nat) (attr_handle : Nat) (val_len : Nat)
      (val : List Nat)
  | wiced_bt_gatt_server_send_indication (conn_id : Nat) (attr_handle : Nat) (val_len : Nat)
      (val : List Nat)
  | wiced_bt_gatt_server_send_error_rsp (conn_id : Nat) (opcode : wiced_bt_gatt_opcode_t)
      (handle : Nat) (status : wiced_bt_gatt_status_t)
  | wiced_bt_gatt_server_send_read_handle_rsp (conn_id : Nat) (opcode : wiced_bt_gatt_opcode_t)
      (len : Nat) (data : List Nat)
  | wiced_bt_gatt_server_send_prepare_write_rsp (conn_id : Nat)
      (opcode : wiced_bt_gatt_opcode_t) (handle : Nat) (offset : Nat) (len : Nat)
      (data : List Nat)
  | wiced_bt_gatt_find_handle_by_type (s_handle : Nat) (e_handle : Nat) (uuid : Nat)
  | wiced_bt_gatt_put_read_by_type_rsp_in_stream (stream_len : Int) (attr_handle : Nat)
      (attr_len : Nat) (data : List Nat)
  | wiced_bt_gatt_server_send_read_by_type_rsp (conn_id : Nat)
      (opcode : wiced_bt_gatt_opcode_t) (pair_len : Nat) (used : Nat)
  | wiced_bt_gatt_get_handle_from_stream (index : Nat)
  | wiced_bt_gatt_put_read_multi_rsp_in_stream (opcode : wiced_bt_gatt_opcode_t)
      (stream_len : Int) (attr_handle : Nat) (attr_len : Nat) (data : List Nat)
  | wiced_bt_gatt_server_send_read_multiple_rsp (conn_id : Nat)
      (opcode : wiced_bt_gatt_opcode_t) (used : Nat)
  | wiced_bt_gatt_server_send_write_rsp (conn_id : Nat) (opcode : wiced_bt_gatt_opcode_t)
      (handle : Nat)
  | wiced_bt_gatt_server_send_execute_write_rsp (conn_id : Nat)
      (opcode : wiced_bt_gatt_opcode_t)
  | wiced_bt_gatt_server_send_mtu_rsp (conn_id : Nat) (remote_mtu : Nat) (my_mtu : Nat)
  | cy_ota_get_state (ota_context : Nat)
  | cy_rtos_delay_milliseconds (ms : Nat)
  | cyhal_system_reset_device
  | cy_ota_agent_stop (ota_context : Nat)
  | wiced_bt_start_advertisements (advert_mode : wiced_bt_ble_advert_mode_t)
  | wiced_bt_dev_add_device_to_address_resolution_db (keys : wiced_bt_device_link_keys_t)
  deriving DecidableEq, Repr

/-- What the external calls of one handler invocation return. The calls that
take `&ota_app.ota_context` also yield the context value they leave behind.
`app_bt_alloc_buffer` tells whether `malloc` gave a buffer. The read-by-type
loop takes one `read_by_type_step` per round; in the read-multiple loop round
`xx` takes entry `xx` of the two lists, a missing entry standing for 0. -/
structure Env where
  cy_ota_agent_start : cy_rslt_t
  cy_ota_agent_start_context : Nat
  cy_ota_ble_download_prepare : cy_rslt_t
  cy_ota_ble_download : cy_rslt_t
  cy_ota_ble_download_verify : cy_rslt_t
  cy_ota_ble_download_abort : cy_rslt_t
  cy_ota_ble_download_abort_context : Nat
  cy_ota_ble_download_write : cy_rslt_t
  wiced_bt_gatt_server_send_notification : wiced_bt_gatt_status_t
  wiced_bt_gatt_server_send_indication : wiced_bt_gatt_status_t
  wiced_bt_gatt_server_send_read_handle_rsp : wiced_bt_gatt_status_t
  app_bt_alloc_buffer : Bool
  read_by_type_steps : List read_by_type_step
  wiced_bt_gatt_get_handle_from_stream : List Nat
  wiced_bt_gatt_put_read_multi_rsp_in_stream : List Nat
  wiced_bt_gatt_server_send_mtu_rsp : wiced_bt_gatt_status_t
  cy_ota_get_state : cy_ota_agent_state_t
  cy_ota_agent_stop_context : Nat
  wiced_bt_start_advertisements : wiced_bt_gatt_status_t
  wiced_bt_dev_add_device_to_address_resolution_db : wiced_result_t
  deriving DecidableEq, Repr

/-- The globals of the translation unit and the log of external calls. -/
structure State where
  app_gatt_db_ext_attr_tbl : List gatt_db_lookup_table_t
  ota_app : ota_app_context_t
  write_buff : gatt_write_req_buf_t
  calls : List Call
  deriving DecidableEq, Repr

/-- Appends one external call to the log. -/
def State.call (s : State) (c : Call) : State :=
  { s with calls := s.calls ++ [c] }

/-- How a handler invocation ends: it returns `v` in state `s`; or it never
returns (`init_ota` spins in `while (true)`, the device is reset, or the stack
keeps the read-by-type loop going), the globals being `s` by then; or it reads a
byte of `p_val` past the end of the memory `p_val` points at, or the first byte
of an empty handle stream. -/
inductive Outcome (α : Type) where
  | ret (v : α) (s : State)
  | hang (s : State)
  | fault
  deriving DecidableEq, Repr

/-- Sequencing: the continuation runs only after a normal return. -/
def Outcome.bind {α β : Type} (o : Outcome α) (f : α → State → Outcome β) : Outcome β :=
  match o with
  | .ret v s => f v s
  | .hang s => .hang s
  | .fault => .fault

/-- Whether the invocation returned to its caller. -/
def Outcome.returns {α : Type} (o : Outcome α) : Bool :=
  match o with
  | .ret _ _ => true
  | .hang _ => false
  | .fault => false

/-- The handler left `write_buff` equal to `wb` in the state it ended with. -/
def Outcome.keeps_write_buff {α : Type} (o : Outcome α) (wb : gatt_write_req_buf_t) : Prop :=
  match o with
  | .ret _ s => s.write_buff = wb
  | .hang s => s.write_buff = wb
  | .fault => True

/-! ## Memory helpers -/

/-- The value written by a request: the first `val_len` bytes at `p_val`. -/
def payload (r : wiced_bt_gatt_write_req_t) : List Nat :=
  r.p_val.take r.val_len

/-- The read `p_val[i]`: the byte at index `i` of the memory at `p_val`, whether
or not `i` is below `val_len`; there is none only past the end of that memory. -/
def payload_get (r : wiced_bt_gatt_write_req_t) (i : Nat) : Option Nat :=
  r.p_val[i]?

/-- The request reduced to its value: same handle, offset and length, and at
`p_val` exactly the bytes of the value. -/
def value_only (r : wiced_bt_gatt_write_req_t) : wiced_bt_gatt_write_req_t :=
  { handle := r.handle, offset := r.offset, p_val := payload r, val_len := r.val_len }

/-- The copy `memcpy(dst + off, src, n)` on a buffer `dst`. -/
def memcpy (dst : List Nat) (off : Nat) (src : List Nat) (n : Nat) : List Nat :=
  dst.take off ++ src.take n ++ dst.drop (off + n)

/-- The comparison `memcmp(a, b, n) == 0`. -/
def memcmp_eq (a b : List Nat) (n : Nat) : Bool :=
  a.take n == b.take n

/-- The tag value `OTA_APP_TAG_VALID` (0x51EDBA15). -/
def OTA_APP_TAG_VALID : Nat := 0x51EDBA15

/-! ## Operations -/

/-- The wrapper `app_bt_ble_send_notification`: it forwards to the stack and
returns the stack's status. -/
def app_bt_ble_send_notification (env : Env) (bt_conn_id attr_handle val_len : Nat)
    (p_val : List Nat) (s : State) : wiced_bt_gatt_status_t × State :=
  (env.wiced_bt_gatt_server_send_notification,
    s.call (.wiced_bt_gatt_server_send_notification bt_conn_id attr_handle val_len
      (p_val.take val_len)))

/-- The wrapper `app_bt_ble_send_indication`. -/
def app_bt_ble_send_indication (env : Env) (bt_conn_id attr_handle val_len : Nat)
    (p_val : List Nat) (s : State) : wiced_bt_gatt_status_t × State :=
  (env.wiced_bt_gatt_server_send_indication,
    s.call (.wiced_bt_gatt_server_send_indication bt_conn_id attr_handle val_len
      (p_val.take val_len)))

/-- The lookup `app_bt_find_by_handle`: the first row with the handle, if any. -/
def app_bt_find_by_handle (tbl : List gatt_db_lookup_table_t) (handle : Nat) :
    Option gatt_db_lookup_table_t :=
  match tbl with
  | [] => none
  | e :: rest => if e.handle = handle then some e else app_bt_find_by_handle rest handle

/-- The read handler `app_gatt_req_read_handler`. -/
def app_gatt_req_read_handler (env : Env) (conn_id : Nat) (opcode : wiced_bt_gatt_opcode_t)
    (p_read_req : wiced_bt_gatt_read_t) (len_requested : Nat) (s : State) :
    wiced_bt_gatt_status_t × State :=
  match app_bt_find_by_handle s.app_gatt_db_ext_attr_tbl p_read_req.handle with
  | none =>
    (.WICED_BT_GATT_INVALID_HANDLE,
      s.call (.wiced_bt_gatt_server_send_error_rsp conn_id opcode p_read_req.handle
        .WICED_BT_GATT_INVALID_HANDLE))
  | some puAttribute =>
    let attr_len_to_copy := puAttribute.cur_len
    if p_read_req.offset ≥ puAttribute.cur_len then
      (.WICED_BT_GATT_INVALID_HANDLE,
        s.call (.wiced_bt_gatt_server_send_error_rsp conn_id opcode p_read_req.handle
          .WICED_BT_GATT_INVALID_OFFSET))
    else
      let to_send := min len_requested (attr_len_to_copy - p_read_req.offset)
      let src := puAttribute.p_data.drop p_read_req.offset
      (env.wiced_bt_gatt_server_send_read_handle_rsp,
        s.call (.wiced_bt_gatt_server_send_read_handle_rsp conn_id opcode to_send
          (src.take to_send)))

/-- The value store `app_bt_set_value`: only the first row with the handle is
looked at. The row buffer has `max_len` bytes, so the `memset` over `max_len`
bytes zeroes all of it. -/
def app_bt_set_value (tbl : List gatt_db_lookup_table_t) (attr_handle : Nat)
    (p_val : List Nat) (len : Nat) : wiced_bt_gatt_status_t × List gatt_db_lookup_table_t :=
  match tbl with
  | [] => (.WICED_BT_GATT_INVALID_HANDLE, [])
  | e :: rest =>
    if e.handle = attr_handle then
      if e.max_len ≥ len then
        let p_data := memcpy (List.replicate e.max_len 0) 0 p_val len
        let e1 := { e with cur_len := len, p_data := p_data }
        if memcmp_eq e1.p_data p_val e1.cur_len then
          (.WICED_BT_GATT_SUCCESS, e1 :: rest)
        else
          (.WICED_BT_GATT_INVALID_HANDLE, e1 :: rest)
      else
        (.WICED_BT_GATT_INVALID_ATTR_LEN, e :: rest)
    else
      let r := app_bt_set_value rest attr_handle p_val len
      (r.1, e :: r.2)

/-- The routine `init_ota` of `main.c`, called with `&ota_app`: a wrong tag is
refused; a failing `cy_ota_agent_start` sends it into `while (true)`. -/
def init_ota (env : Env) (s : State) : Outcome cy_rslt_t :=
  if s.ota_app.tag ≠ OTA_APP_TAG_VALID then
    .ret .CY_RSLT_OTA_ERROR_BADARG s
  else
    let s1 := s.call (.cy_ota_agent_start s.ota_app.connection_type s.ota_app.update_flow 0)
    let s2 := { s1 with ota_app := { s1.ota_app with
      ota_context := env.cy_ota_agent_start_context } }
    if env.cy_ota_agent_start ≠ .CY_RSLT_SUCCESS then
      .hang s2
    else
      .ret env.cy_ota_agent_start s2

/-- The little-endian sum the Download and Verify cases build from `p_val[1..4]`,
reduced to 32 bits. -/
def le32 (b1 b2 b3 b4 : Nat) : Nat :=
  (b4 * 2 ^ 24 + b3 * 2 ^ 16 + b2 * 2 ^ 8 + b1) % 2 ^ 32

/-- The Prepare case of the control-point switch. -/
def cmd_prepare_download (cfg : Config) (env : Env) (s : State) :
    Outcome wiced_bt_gatt_status_t :=
  let s1 := { s with ota_app := { s.ota_app with
    connection_type := .CY_OTA_CONNECTION_BLE } }
  (init_ota env s1).bind fun result s2 =>
    if result ≠ .CY_RSLT_SUCCESS then
      .ret .WICED_BT_GATT_ERROR s2
    else
      let s3 := s2.call (.cy_ota_ble_download_prepare s2.ota_app.ota_context)
      if env.cy_ota_ble_download_prepare = .CY_RSLT_SUCCESS then
        let r := app_bt_ble_send_notification env s3.ota_app.bt_conn_id
          cfg.HDLC_OTA_FW_UPGRADE_SERVICE_OTA_UPGRADE_CONTROL_POINT_VALUE 1
          [cfg.CY_OTA_UPGRADE_STATUS_OK] s3
        if r.1 ≠ .WICED_BT_GATT_SUCCESS then
          .ret .WICED_BT_GATT_ERROR r.2
        else
          .ret .WICED_BT_GATT_SUCCESS r.2
      else
        .ret .WICED_BT_GATT_ERROR s3

/-- The Download case of the control-point switch. -/
def cmd_download (cfg : Config) (env : Env) (p_write_req : wiced_bt_gatt_write_req_t)
    (s : State) : Outcome wiced_bt_gatt_status_t :=
  if p_write_req.val_len < 4 then
    .ret .WICED_BT_GATT_ERROR s
  else
    match payload_get p_write_req 4, payload_get p_write_req 3,
      payload_get p_write_req 2, payload_get p_write_req 1 with
    | some b4, some b3, some b2, some b1 =>
      let total_size := le32 b1 b2 b3 b4
      let s1 := s.call (.cy_ota_ble_download s.ota_app.ota_context total_size)
      if env.cy_ota_ble_download = .CY_RSLT_SUCCESS then
        let r := app_bt_ble_send_notification env s1.ota_app.bt_conn_id
          cfg.HDLC_OTA_FW_UPGRADE_SERVICE_OTA_UPGRADE_CONTROL_POINT_VALUE 1
          [cfg.CY_OTA_UPGRADE_STATUS_OK] s1
        if r.1 ≠ .WICED_BT_GATT_SUCCESS then
          .ret .WICED_BT_GATT_ERROR r.2
        else
          .ret .WICED_BT_GATT_SUCCESS r.2
      else
        .ret .WICED_BT_GATT_ERROR s1
    | _, _, _, _ => .fault

/-- The Verify case of the control-point switch (build without `COMPONENT_H1_CP`). -/
def cmd_verify (cfg : Config) (env : Env) (p_write_req : wiced_bt_gatt_write_req_t)
    (s : State) : Outcome wiced_bt_gatt_status_t :=
  let crc_or_sig_verify := true
  if p_write_req.val_len ≠ 5 then
    .ret .WICED_BT_GATT_ERROR s
  else
    match payload_get p_write_req 1, payload_get p_write_req 2,
      payload_get p_write_req 3, payload_get p_write_req 4 with
    | some b1, some b2, some b3, some b4 =>
      let final_crc32 := le32 b1 b2 b3 b4
      let s1 := s.call
        (.cy_ota_ble_download_verify s.ota_app.ota_context final_crc32 crc_or_sig_verify)
      if env.cy_ota_ble_download_verify = .CY_RSLT_SUCCESS then
        let r := app_bt_ble_send_indication env s1.ota_app.bt_conn_id
          cfg.HDLC_OTA_FW_UPGRADE_SERVICE_OTA_UPGRADE_CONTROL_POINT_VALUE 1
          [cfg.CY_OTA_UPGRADE_STATUS_OK] s1
        if r.1 ≠ .WICED_BT_GATT_SUCCESS then
          .ret .WICED_BT_GATT_ERROR r.2
        else
          .ret .WICED_BT_GATT_SUCCESS r.2
      else
        let r := app_bt_ble_send_indication env s1.ota_app.bt_conn_id
          cfg.HDLC_OTA_FW_UPGRADE_SERVICE_OTA_UPGRADE_CONTROL_POINT_VALUE 1
          [cfg.CY_OTA_UPGRADE_STATUS_BAD] s1
        .ret .WICED_BT_GATT_ERROR r.2
    | _, _, _, _ => .fault

/-- The Abort case of the control-point switch: the library's result is dropped. -/
def cmd_abort (env : Env) (s : State) : Outcome wiced_bt_gatt_status_t :=
  let s1 := s.call (.cy_ota_ble_download_abort s.ota_app.ota_context)
  .ret .WICED_BT_GATT_SUCCESS { s1 with ota_app := { s1.ota_app with
    ota_context := env.cy_ota_ble_download_abort_context } }

/-- The write handler `app_bt_write_handler`: the outer `switch` on the handle
and, for the control point, the inner `switch` on `p_val[0]`; a control-point
command byte with no case leaves the switch and yields `REQ_NOT_SUPPORTED`. -/
def app_bt_write_handler (cfg : Config) (env : Env) (p_write_req : wiced_bt_gatt_write_req_t)
    (s : State) : Outcome wiced_bt_gatt_status_t :=
  if p_write_req.handle =
      cfg.HDLD_OTA_FW_UPGRADE_SERVICE_OTA_UPGRADE_CONTROL_POINT_CLIENT_CHAR_CONFIG then
    match payload_get p_write_req 0 with
    | none => .fault
    | some b =>
      .ret .WICED_BT_GATT_SUCCESS
        { s with ota_app := { s.ota_app with bt_config_descriptor := b } }
  else if p_write_req.handle =
      cfg.HDLC_OTA_FW_UPGRADE_SERVICE_OTA_UPGRADE_CONTROL_POINT_VALUE then
    match payload_get p_write_req 0 with
    | none => .fault
    | some op =>
      if op = cfg.CY_OTA_UPGRADE_COMMAND_PREPARE_DOWNLOAD then
        cmd_prepare_download cfg env s
      else if op = cfg.CY_OTA_UPGRADE_COMMAND_DOWNLOAD then
        cmd_download cfg env p_write_req s
      else if op = cfg.CY_OTA_UPGRADE_COMMAND_VERIFY then
        cmd_verify cfg env p_write_req s
      else if op = cfg.CY_OTA_UPGRADE_COMMAND_ABORT then
        cmd_abort env s
      else
        .ret .WICED_BT_GATT_REQ_NOT_SUPPORTED s
  else if p_write_req.handle =
      cfg.HDLC_OTA_FW_UPGRADE_SERVICE_OTA_UPGRADE_DATA_VALUE then
    let s1 := s.call (.cy_ota_ble_download_write s.ota_app.ota_context
      (payload p_write_req) p_write_req.val_len p_write_req.offset)
    if env.cy_ota_ble_download_write = .CY_RSLT_SUCCESS then
      .ret .WICED_BT_GATT_SUCCESS s1
    else
      .ret .WICED_BT_GATT_ERROR s1
  else
    let r := app_bt_set_value s.app_gatt_db_ext_attr_tbl p_write_req.handle
      p_write_req.p_val p_write_req.val_len
    .ret r.1 { s with app_gatt_db_ext_attr_tbl := r.2 }

/-- The opening block of `app_bt_prepare_write_handler`: an idle buffer is
zeroed and marked in use. `value` has `CY_BT_MTU_SIZE` bytes, all of them set. -/
def begin_sequence (cfg : Config) (wb : gatt_write_req_buf_t) : gatt_write_req_buf_t :=
  if wb.in_use = false then
    { value := List.replicate cfg.CY_BT_MTU_SIZE 0, written := 0, in_use := true, handle := 0 }
  else
    wb

/-- The prepare-write handler `app_bt_prepare_write_handler`. -/
def app_bt_prepare_write_handler (cfg : Config) (conn_id : Nat)
    (opcode : wiced_bt_gatt_opcode_t) (p_req : wiced_bt_gatt_write_req_t) (s : State) :
    wiced_bt_gatt_status_t × State :=
  let wb := begin_sequence cfg s.write_buff
  if wb.written = p_req.offset then
    let remaining : Int := (cfg.CY_BT_MTU_SIZE : Int) - (wb.written : Int)
    let to_write : Int := (p_req.val_len : Int)
    if remaining ≥ to_write then
      let value := memcpy wb.value wb.written p_req.p_val p_req.val_len
      let s1 := ({ s with write_buff := { wb with value := value } }).call
        (.wiced_bt_gatt_server_send_prepare_write_rsp conn_id opcode p_req.handle p_req.offset
          p_req.val_len ((value.drop wb.written).take p_req.val_len))
      (.WICED_BT_GATT_SUCCESS,
        { s1 with write_buff := { s1.write_buff with
          written := (wb.written + p_req.val_len) % 2 ^ 16, handle := p_req.handle } })
    else
      (.WICED_BT_GATT_ERROR, { s with write_buff := wb })
  else
    (.WICED_BT_GATT_ERROR, { s with write_buff := wb })

/-- The request `app_bt_execute_write_handler` builds from the long-write buffer
before it calls the write handler. -/
def execute_write_req (wb : gatt_write_req_buf_t) : wiced_bt_gatt_write_req_t :=
  { handle := wb.handle, offset := 0, p_val := wb.value, val_len := wb.written }

/-- The execute-write handler `app_bt_execute_write_handler`. -/
def app_bt_execute_write_handler (cfg : Config) (env : Env) (s : State) :
    Outcome wiced_bt_gatt_status_t :=
  if s.write_buff.in_use = false then
    .ret .WICED_BT_GATT_ERROR s
  else
    (app_bt_write_handler cfg env (execute_write_req s.write_buff) s).bind fun status s1 =>
      .ret status { s1 with write_buff := { s1.write_buff with in_use := false } }

/-- The state of `write_buff` after `bt_app_init` has zeroed it. -/
def write_buff_init (cfg : Config) : gatt_write_req_buf_t :=
  { value := List.replicate cfg.CY_BT_MTU_SIZE 0, written := 0, handle := 0, in_use := false }

/-! ## Read-by-type, read-multiple and the request dispatcher -/

/-- How the `while` loop of the read-by-type handler is left: through a
`break`, with the bytes used and the pair length; through the `return` taken
when a found handle has no table row; or not at all. -/
inductive read_by_type_exit where
  | finished (used : Nat) (pair_len : Nat)
  | no_attribute
  | running
  deriving DecidableEq, Repr

/-- The `while (WICED_TRUE)` loop of `app_gatt_req_read_by_type_handler`, one
round per entry of `steps`; `calls` collects the stack calls it makes. -/
def read_by_type_loop (tbl : List gatt_db_lookup_table_t)
    (p_read_req : wiced_bt_gatt_read_by_type_t) (len_requested : Nat)
    (steps : List read_by_type_step) (attr_handle used pair_len : Nat) (calls : List Call) :
    read_by_type_exit × List Call :=
  match steps with
  | [] => (.running, calls)
  | st :: rest =>
    let calls1 := calls ++
      [.wiced_bt_gatt_find_handle_by_type attr_handle p_read_req.e_handle p_read_req.uuid]
    let attr_handle1 := st.found
    if attr_handle1 = 0 then
      (.finished used pair_len, calls1)
    else
      match app_bt_find_by_handle tbl attr_handle1 with
      | none => (.no_attribute, calls1)
      | some puAttribute =>
        let calls2 := calls1 ++
          [.wiced_bt_gatt_put_read_by_type_rsp_in_stream
            ((len_requested : Int) - (used : Int)) attr_handle1 puAttribute.cur_len
            (puAttribute.p_data.take puAttribute.cur_len)]
        if st.filled = 0 then
          (.finished used st.pair_len, calls2)
        else
          read_by_type_loop tbl p_read_req len_requested rest
            ((attr_handle1 + 1) % 2 ^ 16) (used + st.filled) st.pair_len calls2

/-- The read-by-type handler `app_gatt_req_read_by_type_handler`. -/
def app_gatt_req_read_by_type_handler (env : Env) (conn_id : Nat)
    (opcode : wiced_bt_gatt_opcode_t) (p_read_req : wiced_bt_gatt_read_by_type_t)
    (len_requested : Nat) (s : State) : Outcome wiced_bt_gatt_status_t :=
  let attr_handle := p_read_req.s_handle
  if env.app_bt_alloc_buffer = false then
    .ret .WICED_BT_GATT_INVALID_HANDLE
      (s.call (.wiced_bt_gatt_server_send_error_rsp conn_id opcode attr_handle
        .WICED_BT_GATT_INSUF_RESOURCE))
  else
    match read_by_type_loop s.app_gatt_db_ext_attr_tbl p_read_req len_requested
        env.read_by_type_steps attr_handle 0 0 s.calls with
    | (.running, calls) => .hang { s with calls := calls }
    | (.no_attribute, calls) =>
      .ret .WICED_BT_GATT_INVALID_HANDLE
        { s with calls := calls ++
          [.wiced_bt_gatt_server_send_error_rsp conn_id opcode p_read_req.s_handle
            .WICED_BT_GATT_ERR_UNLIKELY] }
    | (.finished used pair_len, calls) =>
      if used = 0 then
        .ret .WICED_BT_GATT_INVALID_HANDLE
          { s with calls := calls ++
            [.wiced_bt_gatt_server_send_error_rsp conn_id opcode p_read_req.s_handle
              .WICED_BT_GATT_INVALID_HANDLE] }
      else
        .ret .WICED_BT_GATT_SUCCESS
          { s with calls := calls ++
            [.wiced_bt_gatt_server_send_read_by_type_rsp conn_id opcode pair_len used] }

/-- How the `for` loop of the read-multiple handler is left: at its end or
through `break`, with the bytes used; or through the `return` taken when a
handle has no table row. -/
inductive read_multi_exit where
  | finished (used : Nat)
  | no_attribute
  deriving DecidableEq, Repr

/-- The `for` loop of `app_gatt_req_read_multi_handler`: `n` rounds are left,
`xx` is the loop index; `calls` collects the stack calls it makes. -/
def read_multi_loop (env : Env) (opcode : wiced_bt_gatt_opcode_t)
    (tbl : List gatt_db_lookup_table_t) (len_requested : Nat) (n xx used : Nat)
    (calls : List Call) : read_multi_exit × List Call :=
  match n with
  | 0 => (.finished used, calls)
  | m + 1 =>
    let handle := env.wiced_bt_gatt_get_handle_from_stream.getD xx 0
    let calls1 := calls ++ [.wiced_bt_gatt_get_handle_from_stream xx]
    match app_bt_find_by_handle tbl handle with
    | none => (.no_attribute, calls1)
    | some puAttribute =>
      let filled := env.wiced_bt_gatt_put_read_multi_rsp_in_stream.getD xx 0
      let calls2 := calls1 ++
        [.wiced_bt_gatt_put_read_multi_rsp_in_stream opcode
          ((len_requested : Int) - (used : Int)) puAttribute.handle puAttribute.cur_len
          (puAttribute.p_data.take puAttribute.cur_len)]
      if filled = 0 then
        (.finished used, calls2)
      else
        read_multi_loop env opcode tbl len_requested m (xx + 1) (used + filled) calls2

/-- The read-multiple handler `app_gatt_req_read_multi_handler`; the handle its
two later error responses carry is `*p_handle_stream`, the first byte of the stream. -/
def app_gatt_req_read_multi_handler (env : Env) (conn_id : Nat)
    (opcode : wiced_bt_gatt_opcode_t) (p_read_req : wiced_bt_gatt_read_multiple_req_t)
    (len_requested : Nat) (s : State) : Outcome wiced_bt_gatt_status_t :=
  let handle := env.wiced_bt_gatt_get_handle_from_stream.getD 0 0
  let s0 := s.call (.wiced_bt_gatt_get_handle_from_stream 0)
  if env.app_bt_alloc_buffer = false then
    .ret .WICED_BT_GATT_INVALID_HANDLE
      (s0.call (.wiced_bt_gatt_server_send_error_rsp conn_id opcode handle
        .WICED_BT_GATT_INSUF_RESOURCE))
  else
    match read_multi_loop env opcode s.app_gatt_db_ext_attr_tbl len_requested
        p_read_req.num_handles 0 0 s0.calls with
    | (.no_attribute, calls) =>
      match p_read_req.p_handle_stream[0]? with
      | none => .fault
      | some first =>
        .ret .WICED_BT_GATT_INVALID_HANDLE
          { s with calls := calls ++
            [.wiced_bt_gatt_server_send_error_rsp conn_id opcode first
              .WICED_BT_GATT_ERR_UNLIKELY] }
    | (.finished used, calls) =>
      if used = 0 then
        match p_read_req.p_handle_stream[0]? with
        | none => .fault
        | some first =>
          .ret .WICED_BT_GATT_INVALID_HANDLE
            { s with calls := calls ++
              [.wiced_bt_gatt_server_send_error_rsp conn_id opcode first
                .WICED_BT_GATT_INVALID_HANDLE] }
      else
        .ret .WICED_BT_GATT_SUCCESS
          { s with calls := calls ++
            [.wiced_bt_gatt_server_send_read_multiple_rsp conn_id opcode used] }

/-- The value-confirmation case of `app_bt_server_callback` (build with
`COMPONENT_THREADX`): `status` keeps its initial `WICED_BT_GATT_ERROR`; the
reset does not return. -/
def handle_value_conf (env : Env) (s : State) : Outcome wiced_bt_gatt_status_t :=
  let s1 := s.call (.cy_ota_get_state s.ota_app.ota_context)
  let ota_lib_state := env.cy_ota_get_state
  if ota_lib_state = .CY_OTA_STATE_OTA_COMPLETE ∧ s1.ota_app.reboot_at_end ≠ 0 then
    .hang ((s1.call (.cy_rtos_delay_milliseconds 1000)).call .cyhal_system_reset_device)
  else
    let s2 := s1.call (.cy_ota_agent_stop s1.ota_app.ota_context)
    .ret .WICED_BT_GATT_ERROR
      { s2 with ota_app := { s2.ota_app with ota_context := env.cy_ota_agent_stop_context } }

/-- The dispatcher `app_bt_server_callback`. `status` starts as
`WICED_BT_GATT_ERROR` and is what the cases without an assignment return. In the
execute-write case the error response names `data.write_req.handle`, which the
execute handler has overwritten with `write_buff.handle` if the buffer was in use. -/
def app_bt_server_callback (cfg : Config) (env : Env)
    (p_att_req : wiced_bt_gatt_attribute_request_t) (s : State) :
    Outcome wiced_bt_gatt_status_t :=
  match p_att_req.opcode with
  | .GATT_REQ_READ | .GATT_REQ_READ_BLOB =>
    let r := app_gatt_req_read_handler env p_att_req.conn_id p_att_req.opcode
      p_att_req.read_req p_att_req.len_requested s
    .ret r.1 r.2
  | .GATT_REQ_READ_BY_TYPE =>
    app_gatt_req_read_by_type_handler env p_att_req.conn_id p_att_req.opcode
      p_att_req.read_by_type p_att_req.len_requested s
  | .GATT_REQ_READ_MULTI | .GATT_REQ_READ_MULTI_VAR_LENGTH =>
    app_gatt_req_read_multi_handler env p_att_req.conn_id p_att_req.opcode
      p_att_req.read_multiple_req p_att_req.len_requested s
  | .GATT_REQ_WRITE | .GATT_CMD_WRITE | .GATT_CMD_SIGNED_WRITE =>
    (app_bt_write_handler cfg env p_att_req.write_req s).bind fun status s1 =>
      if p_att_req.opcode = .GATT_REQ_WRITE ∧ status = .WICED_BT_GATT_SUCCESS then
        .ret status (s1.call (.wiced_bt_gatt_server_send_write_rsp p_att_req.conn_id
          p_att_req.opcode p_att_req.write_req.handle))
      else
        .ret status s1
  | .GATT_REQ_PREPARE_WRITE =>
    let r := app_bt_prepare_write_handler cfg p_att_req.conn_id p_att_req.opcode
      p_att_req.write_req s
    if p_att_req.opcode = .GATT_REQ_PREPARE_WRITE ∧ r.1 ≠ .WICED_BT_GATT_SUCCESS then
      .ret r.1 (r.2.call (.wiced_bt_gatt_server_send_error_rsp p_att_req.conn_id
        p_att_req.opcode p_att_req.write_req.handle r.1))
    else
      .ret r.1 r.2
  | .GATT_REQ_EXECUTE_WRITE =>
    (app_bt_execute_write_handler cfg env s).bind fun status s1 =>
      if p_att_req.opcode = .GATT_REQ_EXECUTE_WRITE ∧ status = .WICED_BT_GATT_SUCCESS then
        .ret .WICED_BT_GATT_SUCCESS
          (s1.call (.wiced_bt_gatt_server_send_execute_write_rsp p_att_req.conn_id
            p_att_req.opcode))
      else
        .ret status (s1.call (.wiced_bt_gatt_server_send_error_rsp p_att_req.conn_id
          p_att_req.opcode
          (if s.write_buff.in_use = true then s.write_buff.handle
            else p_att_req.write_req.handle)
          status))
  | .GATT_REQ_MTU =>
    .ret env.wiced_bt_gatt_server_send_mtu_rsp
      (s.call (.wiced_bt_gatt_server_send_mtu_rsp p_att_req.conn_id p_att_req.remote_mtu
        cfg.CY_BT_MTU_SIZE))
  | .GATT_HANDLE_VALUE_CONF => handle_value_conf env s
  | .GATT_HANDLE_VALUE_NOTIF => .ret .WICED_BT_GATT_ERROR s
  | .other _ => .ret .WICED_BT_GATT_ERROR s

/-! ## Connection events and the GATT event handler -/

/-- The address length `BD_ADDR_LEN`. -/
def BD_ADDR_LEN : Nat := 6

/-- The connection callback `app_bt_connect_callback`: a connect stores the
connection id and the peer address and stops advertising; a disconnect zeroes
the connection id and restarts advertising. The status is the stack's. -/
def app_bt_connect_callback (env : Env) (p_conn_status : wiced_bt_gatt_connection_status_t)
    (s : State) : wiced_bt_gatt_status_t × State :=
  if p_conn_status.connected = true then
    let s1 := { s with ota_app := { s.ota_app with
      bt_conn_id := p_conn_status.conn_id
      bt_peer_addr := memcpy s.ota_app.bt_peer_addr 0 p_conn_status.bd_addr.bytes BD_ADDR_LEN } }
    (env.wiced_bt_start_advertisements,
      s1.call (.wiced_bt_start_advertisements .BTM_BLE_ADVERT_OFF))
  else
    let s1 := { s with ota_app := { s.ota_app with bt_conn_id := 0 } }
    (env.wiced_bt_start_advertisements,
      s1.call (.wiced_bt_start_advertisements .BTM_BLE_ADVERT_UNDIRECTED_HIGH))

/-- The event handler `app_bt_gatt_event_handler`. The two buffer events only
allocate and free response buffers, which the state does not track. -/
def app_bt_gatt_event_handler (cfg : Config) (env : Env) (event : wiced_bt_gatt_event)
    (s : State) : Outcome wiced_bt_gatt_status_t :=
  match event with
  | .GATT_CONNECTION_STATUS_EVT connection_status =>
    let r := app_bt_connect_callback env connection_status s
    .ret r.1 r.2
  | .GATT_ATTRIBUTE_REQUEST_EVT attribute_request =>
    app_bt_server_callback cfg env attribute_request s
  | .GATT_GET_RESPONSE_BUFFER_EVT _ => .ret .WICED_BT_GATT_SUCCESS s
  | .GATT_APP_BUFFER_TRANSMITTED_EVT => .ret .WICED_BT_GATT_SUCCESS s
  | .GATT_OPERATION_CPLT_EVT => .ret .WICED_BT_GATT_SUCCESS s
  | .other _ => .ret .WICED_BT_GATT_SUCCESS s

/-! ## Link keys: the two bonding cases of the management callback -/

/-- The bound `BOND_MAX` on the number of link-key records. -/
def BOND_MAX : Nat := 4

/-- The static `bondinfo` and the log of external calls. -/
structure BtmState where
  bondinfo : bondinfo_t
  calls : List Call
  deriving DecidableEq, Repr

/-- The static `bondinfo` at start-up: all zero. -/
def bondinfo_init : bondinfo_t :=
  { slot_data := { NUM_BONDED := 0, NEXT_FREE := 0 }
    link_keys := List.replicate BOND_MAX
      { bd_addr := { b0 := 0, b1 := 0, b2 := 0, b3 := 0, b4 := 0, b5 := 0 }, key_data := 0 } }

/-- The case `BTM_PAIRED_DEVICE_LINK_KEYS_UPDATE_EVT` of
`app_bt_management_callback` (build without `USE_EEPROM_TO_STORE_BOND_INFO`):
the record is assigned to `link_keys[slot_data[NEXT_FREE]]` and handed to the
address resolution database, whose result is the status. There is no result
when the index lies outside the array. -/
def btm_paired_device_link_keys_update_evt (env : Env)
    (paired_device_link_keys_update : wiced_bt_device_link_keys_t) (st : BtmState) :
    Option (wiced_result_t × BtmState) :=
  if st.bondinfo.slot_data.NEXT_FREE < st.bondinfo.link_keys.length then
    let bondinfo := { st.bondinfo with
      link_keys := st.bondinfo.link_keys.set st.bondinfo.slot_data.NEXT_FREE
        paired_device_link_keys_update }
    some (env.wiced_bt_dev_add_device_to_address_resolution_db,
      { bondinfo := bondinfo
        calls := st.calls ++
          [.wiced_bt_dev_add_device_to_address_resolution_db paired_device_link_keys_update] })
  else
    none

/-- How the scan over the stored records ends: at the first record whose six
address bytes match, past the last counted record, or outside the array. -/
inductive link_keys_scan_exit where
  | found (keys : wiced_bt_device_link_keys_t)
  | not_found
  | out_of_range
  deriving DecidableEq, Repr

/-- The `for (uint8_t count = 0; count < slot_data[NUM_BONDED]; count++)` loop of
the request case, from index `count` on, for at most `fuel` rounds. -/
def link_keys_scan (bondinfo : bondinfo_t) (bd_addr : wiced_bt_device_address_t)
    (fuel count : Nat) : link_keys_scan_exit :=
  match fuel with
  | 0 => .out_of_range
  | n + 1 =>
    if count < bondinfo.slot_data.NUM_BONDED then
      match bondinfo.link_keys[count]? with
      | none => .out_of_range
      | some keys =>
        if keys.bd_addr.b0 = bd_addr.b0 ∧ keys.bd_addr.b1 = bd_addr.b1 ∧
            keys.bd_addr.b2 = bd_addr.b2 ∧ keys.bd_addr.b3 = bd_addr.b3 ∧
            keys.bd_addr.b4 = bd_addr.b4 ∧ keys.bd_addr.b5 = bd_addr.b5 then
          .found keys
        else
          link_keys_scan bondinfo bd_addr n ((count + 1) % 2 ^ 8)
    else
      .not_found

/-- The case `BTM_PAIRED_DEVICE_LINK_KEYS_REQUEST_EVT` of
`app_bt_management_callback`: the status, and the request data as the case
leaves it. `bondinfo` is only read. There is no result when the scan leaves
the array or, its `uint8_t` counter wrapping, does not end. -/
def btm_paired_device_link_keys_request_evt (bondinfo : bondinfo_t)
    (paired_device_link_keys_request : wiced_bt_device_link_keys_t) :
    Option (wiced_result_t × wiced_bt_device_link_keys_t) :=
  match link_keys_scan bondinfo paired_device_link_keys_request.bd_addr
      (bondinfo.slot_data.NUM_BONDED + 1) 0 with
  | .found keys => some (.WICED_BT_SUCCESS, keys)
  | .not_found => some (.WICED_BT_ERROR, paired_device_link_keys_request)
  | .out_of_range => none

/-! ## Properties of the attribute table -/

/-- The attribute table the invocation ended with satisfies `P`. -/
def Outcome.table_sat {α : Type} (o : Outcome α) (P : List gatt_db_lookup_table_t → Prop) :
    Prop :=
  match o with
  | .ret _ s => P s.app_gatt_db_ext_attr_tbl
  | .hang s => P s.app_gatt_db_ext_attr_tbl
  | .fault => True

/-- Table `tbl1` is `tbl` except, at most, for the first row whose handle is
`target`, which keeps its handle and capacity. -/
def only_first_match_changed (target : Nat) (tbl tbl1 : List gatt_db_lookup_table_t) : Prop :=
  tbl1 = tbl ∨
    ∃ (pre : List gatt_db_lookup_table_t) (e e1 : gatt_db_lookup_table_t)
      (post : List gatt_db_lookup_table_t),
      tbl = pre ++ e :: post ∧ tbl1 = pre ++ e1 :: post ∧ e.handle = target ∧
        e1.handle = target ∧ e1.max_len = e.max_len ∧ ∀ x ∈ pre, x.handle ≠ target

/-- Every row's current length is within its capacity. -/
def table_bounded (tbl : List gatt_db_lookup_table_t) : Prop :=
  ∀ e ∈ tbl, e.cur_len ≤ e.max_len

/-! ## Scenario drivers -/

/-- One prepare-write per chunk, in order, all for handle `h`; the first at
offset `off`, each later one at the offset where the previous chunk ended.
Yields the statuses returned, in order, and the final state. -/
def prepare_chunks (cfg : Config) (conn_id : Nat) (opcode : wiced_bt_gatt_opcode_t) (h : Nat)
    (chunks : List (List Nat)) (off : Nat) (s : State) :
    List wiced_bt_gatt_status_t × State :=
  match chunks with
  | [] => ([], s)
  | c :: cs =>
    let r := app_bt_prepare_write_handler cfg conn_id opcode
      { handle := h, offset := off, p_val := c, val_len := c.length } s
    let rs := prepare_chunks cfg conn_id opcode h cs (off + c.length) r.2
    (r.1 :: rs.1, rs.2)

/-- States the long-write buffer can be in: `bt_app_init` zeroes it, and every
prepare-write (carrying `val_len` bytes) and execute-write moves it on. The
state a handler that never returns is stuck in counts as reached too. -/
inductive Reachable (cfg : Config) : State → Prop where
  | init (tbl : List gatt_db_lookup_table_t) (app : ota_app_context_t) (calls : List Call) :
      Reachable cfg
        { app_gatt_db_ext_attr_tbl := tbl, ota_app := app, write_buff := write_buff_init cfg,
          calls := calls }
  | prepare_write (s : State) (conn_id : Nat) (opcode : wiced_bt_gatt_opcode_t)
      (p_req : wiced_bt_gatt_write_req_t) :
      Reachable cfg s → p_req.val_len ≤ p_req.p_val.length →
      Reachable cfg (app_bt_prepare_write_handler cfg conn_id opcode p_req s).2
  | execute_write (s : State) (env : Env) (st : wiced_bt_gatt_status_t) (s1 : State) :
      Reachable cfg s → app_bt_execute_write_handler cfg env s = .ret st s1 →
      Reachable cfg s1
  | execute_write_hang (s : State) (env : Env) (s1 : State) :
      Reachable cfg s → app_bt_execute_write_handler cfg env s = .hang s1 →
      Reachable cfg s1

/-- Agreement of two outcomes in everything downstream of the long-write
buffer: how the invocation ended, the status returned, the attribute table,
the application context and the external calls made. -/
def same_downstream (a b : Outcome wiced_bt_gatt_status_t) : Prop :=
  match a, b with
  | .ret st1 s1, .ret st2 s2 =>
    st1 = st2 ∧ s1.app_gatt_db_ext_attr_tbl = s2.app_gatt_db_ext_attr_tbl ∧
      s1.ota_app = s2.ota_app ∧ s1.calls = s2.calls
  | .hang s1, .hang s2 =>
    s1.app_gatt_db_ext_attr_tbl = s2.app_gatt_db_ext_attr_tbl ∧
      s1.ota_app = s2.ota_app ∧ s1.calls = s2.calls
  | .fault, .fault => True
  | _, _ => False

/-- One prepare-write per request, in order. Yields the statuses returned, in
order, and the final state. -/
def prepare_all (cfg : Config) (conn_id : Nat) (opcode : wiced_bt_gatt_opcode_t)
    (reqs : List wiced_bt_gatt_write_req_t) (s : State) :
    List wiced_bt_gatt_status_t × State :=
  match reqs with
  | [] => ([], s)
  | r :: rs =>
    let res := app_bt_prepare_write_handler cfg conn_id opcode r s
    let rest := prepare_all cfg conn_id opcode rs res.2
    (res.1 :: rest.1, rest.2)

/-- One link-key update event per record, in order; no result once an update has none. -/
def link_keys_updates (env : Env) (records : List wiced_bt_device_link_keys_t)
    (st : BtmState) : Option BtmState :=
  match records with
  | [] => some st
  | r :: rs =>
    match btm_paired_device_link_keys_update_evt env r st with
    | none => none
    | some res => link_keys_updates env rs res.2

/-- Bond states the device can be in: `bondinfo` starts zeroed and every
link-key update event moves it on (a link-key request event only reads it). -/
inductive BondReachable : BtmState → Prop where
  | init (calls : List Call) : BondReachable { bondinfo := bondinfo_init, calls := calls }
  | update (st : BtmState) (env : Env) (r : wiced_bt_device_link_keys_t)
      (status : wiced_result_t) (st1 : BtmState) :
      BondReachable st → btm_paired_device_link_keys_update_evt env r st = some (status, st1) →
      BondReachable st1

/-! ## Sample data for concrete evaluations -/

/-- A sample configuration: the default ATT MTU of 23 bytes, three attribute
handles, and the command and status bytes as the control-point table lists them. -/
def sample_cfg : Config :=
  { CY_BT_MTU_SIZE := 23
    HDLD_OTA_FW_UPGRADE_SERVICE_OTA_UPGRADE_CONTROL_POINT_CLIENT_CHAR_CONFIG := 12
    HDLC_OTA_FW_UPGRADE_SERVICE_OTA_UPGRADE_CONTROL_POINT_VALUE := 11
    HDLC_OTA_FW_UPGRADE_SERVICE_OTA_UPGRADE_DATA_VALUE := 14
    CY_OTA_UPGRADE_COMMAND_PREPARE_DOWNLOAD := 1
    CY_OTA_UPGRADE_COMMAND_DOWNLOAD := 2
    CY_OTA_UPGRADE_COMMAND_VERIFY := 3
    CY_OTA_UPGRADE_COMMAND_ABORT := 4
    CY_OTA_UPGRADE_STATUS_OK := 0
    CY_OTA_UPGRADE_STATUS_BAD := 1 }

/-- A sample environment in which every external call succeeds. -/
def sample_env : Env :=
  { cy_ota_agent_start := .CY_RSLT_SUCCESS
    cy_ota_agent_start_context := 1
    cy_ota_ble_download_prepare := .CY_RSLT_SUCCESS
    cy_ota_ble_download := .CY_RSLT_SUCCESS
    cy_ota_ble_download_verify := .CY_RSLT_SUCCESS
    cy_ota_ble_download_abort := .CY_RSLT_SUCCESS
    cy_ota_ble_download_abort_context := 0
    cy_ota_ble_download_write := .CY_RSLT_SUCCESS
    wiced_bt_gatt_server_send_notification := .WICED_BT_GATT_SUCCESS
    wiced_bt_gatt_server_send_indication := .WICED_BT_GATT_SUCCESS
    wiced_bt_gatt_server_send_read_handle_rsp := .WICED_BT_GATT_SUCCESS
    app_bt_alloc_buffer := true
    read_by_type_steps := [{ found := 3, filled := 4, pair_len := 4 },
      { found := 0, filled := 0, pair_len := 0 }]
    wiced_bt_gatt_get_handle_from_stream := [3, 5]
    wiced_bt_gatt_put_read_multi_rsp_in_stream := [2, 3]
    wiced_bt_gatt_server_send_mtu_rsp := .WICED_BT_GATT_SUCCESS
    cy_ota_get_state := .other 0
    cy_ota_agent_stop_context := 0
    wiced_bt_start_advertisements := .WICED_BT_GATT_SUCCESS
    wiced_bt_dev_add_device_to_address_resolution_db := .WICED_BT_SUCCESS }

/-- A sample application context, as `ota_initialize_default_values` leaves it,
with a connection open. -/
def sample_app : ota_app_context_t :=
  { tag := OTA_APP_TAG_VALID
    ota_context := 0
    connection_type := .CY_OTA_CONNECTION_UNKNOWN
    bt_conn_id := 1
    bt_peer_addr := [1, 2, 3, 4, 5, 6]
    bt_config_descriptor := 0
    update_flow := 0
    reboot_at_end := 1 }

/-- A sample attribute table: one two-byte row and one row with room to spare. -/
def sample_tbl : List gatt_db_lookup_table_t :=
  [ { handle := 3, max_len := 2, cur_len := 2, p_data := [7, 9] },
    { handle := 5, max_len := 4, cur_len := 3, p_data := [10, 20, 30, 0] } ]

/-- A sample attribute request with the given opcode, every member filled in. -/
def sample_att_req (opcode : wiced_bt_gatt_opcode_t) : wiced_bt_gatt_attribute_request_t :=
  { conn_id := 1
    opcode := opcode
    len_requested := 22
    read_req := { handle := 5, offset := 0 }
    read_by_type := { s_handle := 1, e_handle := 65535, uuid := 10240 }
    read_multiple_req := { num_handles := 2, p_handle_stream := [3, 0, 5, 0] }
    write_req := { handle := 5, offset := 0, p_val := [1, 2], val_len := 2 }
    remote_mtu := 247 }

/-- A sample link-key record for the address `n:n:n:n:n:n`. -/
def sample_keys (n : Nat) : wiced_bt_device_link_keys_t :=
  { bd_addr := { b0 := n, b1 := n, b2 := n, b3 := n, b4 := n, b5 := n }, key_data := 100 + n }

/-- A sample bond table holding two counted records. -/
def sample_bondinfo : bondinfo_t :=
  { slot_data := { NUM_BONDED := 2, NEXT_FREE := 2 }
    link_keys := [sample_keys 1, sample_keys 2, sample_keys 0, sample_keys 0] }

/-- A sample state right after `bt_app_init`. -/
def sample_state : State :=
  { app_gatt_db_ext_attr_tbl := sample_tbl
    ota_app := sample_app
    write_buff := write_buff_init sample_cfg
    calls := [] }

/-- The sample state after a prepare-write has buffered the four bytes
`[2, 0, 4, 0]`, a Download command with three size bytes, for the control point. -/
def sample_buffered_download : State :=
  (app_bt_prepare_write_handler sample_cfg 1 .GATT_REQ_PREPARE_WRITE
    { handle := 11, offset := 0, p_val := [2, 0, 4, 0], val_len := 4 } sample_state).2

/-- A single write of the same four bytes to the control point, the memory
behind the value holding the byte `0xAB`. -/
def sample_single_download : wiced_bt_gatt_write_req_t :=
  { handle := 11, offset := 0, p_val := [2, 0, 4, 0, 0xAB], val_len := 4 }

/-! ## Helper lemmas -/

theorem begin_sequence_of_in_use (cfg : Config) (wb : gatt_write_req_buf_t)
    (h : wb.in_use = true) : begin_sequence cfg wb = wb := by
  simp [begin_sequence, h]

theorem begin_sequence_of_idle (cfg : Config) (wb : gatt_write_req_buf_t)
    (h : wb.in_use = false) :
    begin_sequence cfg wb =
      { value := List.replicate cfg.CY_BT_MTU_SIZE 0, written := 0, in_use := true,
        handle := 0 } := by
  simp [begin_sequence, h]

theorem begin_sequence_written (cfg : Config) (wb : gatt_write_req_buf_t) :
    (begin_sequence cfg wb).written = if wb.in_use = true then wb.written else 0 := by
  cases h : wb.in_use <;> simp [begin_sequence, h]

theorem begin_sequence_in_use (cfg : Config) (wb : gatt_write_req_buf_t) :
    (begin_sequence cfg wb).in_use = true := by
  cases h : wb.in_use <;> simp [begin_sequence, h]

/-! ## Attribute reads -/

/-- C7. A read of a found row at an offset below its current length answers
with `min len_requested (cur_len - offset)` bytes, which are the row's bytes
from `offset` on, and returns what the stack's send call returns. -/
theorem read_handler_in_range (env : Env) (conn_id : Nat) (opcode : wiced_bt_gatt_opcode_t)
    (p_read_req : wiced_bt_gatt_read_t) (len_requested : Nat) (s : State)
    (row : gatt_db_lookup_table_t)
    (hfind : app_bt_find_by_handle s.app_gatt_db_ext_attr_tbl p_read_req.handle = some row)
    (hbuf : row.cur_len ≤ row.p_data.length)
    (hoff : p_read_req.offset < row.cur_len) :
    ∃ data : List Nat,
      app_gatt_req_read_handler env conn_id opcode p_read_req len_requested s =
        (env.wiced_bt_gatt_server_send_read_handle_rsp,
          s.call (.wiced_bt_gatt_server_send_read_handle_rsp conn_id opcode
            (min len_requested (row.cur_len - p_read_req.offset)) data)) ∧
      data.length = min len_requested (row.cur_len - p_read_req.offset) ∧
      ∀ i, i < min len_requested (row.cur_len - p_read_req.offset) →
        data[i]? = row.p_data[p_read_req.offset + i]? := by
  refine ⟨(row.p_data.drop p_read_req.offset).take
    (min len_requested (row.cur_len - p_read_req.offset)), ?_, ?_, ?_⟩
  · simp [app_gatt_req_read_handler, hfind, Nat.not_le.mpr hoff]
  · simp only [List.length_take, List.length_drop]
    omega
  · intro i hi
    rw [List.getElem?_take, if_pos hi, List.getElem?_drop]

/-- Witness for C7: handle 5 of the sample table read at offset 1. -/
theorem read_handler_in_range_witness :
    ∃ data : List Nat,
      app_gatt_req_read_handler sample_env 1 .GATT_REQ_READ { handle := 5, offset := 1 } 10
          sample_state =
        (sample_env.wiced_bt_gatt_server_send_read_handle_rsp,
          sample_state.call (.wiced_bt_gatt_server_send_read_handle_rsp 1 .GATT_REQ_READ
            (min 10 (3 - 1)) data)) ∧
      data.length = min 10 (3 - 1) ∧
      ∀ i, i < min 10 (3 - 1) → data[i]? = [10, 20, 30, 0][1 + i]? :=
  read_handler_in_range sample_env 1 .GATT_REQ_READ { handle := 5, offset := 1 } 10
    sample_state { handle := 5, max_len := 4, cur_len := 3, p_data := [10, 20, 30, 0] }
    (by decide) (by decide) (by decide)

/-- C8 as stated fails: a read of handle 3 (two bytes long) at offset 2 does
not return `WICED_BT_GATT_INVALID_OFFSET`. -/
theorem read_handler_bad_offset_counterexample :
    ¬ ∀ (env : Env) (conn_id : Nat) (opcode : wiced_bt_gatt_opcode_t)
        (p_read_req : wiced_bt_gatt_read_t) (len_requested : Nat) (s : State)
        (row : gatt_db_lookup_table_t),
        app_bt_find_by_handle s.app_gatt_db_ext_attr_tbl p_read_req.handle = some row →
        p_read_req.offset ≥ row.cur_len →
        (app_gatt_req_read_handler env conn_id opcode p_read_req len_requested s).1 =
            .WICED_BT_GATT_INVALID_OFFSET ∧
          ∀ n data, Call.wiced_bt_gatt_server_send_read_handle_rsp conn_id opcode n data ∈
              (app_gatt_req_read_handler env conn_id opcode p_read_req len_requested s).2.calls →
            Call.wiced_bt_gatt_server_send_read_handle_rsp conn_id opcode n data ∈ s.calls := by
  intro h
  have h1 := h sample_env 1 .GATT_REQ_READ { handle := 3, offset := 2 } 10 sample_state
    { handle := 3, max_len := 2, cur_len := 2, p_data := [7, 9] } rfl (by decide)
  exact absurd h1.1 (by decide)

/-- C8, amended. A read of a found row at an offset not below its current
length sends one error response, carrying `WICED_BT_GATT_INVALID_OFFSET`, and
nothing else: no read response. The status returned to the caller is
`WICED_BT_GATT_INVALID_HANDLE`, as on every error exit of the read handlers. -/
theorem read_handler_bad_offset (env : Env) (conn_id : Nat) (opcode : wiced_bt_gatt_opcode_t)
    (p_read_req : wiced_bt_gatt_read_t) (len_requested : Nat) (s : State)
    (row : gatt_db_lookup_table_t)
    (hfind : app_bt_find_by_handle s.app_gatt_db_ext_attr_tbl p_read_req.handle = some row)
    (hoff : p_read_req.offset ≥ row.cur_len) :
    app_gatt_req_read_handler env conn_id opcode p_read_req len_requested s =
      (.WICED_BT_GATT_INVALID_HANDLE,
        s.call (.wiced_bt_gatt_server_send_error_rsp conn_id opcode p_read_req.handle
          .WICED_BT_GATT_INVALID_OFFSET)) := by
  simp [app_gatt_req_read_handler, hfind, hoff]

/-- Witness for C8, amended: handle 3 of the sample table, two bytes long, read
at offset 2. -/
theorem read_handler_bad_offset_witness :
    app_gatt_req_read_handler sample_env 1 .GATT_REQ_READ { handle := 3, offset := 2 } 10
        sample_state =
      (.WICED_BT_GATT_INVALID_HANDLE,
        sample_state.call (.wiced_bt_gatt_server_send_error_rsp 1 .GATT_REQ_READ 3
          .WICED_BT_GATT_INVALID_OFFSET)) :=
  read_handler_bad_offset sample_env 1 .GATT_REQ_READ { handle := 3, offset := 2 } 10
    sample_state { handle := 3, max_len := 2, cur_len := 2, p_data := [7, 9] } rfl
    (by decide)

/-! ## Control-point length checks -/

/-- C9. A four-byte Download command (opcode and three size bytes) passes the
`val_len < 4` check; the handler then reads `p_val[4]`, which lies outside the
value, instead of returning `WICED_BT_GATT_ERROR`. -/
theorem download_four_bytes_not_rejected (env : Env) (s : State) :
    app_bt_write_handler sample_cfg env
        { handle := 11, offset := 0, p_val := [2, 0, 4, 0], val_len := 4 } s =
      .fault := by
  rfl

/-- C10. A control-point write whose first byte is the Verify command and whose
length is not 5 returns `WICED_BT_GATT_ERROR` and leaves the state, the call log
included, as it was: no verify call, no indication. -/
theorem verify_wrong_length_rejected (cfg : Config) (env : Env)
    (p_write_req : wiced_bt_gatt_write_req_t) (s : State) (hcfg : cfg.wf)
    (hhandle : p_write_req.handle =
      cfg.HDLC_OTA_FW_UPGRADE_SERVICE_OTA_UPGRADE_CONTROL_POINT_VALUE)
    (hop : payload_get p_write_req 0 = some cfg.CY_OTA_UPGRADE_COMMAND_VERIFY)
    (hlen : p_write_req.val_len ≠ 5) :
    app_bt_write_handler cfg env p_write_req s = .ret .WICED_BT_GATT_ERROR s := by
  obtain ⟨_, h1, _, _, _, h5, _, h7, _, _⟩ := hcfg
  simp [app_bt_write_handler, hhandle, hop, Ne.symm h1, Ne.symm h5, Ne.symm h7, cmd_verify,
    hlen]

/-- Witness for C10: a four-byte Verify command under the sample configuration. -/
theorem verify_wrong_length_rejected_witness :
    app_bt_write_handler sample_cfg sample_env
        { handle := 11, offset := 0, p_val := [3, 1, 2, 3], val_len := 4 } sample_state =
      .ret .WICED_BT_GATT_ERROR sample_state :=
  verify_wrong_length_rejected sample_cfg sample_env
    { handle := 11, offset := 0, p_val := [3, 1, 2, 3], val_len := 4 } sample_state
    (by decide) (by decide) (by decide) (by decide)

/-! ## Long writes: single prepare-write and execute-write steps -/

theorem keeps_write_buff_bind {α β : Type} (o : Outcome α) (f : α → State → Outcome β)
    (wb : gatt_write_req_buf_t) (ho : o.keeps_write_buff wb)
    (hf : ∀ v s, s.write_buff = wb → (f v s).keeps_write_buff wb) :
    (o.bind f).keeps_write_buff wb := by
  cases o with
  | ret v s => exact hf v s ho
  | hang s => exact ho
  | fault => trivial

theorem init_ota_keeps_write_buff (env : Env) (s : State) :
    (init_ota env s).keeps_write_buff s.write_buff := by
  unfold init_ota
  simp only [State.call]
  repeat' split
  all_goals simp [Outcome.keeps_write_buff]

theorem cmd_prepare_download_keeps_write_buff (cfg : Config) (env : Env) (s : State) :
    (cmd_prepare_download cfg env s).keeps_write_buff s.write_buff := by
  unfold cmd_prepare_download
  apply keeps_write_buff_bind
  · exact init_ota_keeps_write_buff env _
  · intro v s2 h2
    simp only [app_bt_ble_send_notification, State.call]
    repeat' split
    all_goals simpa [Outcome.keeps_write_buff] using h2

theorem cmd_download_keeps_write_buff (cfg : Config) (env : Env)
    (p_write_req : wiced_bt_gatt_write_req_t) (s : State) :
    (cmd_download cfg env p_write_req s).keeps_write_buff s.write_buff := by
  unfold cmd_download
  simp only [app_bt_ble_send_notification, State.call]
  repeat' split
  all_goals simp [Outcome.keeps_write_buff]

theorem cmd_verify_keeps_write_buff (cfg : Config) (env : Env)
    (p_write_req : wiced_bt_gatt_write_req_t) (s : State) :
    (cmd_verify cfg env p_write_req s).keeps_write_buff s.write_buff := by
  unfold cmd_verify
  simp only [app_bt_ble_send_indication, State.call]
  repeat' split
  all_goals simp [Outcome.keeps_write_buff]

theorem cmd_abort_keeps_write_buff (env : Env) (s : State) :
    (cmd_abort env s).keeps_write_buff s.write_buff := by
  simp [cmd_abort, Outcome.keeps_write_buff, State.call]

theorem write_handler_keeps_write_buff (cfg : Config) (env : Env)
    (p_write_req : wiced_bt_gatt_write_req_t) (s : State) :
    (app_bt_write_handler cfg env p_write_req s).keeps_write_buff s.write_buff := by
  unfold app_bt_write_handler
  simp only [State.call]
  repeat' split
  all_goals first
    | exact cmd_prepare_download_keeps_write_buff cfg env s
    | exact cmd_download_keeps_write_buff cfg env p_write_req s
    | exact cmd_verify_keeps_write_buff cfg env p_write_req s
    | exact cmd_abort_keeps_write_buff env s
    | simp [Outcome.keeps_write_buff]

theorem write_handler_write_buff (cfg : Config) (env : Env)
    (p_write_req : wiced_bt_gatt_write_req_t) (s : State) (st : wiced_bt_gatt_status_t)
    (s1 : State) (h : app_bt_write_handler cfg env p_write_req s = .ret st s1) :
    s1.write_buff = s.write_buff := by
  have hk := write_handler_keeps_write_buff cfg env p_write_req s
  rw [h] at hk
  exact hk

/-- C2 as stated fails: after an execute-write the idle buffer still holds
`written = 10`; a prepare-write at offset 0 differs from that count, yet it is
accepted and `written` becomes 1. -/
theorem prepare_offset_mismatch_counterexample :
    ¬ ∀ (cfg : Config) (conn_id : Nat) (opcode : wiced_bt_gatt_opcode_t)
        (p_req : wiced_bt_gatt_write_req_t) (s : State),
        p_req.offset ≠ s.write_buff.written →
          (app_bt_prepare_write_handler cfg conn_id opcode p_req s).1 ≠
              .WICED_BT_GATT_SUCCESS ∧
            (app_bt_prepare_write_handler cfg conn_id opcode p_req s).2.write_buff.written =
              s.write_buff.written := by
  intro h
  have h1 := h sample_cfg 1 .GATT_REQ_PREPARE_WRITE
    { handle := 5, offset := 0, p_val := [1], val_len := 1 }
    { sample_state with write_buff :=
        { value := List.replicate 23 0, written := 10, handle := 5, in_use := false } }
    (by decide)
  exact h1.1 (by decide)

/-- C2, amended. The handler compares the offset with the count in effect after
its opening block: the stored `written` when the buffer is in use, 0 when it is
idle. A request whose offset differs from that count returns
`WICED_BT_GATT_ERROR`, sends nothing, and leaves `written` at that count. -/
theorem prepare_offset_mismatch_rejected (cfg : Config) (conn_id : Nat)
    (opcode : wiced_bt_gatt_opcode_t) (p_req : wiced_bt_gatt_write_req_t) (s : State)
    (hoff : p_req.offset ≠ if s.write_buff.in_use = true then s.write_buff.written else 0) :
    (app_bt_prepare_write_handler cfg conn_id opcode p_req s).1 = .WICED_BT_GATT_ERROR ∧
      (app_bt_prepare_write_handler cfg conn_id opcode p_req s).2.write_buff.written =
        (if s.write_buff.in_use = true then s.write_buff.written else 0) ∧
      (app_bt_prepare_write_handler cfg conn_id opcode p_req s).2.calls = s.calls := by
  rw [← begin_sequence_written cfg] at hoff ⊢
  simp [app_bt_prepare_write_handler, Ne.symm hoff]

/-- Witness for C2, amended: a buffer in use with 4 bytes written, offset 7. -/
theorem prepare_offset_mismatch_rejected_witness :
    (app_bt_prepare_write_handler sample_cfg 1 .GATT_REQ_PREPARE_WRITE
        { handle := 5, offset := 7, p_val := [1], val_len := 1 }
        { sample_state with write_buff :=
            { value := List.replicate 23 0, written := 4, handle := 5,
              in_use := true } }).1 = .WICED_BT_GATT_ERROR ∧
      (app_bt_prepare_write_handler sample_cfg 1 .GATT_REQ_PREPARE_WRITE
        { handle := 5, offset := 7, p_val := [1], val_len := 1 }
        { sample_state with write_buff :=
            { value := List.replicate 23 0, written := 4, handle := 5,
              in_use := true } }).2.write_buff.written = (if true = true then 4 else 0) ∧
      (app_bt_prepare_write_handler sample_cfg 1 .GATT_REQ_PREPARE_WRITE
        { handle := 5, offset := 7, p_val := [1], val_len := 1 }
        { sample_state with write_buff :=
            { value := List.replicate 23 0, written := 4, handle := 5,
              in_use := true } }).2.calls = [] :=
  prepare_offset_mismatch_rejected sample_cfg 1 .GATT_REQ_PREPARE_WRITE
    { handle := 5, offset := 7, p_val := [1], val_len := 1 }
    { sample_state with write_buff :=
        { value := List.replicate 23 0, written := 4, handle := 5, in_use := true } }
    (by decide)

/-- C4. Either the execute-write handler returns and `in_use` is then false,
whatever status the write path gave; or the buffer was in use and the write
path itself did not return, so that the handler does not return either. -/
theorem execute_clears_in_use (cfg : Config) (env : Env) (s : State) :
    (∃ st s1, app_bt_execute_write_handler cfg env s = .ret st s1 ∧
        s1.write_buff.in_use = false) ∨
      (s.write_buff.in_use = true ∧
        (app_bt_write_handler cfg env (execute_write_req s.write_buff) s).returns = false ∧
        (app_bt_execute_write_handler cfg env s).returns = false) := by
  cases hin : s.write_buff.in_use
  · left
    exact ⟨.WICED_BT_GATT_ERROR, s, by simp [app_bt_execute_write_handler, hin], hin⟩
  · cases hw : app_bt_write_handler cfg env (execute_write_req s.write_buff) s with
    | ret st s1 =>
      left
      exact ⟨st, { s1 with write_buff := { s1.write_buff with in_use := false } },
        by simp [app_bt_execute_write_handler, hin, hw, Outcome.bind], rfl⟩
    | hang s1 =>
      right
      simp [app_bt_execute_write_handler, hin, hw, Outcome.bind, Outcome.returns]
    | fault =>
      right
      simp [app_bt_execute_write_handler, hin, hw, Outcome.bind, Outcome.returns]

theorem memcpy_length (dst src : List Nat) (off n : Nat) (hsrc : n ≤ src.length)
    (hdst : off + n ≤ dst.length) : (memcpy dst off src n).length = dst.length := by
  simp only [memcpy, List.length_append, List.length_take, List.length_drop]
  omega

theorem memcpy_drop_take (dst src : List Nat) (off n : Nat) (hsrc : n ≤ src.length)
    (hdst : off ≤ dst.length) : ((memcpy dst off src n).drop off).take n = src.take n := by
  have h1 : (dst.take off).length = off := by
    rw [List.length_take]
    omega
  have h2 : (src.take n).length = n := by
    rw [List.length_take]
    omega
  unfold memcpy
  rw [List.append_assoc, List.drop_left' h1, List.take_left' h2]

theorem begin_sequence_value_length (cfg : Config) (wb : gatt_write_req_buf_t)
    (h : wb.in_use = true → wb.value.length = cfg.CY_BT_MTU_SIZE) :
    (begin_sequence cfg wb).value.length = cfg.CY_BT_MTU_SIZE := by
  cases hin : wb.in_use
  · simp [begin_sequence, hin]
  · simpa [begin_sequence, hin] using h hin

/-- What an accepted prepare-write does, given the buffer after the opening block. -/
theorem prepare_accept (cfg : Config) (conn_id : Nat) (opcode : wiced_bt_gatt_opcode_t)
    (p_req : wiced_bt_gatt_write_req_t) (s : State)
    (hoff : (begin_sequence cfg s.write_buff).written = p_req.offset)
    (hfit : (begin_sequence cfg s.write_buff).written + p_req.val_len ≤ cfg.CY_BT_MTU_SIZE) :
    app_bt_prepare_write_handler cfg conn_id opcode p_req s =
      (.WICED_BT_GATT_SUCCESS,
        { s with
          write_buff :=
            { value := memcpy (begin_sequence cfg s.write_buff).value
                (begin_sequence cfg s.write_buff).written p_req.p_val p_req.val_len
              written := ((begin_sequence cfg s.write_buff).written + p_req.val_len) % 2 ^ 16
              handle := p_req.handle
              in_use := (begin_sequence cfg s.write_buff).in_use }
          calls := s.calls ++ [.wiced_bt_gatt_server_send_prepare_write_rsp conn_id opcode
            p_req.handle p_req.offset p_req.val_len
            (((memcpy (begin_sequence cfg s.write_buff).value
              (begin_sequence cfg s.write_buff).written p_req.p_val p_req.val_len).drop
                (begin_sequence cfg s.write_buff).written).take p_req.val_len)] }) := by
  have hfit2 : (cfg.CY_BT_MTU_SIZE : Int) - ((begin_sequence cfg s.write_buff).written : Int) ≥
      (p_req.val_len : Int) := by omega
  simp [app_bt_prepare_write_handler, hoff, hfit2, State.call]
  simpa [hoff] using hfit2

/-- What a refused prepare-write does. -/
theorem prepare_reject (cfg : Config) (conn_id : Nat) (opcode : wiced_bt_gatt_opcode_t)
    (p_req : wiced_bt_gatt_write_req_t) (s : State)
    (h : (begin_sequence cfg s.write_buff).written ≠ p_req.offset ∨
      cfg.CY_BT_MTU_SIZE < (begin_sequence cfg s.write_buff).written + p_req.val_len) :
    app_bt_prepare_write_handler cfg conn_id opcode p_req s =
      (.WICED_BT_GATT_ERROR, { s with write_buff := begin_sequence cfg s.write_buff }) := by
  by_cases hoff : (begin_sequence cfg s.write_buff).written = p_req.offset
  · have hbig : cfg.CY_BT_MTU_SIZE <
        (begin_sequence cfg s.write_buff).written + p_req.val_len := by
      rcases h with h | h
      · exact absurd hoff h
      · exact h
    have hfit2 : ¬ ((cfg.CY_BT_MTU_SIZE : Int) -
        ((begin_sequence cfg s.write_buff).written : Int) ≥ (p_req.val_len : Int)) := by omega
    rw [hoff] at hfit2
    simp only [app_bt_prepare_write_handler, hoff, if_true, if_neg hfit2]
  · simp [app_bt_prepare_write_handler, hoff]

/-- C5. An accepted prepare-write sends exactly one prepare-write response,
carrying the request's handle, its offset, its `val_len` and the bytes of its value. -/
theorem prepare_accepted_echo (cfg : Config) (conn_id : Nat) (opcode : wiced_bt_gatt_opcode_t)
    (p_req : wiced_bt_gatt_write_req_t) (s : State)
    (hbuf : s.write_buff.in_use = true → s.write_buff.value.length = cfg.CY_BT_MTU_SIZE)
    (hreq : p_req.val_len ≤ p_req.p_val.length)
    (hacc : (app_bt_prepare_write_handler cfg conn_id opcode p_req s).1 =
      .WICED_BT_GATT_SUCCESS) :
    (app_bt_prepare_write_handler cfg conn_id opcode p_req s).2.calls =
      s.calls ++ [.wiced_bt_gatt_server_send_prepare_write_rsp conn_id opcode p_req.handle
        p_req.offset p_req.val_len (payload p_req)] := by
  by_cases hrej : (begin_sequence cfg s.write_buff).written ≠ p_req.offset ∨
      cfg.CY_BT_MTU_SIZE < (begin_sequence cfg s.write_buff).written + p_req.val_len
  · rw [prepare_reject cfg conn_id opcode p_req s hrej] at hacc
    cases hacc
  · have hoff : (begin_sequence cfg s.write_buff).written = p_req.offset := by
      by_contra hne
      exact hrej (Or.inl hne)
    have hfit : (begin_sequence cfg s.write_buff).written + p_req.val_len ≤
        cfg.CY_BT_MTU_SIZE := by
      by_contra hgt
      exact hrej (Or.inr (Nat.lt_of_not_le hgt))
    have hlen := begin_sequence_value_length cfg s.write_buff hbuf
    rw [prepare_accept cfg conn_id opcode p_req s hoff hfit]
    simp only [payload]
    rw [memcpy_drop_take _ _ _ _ hreq (by omega)]

/-- Witness for C5: a three-byte chunk at offset 0 on the freshly initialised buffer. -/
theorem prepare_accepted_echo_witness :
    (app_bt_prepare_write_handler sample_cfg 1 .GATT_REQ_PREPARE_WRITE
        { handle := 5, offset := 0, p_val := [8, 9, 10], val_len := 3 } sample_state).2.calls =
      sample_state.calls ++ [.wiced_bt_gatt_server_send_prepare_write_rsp 1
        .GATT_REQ_PREPARE_WRITE 5 0 3 (payload
          { handle := 5, offset := 0, p_val := [8, 9, 10], val_len := 3 })] :=
  prepare_accepted_echo sample_cfg 1 .GATT_REQ_PREPARE_WRITE
    { handle := 5, offset := 0, p_val := [8, 9, 10], val_len := 3 } sample_state
    (by decide) (by decide) (by decide)

/-! ## Long writes: whole sequences -/

theorem begin_sequence_idem (cfg : Config) (wb : gatt_write_req_buf_t) :
    begin_sequence cfg (begin_sequence cfg wb) = begin_sequence cfg wb :=
  begin_sequence_of_in_use cfg _ (begin_sequence_in_use cfg wb)

theorem prepare_after_begin_sequence (cfg : Config) (conn_id : Nat)
    (opcode : wiced_bt_gatt_opcode_t) (p_req : wiced_bt_gatt_write_req_t) (s : State) :
    app_bt_prepare_write_handler cfg conn_id opcode p_req
        { s with write_buff := begin_sequence cfg s.write_buff } =
      app_bt_prepare_write_handler cfg conn_id opcode p_req s := by
  simp [app_bt_prepare_write_handler, begin_sequence_idem, State.call]

theorem memcpy_append_zeros (pre c : List Nat) (k : Nat) :
    memcpy (pre ++ List.replicate k 0) pre.length c c.length =
      (pre ++ c) ++ List.replicate (k - c.length) 0 := by
  unfold memcpy
  rw [List.take_left' rfl, List.take_of_length_le (Nat.le_refl _), List.drop_append,
    List.drop_replicate]

theorem prepare_chunks_spec (cfg : Config) (conn_id : Nat) (opcode : wiced_bt_gatt_opcode_t)
    (h : Nat) (hmtu : cfg.CY_BT_MTU_SIZE ≤ 65535) :
    ∀ (cs : List (List Nat)) (pre : List Nat) (s : State),
      s.write_buff.in_use = true → s.write_buff.written = pre.length →
      s.write_buff.value = pre ++ List.replicate (cfg.CY_BT_MTU_SIZE - pre.length) 0 →
      pre.length + cs.flatten.length ≤ cfg.CY_BT_MTU_SIZE →
      (prepare_chunks cfg conn_id opcode h cs pre.length s).1 =
          List.replicate cs.length .WICED_BT_GATT_SUCCESS ∧
        (prepare_chunks cfg conn_id opcode h cs pre.length s).2.write_buff.in_use = true ∧
        (prepare_chunks cfg conn_id opcode h cs pre.length s).2.write_buff.written =
          pre.length + cs.flatten.length ∧
        (prepare_chunks cfg conn_id opcode h cs pre.length s).2.write_buff.value =
          (pre ++ cs.flatten) ++
            List.replicate (cfg.CY_BT_MTU_SIZE - (pre.length + cs.flatten.length)) 0 ∧
        (cs ≠ [] →
          (prepare_chunks cfg conn_id opcode h cs pre.length s).2.write_buff.handle = h) := by
  intro cs
  induction cs with
  | nil =>
    intro pre s hin hw hv _
    simp [prepare_chunks, hin, hw, hv]
  | cons c cs ih =>
    intro pre s hin hw hv hfit
    rw [List.flatten_cons, List.length_append] at hfit
    have hb := begin_sequence_of_in_use cfg s.write_buff hin
    have hacc := prepare_accept cfg conn_id opcode
      { handle := h, offset := pre.length, p_val := c, val_len := c.length } s
      (by rw [hb]; exact hw) (by rw [hb, hw]; simp only; omega)
    rw [hb, hw, hv, memcpy_append_zeros] at hacc
    simp only at hacc
    have hmod : (pre.length + c.length) % 2 ^ 16 = pre.length + c.length :=
      Nat.mod_eq_of_lt (by omega)
    rw [hmod] at hacc
    have hstep := ih (pre ++ c)
      (app_bt_prepare_write_handler cfg conn_id opcode
        { handle := h, offset := pre.length, p_val := c, val_len := c.length } s).2
      (by rw [hacc]; exact hin)
      (by rw [hacc]; simp)
      (by rw [hacc]; simp [Nat.sub_sub])
      (by rw [List.length_append]; omega)
    rw [List.length_append] at hstep
    obtain ⟨h1, h2, h3, h4, h5⟩ := hstep
    simp only [prepare_chunks, List.flatten_cons, List.length_append, List.length_cons,
      List.replicate_succ]
    refine ⟨?_, h2, ?_, ?_, ?_⟩
    · rw [h1, hacc]
    · rw [h3]
      omega
    · rw [h4, List.append_assoc pre c, Nat.add_assoc]
    · intro _
      by_cases hcs : cs = []
      · subst hcs
        simp only [prepare_chunks]
        rw [hacc]
      · exact h5 hcs

/-- C1. From an idle buffer, with whatever stale contents, a non-empty list of
chunks for handle `h`, each sent at the offset where the previous one ended and
together no longer than the MTU, is accepted chunk by chunk; the execute-write
that follows hands the write path the request with handle `h`, offset 0,
`val_len` the total length, and a value equal to the chunks concatenated. -/
theorem long_write_reassembly (cfg : Config) (conn_id : Nat) (opcode : wiced_bt_gatt_opcode_t)
    (h : Nat) (chunks : List (List Nat)) (s : State)
    (hmtu : cfg.CY_BT_MTU_SIZE ≤ 65535) (hidle : s.write_buff.in_use = false)
    (hne : chunks ≠ []) (hfit : chunks.flatten.length ≤ cfg.CY_BT_MTU_SIZE) :
    (prepare_chunks cfg conn_id opcode h chunks 0 s).1 =
        List.replicate chunks.length .WICED_BT_GATT_SUCCESS ∧
      execute_write_req (prepare_chunks cfg conn_id opcode h chunks 0 s).2.write_buff =
        { handle := h, offset := 0, val_len := chunks.flatten.length,
          p_val := chunks.flatten ++
            List.replicate (cfg.CY_BT_MTU_SIZE - chunks.flatten.length) 0 } ∧
      payload (execute_write_req (prepare_chunks cfg conn_id opcode h chunks 0 s).2.write_buff) =
        chunks.flatten ∧
      ∀ env : Env,
        app_bt_execute_write_handler cfg env (prepare_chunks cfg conn_id opcode h chunks 0 s).2 =
          (app_bt_write_handler cfg env
            (execute_write_req (prepare_chunks cfg conn_id opcode h chunks 0 s).2.write_buff)
            (prepare_chunks cfg conn_id opcode h chunks 0 s).2).bind
            fun status s1 =>
              .ret status { s1 with write_buff := { s1.write_buff with in_use := false } } := by
  have hrun : prepare_chunks cfg conn_id opcode h chunks 0 s =
      prepare_chunks cfg conn_id opcode h chunks 0
        { s with write_buff := begin_sequence cfg s.write_buff } := by
    cases chunks with
    | nil => exact absurd rfl hne
    | cons c cs => simp only [prepare_chunks, prepare_after_begin_sequence]
  have hspec := prepare_chunks_spec cfg conn_id opcode h hmtu chunks []
    { s with write_buff := begin_sequence cfg s.write_buff }
    (begin_sequence_in_use cfg s.write_buff)
    (by simp [begin_sequence_of_idle cfg s.write_buff hidle])
    (by simp [begin_sequence_of_idle cfg s.write_buff hidle])
    (by simpa using hfit)
  simp only [List.length_nil, Nat.zero_add, List.nil_append] at hspec
  rw [← hrun] at hspec
  obtain ⟨h1, h2, h3, h4, h5⟩ := hspec
  have hreq : execute_write_req (prepare_chunks cfg conn_id opcode h chunks 0 s).2.write_buff =
      { handle := h, offset := 0, val_len := chunks.flatten.length,
        p_val := chunks.flatten ++
          List.replicate (cfg.CY_BT_MTU_SIZE - chunks.flatten.length) 0 } := by
    simp only [execute_write_req, h3, h4, h5 hne]
  refine ⟨h1, hreq, ?_, ?_⟩
  · rw [hreq]
    simp [payload]
  · intro env
    simp [app_bt_execute_write_handler, h2]

/-- Witness for C1: two chunks, `[1, 2]` then `[3]`, for handle 5. -/
theorem long_write_reassembly_witness :
    (prepare_chunks sample_cfg 1 .GATT_REQ_PREPARE_WRITE 5 [[1, 2], [3]] 0 sample_state).1 =
        List.replicate [[1, 2], [3]].length .WICED_BT_GATT_SUCCESS ∧
      payload (execute_write_req
        (prepare_chunks sample_cfg 1 .GATT_REQ_PREPARE_WRITE 5 [[1, 2], [3]] 0
          sample_state).2.write_buff) = [[1, 2], [3]].flatten :=
  have h := long_write_reassembly sample_cfg 1 .GATT_REQ_PREPARE_WRITE 5 [[1, 2], [3]]
    sample_state (by decide) (by decide) (by decide) (by decide)
  ⟨h.1, h.2.2.1⟩

/-! ## Long writes: the bound on `written` -/

theorem begin_sequence_bounds (cfg : Config) (wb : gatt_write_req_buf_t)
    (h : wb.written ≤ cfg.CY_BT_MTU_SIZE ∧ wb.value.length = cfg.CY_BT_MTU_SIZE) :
    (begin_sequence cfg wb).written ≤ cfg.CY_BT_MTU_SIZE ∧
      (begin_sequence cfg wb).value.length = cfg.CY_BT_MTU_SIZE := by
  cases hin : wb.in_use
  · simp [begin_sequence, hin]
  · simpa [begin_sequence, hin] using h

theorem prepare_bounds (cfg : Config) (conn_id : Nat) (opcode : wiced_bt_gatt_opcode_t)
    (p_req : wiced_bt_gatt_write_req_t) (s : State)
    (hreq : p_req.val_len ≤ p_req.p_val.length)
    (h : s.write_buff.written ≤ cfg.CY_BT_MTU_SIZE ∧
      s.write_buff.value.length = cfg.CY_BT_MTU_SIZE) :
    (app_bt_prepare_write_handler cfg conn_id opcode p_req s).2.write_buff.written ≤
        cfg.CY_BT_MTU_SIZE ∧
      (app_bt_prepare_write_handler cfg conn_id opcode p_req s).2.write_buff.value.length =
        cfg.CY_BT_MTU_SIZE := by
  have hb := begin_sequence_bounds cfg s.write_buff h
  by_cases hrej : (begin_sequence cfg s.write_buff).written ≠ p_req.offset ∨
      cfg.CY_BT_MTU_SIZE < (begin_sequence cfg s.write_buff).written + p_req.val_len
  · rw [prepare_reject cfg conn_id opcode p_req s hrej]
    exact hb
  · have hoff : (begin_sequence cfg s.write_buff).written = p_req.offset := by
      by_contra hne
      exact hrej (Or.inl hne)
    have hfit : (begin_sequence cfg s.write_buff).written + p_req.val_len ≤
        cfg.CY_BT_MTU_SIZE := by
      by_contra hgt
      exact hrej (Or.inr (Nat.lt_of_not_le hgt))
    rw [prepare_accept cfg conn_id opcode p_req s hoff hfit]
    constructor
    · exact Nat.le_trans (Nat.mod_le _ _) hfit
    · simp only
      rw [memcpy_length _ _ _ _ hreq (by omega)]
      exact hb.2

theorem execute_write_buff (cfg : Config) (env : Env) (s : State) :
    match app_bt_execute_write_handler cfg env s with
    | .ret _ s1 => s1.write_buff = { s.write_buff with in_use := false }
    | .hang s1 => s1.write_buff = s.write_buff
    | .fault => True := by
  unfold app_bt_execute_write_handler
  cases hin : s.write_buff.in_use
  · simp only [if_true]
    cases hwb : s.write_buff
    rw [hwb] at hin
    simp only at hin
    simp [hin]
  · have hk := write_handler_keeps_write_buff cfg env (execute_write_req s.write_buff) s
    cases hw : app_bt_write_handler cfg env (execute_write_req s.write_buff) s with
    | ret st s1 =>
      rw [hw] at hk
      simp only [Outcome.keeps_write_buff] at hk
      simp [Outcome.bind, hk]
    | hang s1 =>
      rw [hw] at hk
      simpa [Outcome.bind] using hk
    | fault => simp [Outcome.bind]

theorem reachable_bounds (cfg : Config) (s : State) (h : Reachable cfg s) :
    s.write_buff.written ≤ cfg.CY_BT_MTU_SIZE ∧
      s.write_buff.value.length = cfg.CY_BT_MTU_SIZE := by
  induction h with
  | init tbl app calls => simp [write_buff_init]
  | prepare_write s conn_id opcode p_req _ hreq ih =>
    exact prepare_bounds cfg conn_id opcode p_req s hreq ih
  | execute_write s env st s1 _ hex ih =>
    have hw := execute_write_buff cfg env s
    rw [hex] at hw
    simp only at hw
    rw [hw]
    exact ih
  | execute_write_hang s env s1 _ hex ih =>
    have hw := execute_write_buff cfg env s
    rw [hex] at hw
    simp only at hw
    rw [hw]
    exact ih

/-- C6. In every reachable state `written` is at most `CY_BT_MTU_SIZE` and the
buffer has `CY_BT_MTU_SIZE` bytes. From such a state a chunk that would run
past the MTU is refused and the buffer is left as the opening block put it;
an accepted chunk occupies indices below the MTU and the buffer keeps its size. -/
theorem written_bounded (cfg : Config) (s : State) (h : Reachable cfg s) :
    s.write_buff.written ≤ cfg.CY_BT_MTU_SIZE ∧
      s.write_buff.value.length = cfg.CY_BT_MTU_SIZE ∧
      ∀ (conn_id : Nat) (opcode : wiced_bt_gatt_opcode_t) (p_req : wiced_bt_gatt_write_req_t),
        p_req.val_len ≤ p_req.p_val.length →
        (cfg.CY_BT_MTU_SIZE < (begin_sequence cfg s.write_buff).written + p_req.val_len →
          app_bt_prepare_write_handler cfg conn_id opcode p_req s =
            (.WICED_BT_GATT_ERROR, { s with write_buff := begin_sequence cfg s.write_buff })) ∧
        ((app_bt_prepare_write_handler cfg conn_id opcode p_req s).1 = .WICED_BT_GATT_SUCCESS →
          (begin_sequence cfg s.write_buff).written + p_req.val_len ≤ cfg.CY_BT_MTU_SIZE ∧
          (app_bt_prepare_write_handler cfg conn_id opcode p_req s).2.write_buff.written ≤
            cfg.CY_BT_MTU_SIZE ∧
          (app_bt_prepare_write_handler cfg conn_id opcode p_req s).2.write_buff.value.length =
            cfg.CY_BT_MTU_SIZE) := by
  have hb := reachable_bounds cfg s h
  refine ⟨hb.1, hb.2, ?_⟩
  intro conn_id opcode p_req hreq
  constructor
  · intro hbig
    exact prepare_reject cfg conn_id opcode p_req s (Or.inr hbig)
  · intro hacc
    have hpb := prepare_bounds cfg conn_id opcode p_req s hreq hb
    refine ⟨?_, hpb.1, hpb.2⟩
    by_contra hgt
    rw [prepare_reject cfg conn_id opcode p_req s (Or.inr (Nat.lt_of_not_le hgt))] at hacc
    cases hacc

/-- Witness for C6: the state reached by one accepted three-byte chunk. -/
theorem written_bounded_witness :
    (app_bt_prepare_write_handler sample_cfg 1 .GATT_REQ_PREPARE_WRITE
        { handle := 5, offset := 0, p_val := [8, 9, 10], val_len := 3 }
        sample_state).2.write_buff.written ≤ sample_cfg.CY_BT_MTU_SIZE :=
  (written_bounded sample_cfg
    (app_bt_prepare_write_handler sample_cfg 1 .GATT_REQ_PREPARE_WRITE
      { handle := 5, offset := 0, p_val := [8, 9, 10], val_len := 3 } sample_state).2
    (Reachable.prepare_write sample_state 1 .GATT_REQ_PREPARE_WRITE
      { handle := 5, offset := 0, p_val := [8, 9, 10], val_len := 3 }
      (Reachable.init sample_tbl sample_app []) (by decide))).1

/-! ## Execute-write against a single write -/

theorem payload_value_only (r : wiced_bt_gatt_write_req_t) :
    payload (value_only r) = payload r := by
  simp [payload, value_only, List.take_take]

theorem payload_get_value_only (r : wiced_bt_gatt_write_req_t) (i b : Nat)
    (h : payload_get (value_only r) i = some b) : payload_get r i = some b := by
  unfold payload_get value_only payload at h
  unfold payload_get
  simp only [List.getElem?_take] at h
  split at h
  · exact h
  · cases h

theorem set_value_take (tbl : List gatt_db_lookup_table_t) (attr_handle : Nat)
    (p_val : List Nat) (len : Nat) :
    app_bt_set_value tbl attr_handle (p_val.take len) len =
      app_bt_set_value tbl attr_handle p_val len := by
  induction tbl with
  | nil => rfl
  | cons e rest ih =>
    simp only [app_bt_set_value, memcpy, memcmp_eq, List.take_take, Nat.min_self, ih]

theorem cmd_download_value_only (cfg : Config) (env : Env) (r : wiced_bt_gatt_write_req_t)
    (s : State) (hne : cmd_download cfg env (value_only r) s ≠ .fault) :
    cmd_download cfg env (value_only r) s = cmd_download cfg env r s := by
  have hv : (value_only r).val_len = r.val_len := rfl
  unfold cmd_download at hne ⊢
  rw [hv] at hne ⊢
  by_cases hlen : r.val_len < 4
  · simp only [hlen, if_true]
  · simp only [hlen, if_false] at hne ⊢
    cases h4 : payload_get (value_only r) 4 with
    | none => simp [h4] at hne
    | some b4 =>
      cases h3 : payload_get (value_only r) 3 with
      | none => simp [h3] at hne
      | some b3 =>
        cases h2 : payload_get (value_only r) 2 with
        | none => simp [h2] at hne
        | some b2 =>
          cases h1 : payload_get (value_only r) 1 with
          | none => simp [h1] at hne
          | some b1 =>
            rw [payload_get_value_only r 4 b4 h4, payload_get_value_only r 3 b3 h3,
              payload_get_value_only r 2 b2 h2, payload_get_value_only r 1 b1 h1]

theorem cmd_verify_value_only (cfg : Config) (env : Env) (r : wiced_bt_gatt_write_req_t)
    (s : State) (hne : cmd_verify cfg env (value_only r) s ≠ .fault) :
    cmd_verify cfg env (value_only r) s = cmd_verify cfg env r s := by
  have hv : (value_only r).val_len = r.val_len := rfl
  unfold cmd_verify at hne ⊢
  simp only [hv] at hne ⊢
  by_cases hlen : r.val_len = 5
  · simp only [hlen, ne_eq, not_true_eq_false, if_false] at hne ⊢
    cases h1 : payload_get (value_only r) 1 with
    | none => simp [h1] at hne
    | some b1 =>
      cases h2 : payload_get (value_only r) 2 with
      | none => simp [h2] at hne
      | some b2 =>
        cases h3 : payload_get (value_only r) 3 with
        | none => simp [h3] at hne
        | some b3 =>
          cases h4 : payload_get (value_only r) 4 with
          | none => simp [h4] at hne
          | some b4 =>
            rw [payload_get_value_only r 1 b1 h1, payload_get_value_only r 2 b2 h2,
              payload_get_value_only r 3 b3 h3, payload_get_value_only r 4 b4 h4]
  · simp only [hlen, ne_eq, not_false_eq_true, if_true]

/-- A write that the handler processes without reading past the value is
processed the same whatever the memory behind the value holds. -/
theorem write_handler_value_only (cfg : Config) (env : Env) (r : wiced_bt_gatt_write_req_t)
    (s : State) (hne : app_bt_write_handler cfg env (value_only r) s ≠ .fault) :
    app_bt_write_handler cfg env (value_only r) s = app_bt_write_handler cfg env r s := by
  have hh : (value_only r).handle = r.handle := rfl
  have hv : (value_only r).val_len = r.val_len := rfl
  have ho : (value_only r).offset = r.offset := rfl
  have hp : (value_only r).p_val = r.p_val.take r.val_len := rfl
  unfold app_bt_write_handler at hne ⊢
  simp only [hh, hv, ho, hp, payload_value_only, set_value_take] at hne ⊢
  by_cases h1 : r.handle =
      cfg.HDLD_OTA_FW_UPGRADE_SERVICE_OTA_UPGRADE_CONTROL_POINT_CLIENT_CHAR_CONFIG
  · simp only [h1, if_true] at hne ⊢
    cases h0 : payload_get (value_only r) 0 with
    | none => simp [h0] at hne
    | some b => rw [payload_get_value_only r 0 b h0]
  · simp only [h1, if_false] at hne ⊢
    by_cases h2 : r.handle = cfg.HDLC_OTA_FW_UPGRADE_SERVICE_OTA_UPGRADE_CONTROL_POINT_VALUE
    · simp only [h2, if_true] at hne ⊢
      cases h0 : payload_get (value_only r) 0 with
      | none => simp [h0] at hne
      | some op =>
        rw [h0] at hne
        rw [payload_get_value_only r 0 op h0]
        simp only at hne ⊢
        by_cases hc1 : op = cfg.CY_OTA_UPGRADE_COMMAND_PREPARE_DOWNLOAD
        · simp only [hc1, if_true]
        · simp only [hc1, if_false] at hne ⊢
          by_cases hc2 : op = cfg.CY_OTA_UPGRADE_COMMAND_DOWNLOAD
          · simp only [hc2, if_true] at hne ⊢
            exact cmd_download_value_only cfg env r s hne
          · simp only [hc2, if_false] at hne ⊢
            by_cases hc3 : op = cfg.CY_OTA_UPGRADE_COMMAND_VERIFY
            · simp only [hc3, if_true] at hne ⊢
              exact cmd_verify_value_only cfg env r s hne
            · simp only [hc3, if_false]
    · simp only [h2, if_false]

theorem write_handler_congr (cfg : Config) (env : Env) (r1 r2 : wiced_bt_gatt_write_req_t)
    (s : State) (hh : r1.handle = r2.handle) (ho : r1.offset = r2.offset)
    (hl : r1.val_len = r2.val_len) (hp : payload r1 = payload r2)
    (hne : app_bt_write_handler cfg env (value_only r2) s ≠ .fault) :
    app_bt_write_handler cfg env r1 s = app_bt_write_handler cfg env r2 s := by
  have hv : value_only r1 = value_only r2 := by
    simp only [value_only, hh, ho, hl, hp]
  rw [← write_handler_value_only cfg env r2 s hne,
    ← write_handler_value_only cfg env r1 s (by rw [hv]; exact hne), hv]

theorem same_downstream_bind_clear (o : Outcome wiced_bt_gatt_status_t) :
    same_downstream
      (o.bind fun status s1 =>
        .ret status { s1 with write_buff := { s1.write_buff with in_use := false } }) o := by
  cases o <;> simp [Outcome.bind, same_downstream]

/-- Execute-write against a single write that is processed without a read past
its value: with a long-write sequence active, the execute-write handler ends
the way `app_bt_write_handler` ends on such a request with the buffered handle,
offset 0, `val_len = written` and the value `value[0:written]`. -/
theorem execute_write_as_single_write_inside (cfg : Config) (env : Env) (s : State)
    (r : wiced_bt_gatt_write_req_t) (hin : s.write_buff.in_use = true)
    (hh : r.handle = s.write_buff.handle) (ho : r.offset = 0)
    (hl : r.val_len = s.write_buff.written)
    (hp : payload r = s.write_buff.value.take s.write_buff.written)
    (hne : app_bt_write_handler cfg env (value_only r) s ≠ .fault) :
    same_downstream (app_bt_execute_write_handler cfg env s)
      (app_bt_write_handler cfg env r s) := by
  have hc : app_bt_write_handler cfg env (execute_write_req s.write_buff) s =
      app_bt_write_handler cfg env r s :=
    write_handler_congr cfg env _ r s (by simp [execute_write_req, hh])
      (by simp [execute_write_req, ho]) (by simp [execute_write_req, hl])
      (by rw [hp]; rfl) hne
  simp only [app_bt_execute_write_handler, hin, Bool.true_eq_false, if_false, hc]
  exact same_downstream_bind_clear _

/-- C3. A prepare-write buffers the four bytes `[2, 0, 4, 0]` (a Download
command with three size bytes) for the control point. Execute-write then reads
`p_val[4]` from the zeroed rest of `write_buff.value` and starts a download of
1024 bytes, while the single write with the same handle, offset 0, `val_len = 4`
and the same four value bytes reads the byte `0xAB` that lies behind its value
and starts a download of `0xAB000400` bytes: the two differ in the calls made
to the update engine. -/
theorem execute_write_differs_from_single_write :
    sample_buffered_download.write_buff.in_use = true ∧
      sample_single_download.handle = sample_buffered_download.write_buff.handle ∧
      sample_single_download.offset = 0 ∧
      sample_single_download.val_len = sample_buffered_download.write_buff.written ∧
      payload sample_single_download =
        sample_buffered_download.write_buff.value.take
          sample_buffered_download.write_buff.written ∧
      (∃ s1, app_bt_execute_write_handler sample_cfg sample_env sample_buffered_download =
          .ret .WICED_BT_GATT_SUCCESS s1 ∧
        Call.cy_ota_ble_download 0 1024 ∈ s1.calls) ∧
      (∃ s2, app_bt_write_handler sample_cfg sample_env sample_single_download
          sample_buffered_download = .ret .WICED_BT_GATT_SUCCESS s2 ∧
        Call.cy_ota_ble_download 0 0xAB000400 ∈ s2.calls ∧
        Call.cy_ota_ble_download 0 1024 ∉ s2.calls) ∧
      ¬ same_downstream
        (app_bt_execute_write_handler sample_cfg sample_env sample_buffered_download)
        (app_bt_write_handler sample_cfg sample_env sample_single_download
          sample_buffered_download) := by
  refine ⟨by decide, by decide, by decide, by decide, by decide, ⟨_, rfl, by decide⟩,
    ⟨_, rfl, by decide, by decide⟩, ?_⟩
  intro h
  exact absurd h.2.2.2 (by decide)

/-! ## Control-point commands and data writes -/

theorem le32_of_bytes (b1 b2 b3 b4 : Nat) (h1 : b1 < 256) (h2 : b2 < 256) (h3 : b3 < 256)
    (h4 : b4 < 256) : le32 b1 b2 b3 b4 = b1 + 2 ^ 8 * b2 + 2 ^ 16 * b3 + 2 ^ 24 * b4 := by
  unfold le32
  omega

/-- The inner `switch` of the write handler, once the handle is the control
point and the command byte is known. -/
theorem write_handler_control_point (cfg : Config) (env : Env)
    (r : wiced_bt_gatt_write_req_t) (s : State) (op : Nat) (hcfg : cfg.wf)
    (hhandle : r.handle = cfg.HDLC_OTA_FW_UPGRADE_SERVICE_OTA_UPGRADE_CONTROL_POINT_VALUE)
    (hop : payload_get r 0 = some op) :
    app_bt_write_handler cfg env r s =
      if op = cfg.CY_OTA_UPGRADE_COMMAND_PREPARE_DOWNLOAD then
        cmd_prepare_download cfg env s
      else if op = cfg.CY_OTA_UPGRADE_COMMAND_DOWNLOAD then
        cmd_download cfg env r s
      else if op = cfg.CY_OTA_UPGRADE_COMMAND_VERIFY then
        cmd_verify cfg env r s
      else if op = cfg.CY_OTA_UPGRADE_COMMAND_ABORT then
        cmd_abort env s
      else
        .ret .WICED_BT_GATT_REQ_NOT_SUPPORTED s := by
  obtain ⟨_, h1, _⟩ := hcfg
  simp [app_bt_write_handler, hhandle, hop, Ne.symm h1]

theorem payload_get_of_cons (r : wiced_bt_gatt_write_req_t) (b0 b1 b2 b3 b4 : Nat)
    (rest : List Nat) (hp : r.p_val = b0 :: b1 :: b2 :: b3 :: b4 :: rest)
    (hlen : 5 ≤ r.val_len) :
    payload_get r 0 = some b0 ∧ payload_get r 1 = some b1 ∧ payload_get r 2 = some b2 ∧
      payload_get r 3 = some b3 ∧ payload_get r 4 = some b4 := by
  have h0 : 0 < r.val_len := by omega
  have h1 : 1 < r.val_len := by omega
  have h2 : 2 < r.val_len := by omega
  have h3 : 3 < r.val_len := by omega
  have h4 : 4 < r.val_len := by omega
  simp [payload_get, hp, h0, h1, h2, h3, h4]

/-- What the Download case does once its five bytes are there. -/
theorem cmd_download_outcome (cfg : Config) (env : Env) (r : wiced_bt_gatt_write_req_t)
    (s : State) (b1 b2 b3 b4 : Nat)
    (hg1 : payload_get r 1 = some b1) (hg2 : payload_get r 2 = some b2)
    (hg3 : payload_get r 3 = some b3) (hg4 : payload_get r 4 = some b4)
    (hlen : 5 ≤ r.val_len) :
    cmd_download cfg env r s =
      if env.cy_ota_ble_download = .CY_RSLT_SUCCESS then
        .ret
          (if env.wiced_bt_gatt_server_send_notification = .WICED_BT_GATT_SUCCESS then
            .WICED_BT_GATT_SUCCESS else .WICED_BT_GATT_ERROR)
          { s with calls := s.calls ++
            [.cy_ota_ble_download s.ota_app.ota_context (le32 b1 b2 b3 b4),
              .wiced_bt_gatt_server_send_notification s.ota_app.bt_conn_id
                cfg.HDLC_OTA_FW_UPGRADE_SERVICE_OTA_UPGRADE_CONTROL_POINT_VALUE 1
                [cfg.CY_OTA_UPGRADE_STATUS_OK]] }
      else
        .ret .WICED_BT_GATT_ERROR
          { s with calls := s.calls ++
            [.cy_ota_ble_download s.ota_app.ota_context (le32 b1 b2 b3 b4)] } := by
  have hnot : ¬ r.val_len < 4 := by omega
  simp only [cmd_download, hnot, if_false, hg1, hg2, hg3, hg4, app_bt_ble_send_notification,
    State.call]
  by_cases hd : env.cy_ota_ble_download = .CY_RSLT_SUCCESS
  · by_cases hn : env.wiced_bt_gatt_server_send_notification = .WICED_BT_GATT_SUCCESS
    · simp [hd, hn]
    · simp [hd, hn]
  · simp [hd]

/-- What the Verify case does once its length is 5. -/
theorem cmd_verify_outcome (cfg : Config) (env : Env) (r : wiced_bt_gatt_write_req_t)
    (s : State) (b1 b2 b3 b4 : Nat)
    (hg1 : payload_get r 1 = some b1) (hg2 : payload_get r 2 = some b2)
    (hg3 : payload_get r 3 = some b3) (hg4 : payload_get r 4 = some b4)
    (hlen : r.val_len = 5) :
    cmd_verify cfg env r s =
      if env.cy_ota_ble_download_verify = .CY_RSLT_SUCCESS then
        .ret
          (if env.wiced_bt_gatt_server_send_indication = .WICED_BT_GATT_SUCCESS then
            .WICED_BT_GATT_SUCCESS else .WICED_BT_GATT_ERROR)
          { s with calls := s.calls ++
            [.cy_ota_ble_download_verify s.ota_app.ota_context (le32 b1 b2 b3 b4) true,
              .wiced_bt_gatt_server_send_indication s.ota_app.bt_conn_id
                cfg.HDLC_OTA_FW_UPGRADE_SERVICE_OTA_UPGRADE_CONTROL_POINT_VALUE 1
                [cfg.CY_OTA_UPGRADE_STATUS_OK]] }
      else
        .ret .WICED_BT_GATT_ERROR
          { s with calls := s.calls ++
            [.cy_ota_ble_download_verify s.ota_app.ota_context (le32 b1 b2 b3 b4) true,
              .wiced_bt_gatt_server_send_indication s.ota_app.bt_conn_id
                cfg.HDLC_OTA_FW_UPGRADE_SERVICE_OTA_UPGRADE_CONTROL_POINT_VALUE 1
                [cfg.CY_OTA_UPGRADE_STATUS_BAD]] } := by
  simp only [cmd_verify, hlen, ne_eq, not_true_eq_false, if_false, hg1, hg2, hg3, hg4,
    app_bt_ble_send_indication, State.call]
  by_cases hd : env.cy_ota_ble_download_verify = .CY_RSLT_SUCCESS
  · by_cases hn : env.wiced_bt_gatt_server_send_indication = .WICED_BT_GATT_SUCCESS
    · simp [hd, hn]
    · simp [hd, hn]
  · simp [hd]

/-- What the Prepare case does, by the outcome of each step. -/
theorem cmd_prepare_download_outcome (cfg : Config) (env : Env) (s : State) :
    cmd_prepare_download cfg env s =
      if s.ota_app.tag ≠ OTA_APP_TAG_VALID then
        .ret .WICED_BT_GATT_ERROR
          { s with ota_app := { s.ota_app with connection_type := .CY_OTA_CONNECTION_BLE } }
      else if env.cy_ota_agent_start ≠ .CY_RSLT_SUCCESS then
        .hang
          { s with
            ota_app := { s.ota_app with
              connection_type := .CY_OTA_CONNECTION_BLE
              ota_context := env.cy_ota_agent_start_context }
            calls := s.calls ++
              [.cy_ota_agent_start .CY_OTA_CONNECTION_BLE s.ota_app.update_flow 0] }
      else if env.cy_ota_ble_download_prepare = .CY_RSLT_SUCCESS then
        .ret
          (if env.wiced_bt_gatt_server_send_notification = .WICED_BT_GATT_SUCCESS then
            .WICED_BT_GATT_SUCCESS else .WICED_BT_GATT_ERROR)
          { s with
            ota_app := { s.ota_app with
              connection_type := .CY_OTA_CONNECTION_BLE
              ota_context := env.cy_ota_agent_start_context }
            calls := s.calls ++
              [.cy_ota_agent_start .CY_OTA_CONNECTION_BLE s.ota_app.update_flow 0,
                .cy_ota_ble_download_prepare env.cy_ota_agent_start_context,
                .wiced_bt_gatt_server_send_notification s.ota_app.bt_conn_id
                  cfg.HDLC_OTA_FW_UPGRADE_SERVICE_OTA_UPGRADE_CONTROL_POINT_VALUE 1
                  [cfg.CY_OTA_UPGRADE_STATUS_OK]] }
      else
        .ret .WICED_BT_GATT_ERROR
          { s with
            ota_app := { s.ota_app with
              connection_type := .CY_OTA_CONNECTION_BLE
              ota_context := env.cy_ota_agent_start_context }
            calls := s.calls ++
              [.cy_ota_agent_start .CY_OTA_CONNECTION_BLE s.ota_app.update_flow 0,
                .cy_ota_ble_download_prepare env.cy_ota_agent_start_context] } := by
  by_cases ht : s.ota_app.tag = OTA_APP_TAG_VALID
  · by_cases ha : env.cy_ota_agent_start = .CY_RSLT_SUCCESS
    · by_cases hp : env.cy_ota_ble_download_prepare = .CY_RSLT_SUCCESS
      · by_cases hn : env.wiced_bt_gatt_server_send_notification = .WICED_BT_GATT_SUCCESS
        · simp [cmd_prepare_download, init_ota, Outcome.bind, app_bt_ble_send_notification,
            State.call, ht, ha, hp, hn]
        · simp [cmd_prepare_download, init_ota, Outcome.bind, app_bt_ble_send_notification,
            State.call, ht, ha, hp, hn]
      · simp [cmd_prepare_download, init_ota, Outcome.bind, State.call, ht, ha, hp]
    · simp [cmd_prepare_download, init_ota, Outcome.bind, State.call, ht, ha]
  · simp [cmd_prepare_download, init_ota, Outcome.bind, ht]

/-- C11. A Download command of at least five bytes, each byte below 256, calls
`cy_ota_ble_download` exactly once, with `total_size` the little-endian value
of bytes 1 to 4; the only call that may follow is the notification. -/
theorem download_total_size_little_endian (cfg : Config) (env : Env)
    (r : wiced_bt_gatt_write_req_t) (s : State) (b1 b2 b3 b4 : Nat) (rest : List Nat)
    (hcfg : cfg.wf)
    (hhandle : r.handle = cfg.HDLC_OTA_FW_UPGRADE_SERVICE_OTA_UPGRADE_CONTROL_POINT_VALUE)
    (hp : r.p_val = cfg.CY_OTA_UPGRADE_COMMAND_DOWNLOAD :: b1 :: b2 :: b3 :: b4 :: rest)
    (hlen : 5 ≤ r.val_len)
    (h1 : b1 < 256) (h2 : b2 < 256) (h3 : b3 < 256) (h4 : b4 < 256) :
    ∃ (st : wiced_bt_gatt_status_t) (tail : List Call),
      app_bt_write_handler cfg env r s =
        .ret st { s with calls := s.calls ++
          (Call.cy_ota_ble_download s.ota_app.ota_context
            (b1 + 2 ^ 8 * b2 + 2 ^ 16 * b3 + 2 ^ 24 * b4) :: tail) } ∧
      (tail = [] ∨
        tail = [.wiced_bt_gatt_server_send_notification s.ota_app.bt_conn_id
          cfg.HDLC_OTA_FW_UPGRADE_SERVICE_OTA_UPGRADE_CONTROL_POINT_VALUE 1
          [cfg.CY_OTA_UPGRADE_STATUS_OK]]) := by
  obtain ⟨hg0, hg1, hg2, hg3, hg4⟩ := payload_get_of_cons r _ b1 b2 b3 b4 rest hp hlen
  have hd : cfg.CY_OTA_UPGRADE_COMMAND_DOWNLOAD ≠ cfg.CY_OTA_UPGRADE_COMMAND_PREPARE_DOWNLOAD :=
    Ne.symm hcfg.2.2.2.2.1
  rw [write_handler_control_point cfg env r s _ hcfg hhandle hg0, if_neg hd, if_pos rfl,
    cmd_download_outcome cfg env r s b1 b2 b3 b4 hg1 hg2 hg3 hg4 hlen,
    le32_of_bytes b1 b2 b3 b4 h1 h2 h3 h4]
  by_cases he : env.cy_ota_ble_download = .CY_RSLT_SUCCESS
  · rw [if_pos he]
    exact ⟨_, _, rfl, Or.inr rfl⟩
  · rw [if_neg he]
    exact ⟨_, [], rfl, Or.inl rfl⟩

/-- Witness for C11: the command `[2, 0, 4, 0, 0]` announces 1024 bytes. -/
theorem download_total_size_little_endian_witness :
    ∃ (st : wiced_bt_gatt_status_t) (tail : List Call),
      app_bt_write_handler sample_cfg sample_env
          { handle := 11, offset := 0, p_val := [2, 0, 4, 0, 0], val_len := 5 } sample_state =
        .ret st { sample_state with calls := sample_state.calls ++
          (Call.cy_ota_ble_download sample_state.ota_app.ota_context
            (0 + 2 ^ 8 * 4 + 2 ^ 16 * 0 + 2 ^ 24 * 0) :: tail) } ∧
      (tail = [] ∨
        tail = [.wiced_bt_gatt_server_send_notification sample_state.ota_app.bt_conn_id
          sample_cfg.HDLC_OTA_FW_UPGRADE_SERVICE_OTA_UPGRADE_CONTROL_POINT_VALUE 1
          [sample_cfg.CY_OTA_UPGRADE_STATUS_OK]]) :=
  download_total_size_little_endian sample_cfg sample_env
    { handle := 11, offset := 0, p_val := [2, 0, 4, 0, 0], val_len := 5 } sample_state
    0 4 0 0 [] (by decide) (by decide) (by decide) (by decide) (by decide) (by decide)
    (by decide) (by decide)

/-- C12. A Verify command of exactly five bytes, each byte below 256, calls
`cy_ota_ble_download_verify` exactly once, with the little-endian value of
bytes 1 to 4 as CRC and the flag `true`; one indication follows it. -/
theorem verify_crc_little_endian (cfg : Config) (env : Env)
    (r : wiced_bt_gatt_write_req_t) (s : State) (b1 b2 b3 b4 : Nat) (rest : List Nat)
    (hcfg : cfg.wf)
    (hhandle : r.handle = cfg.HDLC_OTA_FW_UPGRADE_SERVICE_OTA_UPGRADE_CONTROL_POINT_VALUE)
    (hp : r.p_val = cfg.CY_OTA_UPGRADE_COMMAND_VERIFY :: b1 :: b2 :: b3 :: b4 :: rest)
    (hlen : r.val_len = 5)
    (h1 : b1 < 256) (h2 : b2 < 256) (h3 : b3 < 256) (h4 : b4 < 256) :
    ∃ (st : wiced_bt_gatt_status_t) (result : Nat),
      app_bt_write_handler cfg env r s =
        .ret st { s with calls := s.calls ++
          [.cy_ota_ble_download_verify s.ota_app.ota_context
              (b1 + 2 ^ 8 * b2 + 2 ^ 16 * b3 + 2 ^ 24 * b4) true,
            .wiced_bt_gatt_server_send_indication s.ota_app.bt_conn_id
              cfg.HDLC_OTA_FW_UPGRADE_SERVICE_OTA_UPGRADE_CONTROL_POINT_VALUE 1 [result]] } := by
  obtain ⟨hg0, hg1, hg2, hg3, hg4⟩ :=
    payload_get_of_cons r _ b1 b2 b3 b4 rest hp (by omega)
  obtain ⟨_, _, _, _, _, hvp, _, hvd, _, _⟩ := hcfg
  rw [write_handler_control_point cfg env r s _
      ⟨by assumption, by assumption, by assumption, by assumption, by assumption, hvp,
        by assumption, hvd, by assumption, by assumption⟩ hhandle hg0,
    if_neg (Ne.symm hvp), if_neg (Ne.symm hvd), if_pos rfl,
    cmd_verify_outcome cfg env r s b1 b2 b3 b4 hg1 hg2 hg3 hg4 hlen,
    le32_of_bytes b1 b2 b3 b4 h1 h2 h3 h4]
  by_cases he : env.cy_ota_ble_download_verify = .CY_RSLT_SUCCESS
  · rw [if_pos he]
    exact ⟨_, _, rfl⟩
  · rw [if_neg he]
    exact ⟨_, _, rfl⟩

/-- Witness for C12: the command `[3, 0xEF, 0xBE, 0xAD, 0xDE]`. -/
theorem verify_crc_little_endian_witness :
    ∃ (st : wiced_bt_gatt_status_t) (result : Nat),
      app_bt_write_handler sample_cfg sample_env
          { handle := 11, offset := 0, p_val := [3, 239, 190, 173, 222], val_len := 5 }
          sample_state =
        .ret st { sample_state with calls := sample_state.calls ++
          [.cy_ota_ble_download_verify sample_state.ota_app.ota_context
              (239 + 2 ^ 8 * 190 + 2 ^ 16 * 173 + 2 ^ 24 * 222) true,
            .wiced_bt_gatt_server_send_indication sample_state.ota_app.bt_conn_id
              sample_cfg.HDLC_OTA_FW_UPGRADE_SERVICE_OTA_UPGRADE_CONTROL_POINT_VALUE 1
              [result]] } :=
  verify_crc_little_endian sample_cfg sample_env
    { handle := 11, offset := 0, p_val := [3, 239, 190, 173, 222], val_len := 5 } sample_state
    239 190 173 222 [] (by decide) (by decide) (by decide) (by decide) (by decide) (by decide)
    (by decide) (by decide)

/-- C13. A Prepare command with a valid tag, in an environment where
`cy_ota_agent_start` fails: the handler does not return `WICED_BT_GATT_ERROR`;
it never returns, stuck in the `while (true)` of `init_ota` after the one call
to `cy_ota_agent_start`. -/
theorem prepare_agent_start_failure_never_returns :
    app_bt_write_handler sample_cfg { sample_env with cy_ota_agent_start := .failure 1 }
        { handle := 11, offset := 0, p_val := [1], val_len := 1 } sample_state =
      .hang
        { sample_state with
          ota_app := { sample_app with
            connection_type := .CY_OTA_CONNECTION_BLE
            ota_context := 1 }
          calls := [.cy_ota_agent_start .CY_OTA_CONNECTION_BLE 0 0] } := by
  rfl

/-- C14. A Verify command of exactly five bytes (build without
`COMPONENT_H1_CP`): when the library's verify succeeds, one indication with
value OK goes out on the control-point handle and the status is success
exactly when that send succeeds; when it fails, one indication with value BAD
goes out and the status is `WICED_BT_GATT_ERROR`. The verify call and the
indication are the only external calls: no notification, no reset. -/
theorem verify_outcome_indication (cfg : Config) (env : Env)
    (r : wiced_bt_gatt_write_req_t) (s : State) (b1 b2 b3 b4 : Nat) (rest : List Nat)
    (hcfg : cfg.wf)
    (hhandle : r.handle = cfg.HDLC_OTA_FW_UPGRADE_SERVICE_OTA_UPGRADE_CONTROL_POINT_VALUE)
    (hp : r.p_val = cfg.CY_OTA_UPGRADE_COMMAND_VERIFY :: b1 :: b2 :: b3 :: b4 :: rest)
    (hlen : r.val_len = 5) :
    app_bt_write_handler cfg env r s =
      if env.cy_ota_ble_download_verify = .CY_RSLT_SUCCESS then
        .ret
          (if env.wiced_bt_gatt_server_send_indication = .WICED_BT_GATT_SUCCESS then
            .WICED_BT_GATT_SUCCESS else .WICED_BT_GATT_ERROR)
          { s with calls := s.calls ++
            [.cy_ota_ble_download_verify s.ota_app.ota_context (le32 b1 b2 b3 b4) true,
              .wiced_bt_gatt_server_send_indication s.ota_app.bt_conn_id
                cfg.HDLC_OTA_FW_UPGRADE_SERVICE_OTA_UPGRADE_CONTROL_POINT_VALUE 1
                [cfg.CY_OTA_UPGRADE_STATUS_OK]] }
      else
        .ret .WICED_BT_GATT_ERROR
          { s with calls := s.calls ++
            [.cy_ota_ble_download_verify s.ota_app.ota_context (le32 b1 b2 b3 b4) true,
              .wiced_bt_gatt_server_send_indication s.ota_app.bt_conn_id
                cfg.HDLC_OTA_FW_UPGRADE_SERVICE_OTA_UPGRADE_CONTROL_POINT_VALUE 1
                [cfg.CY_OTA_UPGRADE_STATUS_BAD]] } := by
  obtain ⟨hg0, hg1, hg2, hg3, hg4⟩ :=
    payload_get_of_cons r _ b1 b2 b3 b4 rest hp (by omega)
  have hvp : cfg.CY_OTA_UPGRADE_COMMAND_VERIFY ≠ cfg.CY_OTA_UPGRADE_COMMAND_PREPARE_DOWNLOAD :=
    Ne.symm hcfg.2.2.2.2.2.1
  have hvd : cfg.CY_OTA_UPGRADE_COMMAND_VERIFY ≠ cfg.CY_OTA_UPGRADE_COMMAND_DOWNLOAD :=
    Ne.symm hcfg.2.2.2.2.2.2.2.1
  rw [write_handler_control_point cfg env r s _ hcfg hhandle hg0, if_neg hvp, if_neg hvd,
    if_pos rfl, cmd_verify_outcome cfg env r s b1 b2 b3 b4 hg1 hg2 hg3 hg4 hlen]

/-- Witness for C14: a five-byte Verify command in the sample environment. -/
theorem verify_outcome_indication_witness :
    app_bt_write_handler sample_cfg sample_env
        { handle := 11, offset := 0, p_val := [3, 1, 2, 3, 4], val_len := 5 } sample_state =
      if sample_env.cy_ota_ble_download_verify = .CY_RSLT_SUCCESS then
        .ret
          (if sample_env.wiced_bt_gatt_server_send_indication = .WICED_BT_GATT_SUCCESS then
            .WICED_BT_GATT_SUCCESS else .WICED_BT_GATT_ERROR)
          { sample_state with calls := sample_state.calls ++
            [.cy_ota_ble_download_verify sample_state.ota_app.ota_context (le32 1 2 3 4) true,
              .wiced_bt_gatt_server_send_indication sample_state.ota_app.bt_conn_id
                sample_cfg.HDLC_OTA_FW_UPGRADE_SERVICE_OTA_UPGRADE_CONTROL_POINT_VALUE 1
                [sample_cfg.CY_OTA_UPGRADE_STATUS_OK]] }
      else
        .ret .WICED_BT_GATT_ERROR
          { sample_state with calls := sample_state.calls ++
            [.cy_ota_ble_download_verify sample_state.ota_app.ota_context (le32 1 2 3 4) true,
              .wiced_bt_gatt_server_send_indication sample_state.ota_app.bt_conn_id
                sample_cfg.HDLC_OTA_FW_UPGRADE_SERVICE_OTA_UPGRADE_CONTROL_POINT_VALUE 1
                [sample_cfg.CY_OTA_UPGRADE_STATUS_BAD]] } :=
  verify_outcome_indication sample_cfg sample_env
    { handle := 11, offset := 0, p_val := [3, 1, 2, 3, 4], val_len := 5 } sample_state
    1 2 3 4 [] (by decide) (by decide) (by decide) (by decide)

/-- C15. An Abort command, whatever follows its command byte and whatever the
library's abort returns, calls `cy_ota_ble_download_abort` once, sends
nothing, and returns `WICED_BT_GATT_SUCCESS`. -/
theorem abort_always_succeeds (cfg : Config) (env : Env)
    (r : wiced_bt_gatt_write_req_t) (s : State) (hcfg : cfg.wf)
    (hhandle : r.handle = cfg.HDLC_OTA_FW_UPGRADE_SERVICE_OTA_UPGRADE_CONTROL_POINT_VALUE)
    (hop : payload_get r 0 = some cfg.CY_OTA_UPGRADE_COMMAND_ABORT) :
    app_bt_write_handler cfg env r s =
      .ret .WICED_BT_GATT_SUCCESS
        { s with
          ota_app := { s.ota_app with ota_context := env.cy_ota_ble_download_abort_context }
          calls := s.calls ++ [.cy_ota_ble_download_abort s.ota_app.ota_context] } := by
  have hap : cfg.CY_OTA_UPGRADE_COMMAND_ABORT ≠ cfg.CY_OTA_UPGRADE_COMMAND_PREPARE_DOWNLOAD :=
    Ne.symm hcfg.2.2.2.2.2.2.1
  have had : cfg.CY_OTA_UPGRADE_COMMAND_ABORT ≠ cfg.CY_OTA_UPGRADE_COMMAND_DOWNLOAD :=
    Ne.symm hcfg.2.2.2.2.2.2.2.2.1
  have hav : cfg.CY_OTA_UPGRADE_COMMAND_ABORT ≠ cfg.CY_OTA_UPGRADE_COMMAND_VERIFY :=
    Ne.symm hcfg.2.2.2.2.2.2.2.2.2
  rw [write_handler_control_point cfg env r s _ hcfg hhandle hop, if_neg hap, if_neg had,
    if_neg hav, if_pos rfl]
  simp [cmd_abort, State.call]

/-- Witness for C15: an Abort command with two trailing bytes, the library's
abort failing. -/
theorem abort_always_succeeds_witness :
    app_bt_write_handler sample_cfg
        { sample_env with cy_ota_ble_download_abort := .failure 7 }
        { handle := 11, offset := 0, p_val := [4, 9, 9], val_len := 3 } sample_state =
      .ret .WICED_BT_GATT_SUCCESS
        { sample_state with
          ota_app := { sample_state.ota_app with ota_context := 0 }
          calls := sample_state.calls ++
            [.cy_ota_ble_download_abort sample_state.ota_app.ota_context] } :=
  abort_always_succeeds sample_cfg { sample_env with cy_ota_ble_download_abort := .failure 7 }
    { handle := 11, offset := 0, p_val := [4, 9, 9], val_len := 3 } sample_state
    (by decide) (by decide) (by decide)

/-- C16. A write to the data characteristic calls `cy_ota_ble_download_write`
once, with the bytes of the value, `val_len` and `offset` as received, sends
nothing, and returns success exactly when that call succeeds, else
`WICED_BT_GATT_ERROR`. -/
theorem data_write_forwarded (cfg : Config) (env : Env)
    (r : wiced_bt_gatt_write_req_t) (s : State) (hcfg : cfg.wf)
    (hhandle : r.handle = cfg.HDLC_OTA_FW_UPGRADE_SERVICE_OTA_UPGRADE_DATA_VALUE) :
    app_bt_write_handler cfg env r s =
      .ret
        (if env.cy_ota_ble_download_write = .CY_RSLT_SUCCESS then
          .WICED_BT_GATT_SUCCESS else .WICED_BT_GATT_ERROR)
        { s with calls := s.calls ++
          [.cy_ota_ble_download_write s.ota_app.ota_context (r.p_val.take r.val_len)
            r.val_len r.offset] } := by
  obtain ⟨_, _, h2, h3, _⟩ := hcfg
  by_cases he : env.cy_ota_ble_download_write = .CY_RSLT_SUCCESS
  · simp [app_bt_write_handler, hhandle, Ne.symm h2, Ne.symm h3, he, State.call, payload]
  · simp [app_bt_write_handler, hhandle, Ne.symm h2, Ne.symm h3, he, State.call, payload]

/-- Witness for C16: three bytes at offset 64 for the data handle. -/
theorem data_write_forwarded_witness :
    app_bt_write_handler sample_cfg sample_env
        { handle := 14, offset := 64, p_val := [5, 6, 7], val_len := 3 } sample_state =
      .ret
        (if sample_env.cy_ota_ble_download_write = .CY_RSLT_SUCCESS then
          .WICED_BT_GATT_SUCCESS else .WICED_BT_GATT_ERROR)
        { sample_state with calls := sample_state.calls ++
          [.cy_ota_ble_download_write sample_state.ota_app.ota_context
            (([5, 6, 7] : List Nat).take 3) 3 64] } :=
  data_write_forwarded sample_cfg sample_env
    { handle := 14, offset := 64, p_val := [5, 6, 7], val_len := 3 } sample_state
    (by decide) (by decide)

/-! ## The request dispatcher -/

/-- C17 as stated fails: an opcode outside the dispatcher's cases yields
`WICED_BT_GATT_ERROR`, the initial value of `status`, not
`WICED_BT_GATT_REQ_NOT_SUPPORTED`. -/
theorem unhandled_opcode_counterexample :
    ¬ ∀ (cfg : Config) (env : Env) (p_att_req : wiced_bt_gatt_attribute_request_t)
        (s : State) (code : Nat), p_att_req.opcode = .other code →
        ∃ s1, app_bt_server_callback cfg env p_att_req s =
          .ret .WICED_BT_GATT_REQ_NOT_SUPPORTED s1 := by
  intro h
  obtain ⟨s1, h1⟩ := h sample_cfg sample_env (sample_att_req (.other 0)) sample_state 0 rfl
  have h2 : app_bt_server_callback sample_cfg sample_env (sample_att_req (.other 0))
      sample_state = .ret .WICED_BT_GATT_ERROR sample_state := rfl
  rw [h2] at h1
  cases h1

/-- C17, amended. For every opcode outside the dispatcher's cases the callback
returns `WICED_BT_GATT_ERROR` and leaves the state, the call log included, as it was. -/
theorem unhandled_opcode_error (cfg : Config) (env : Env)
    (p_att_req : wiced_bt_gatt_attribute_request_t) (s : State) (code : Nat)
    (hop : p_att_req.opcode = .other code) :
    app_bt_server_callback cfg env p_att_req s = .ret .WICED_BT_GATT_ERROR s := by
  simp [app_bt_server_callback, hop]

/-- Witness for C17, amended: opcode `other 0` on the sample state. -/
theorem unhandled_opcode_error_witness :
    app_bt_server_callback sample_cfg sample_env (sample_att_req (.other 0)) sample_state =
      .ret .WICED_BT_GATT_ERROR sample_state :=
  unhandled_opcode_error sample_cfg sample_env (sample_att_req (.other 0)) sample_state 0 rfl

/-- C18. On a value confirmation the callback asks the library for its state.
If that is `CY_OTA_STATE_OTA_COMPLETE` and `reboot_at_end` is not 0 it waits
and resets the device, and does not return; in every other case it calls
`cy_ota_agent_stop` once, resets nothing, and returns. -/
theorem value_confirmation_reset_or_stop (cfg : Config) (env : Env)
    (p_att_req : wiced_bt_gatt_attribute_request_t) (s : State)
    (hop : p_att_req.opcode = .GATT_HANDLE_VALUE_CONF) :
    app_bt_server_callback cfg env p_att_req s =
      if env.cy_ota_get_state = .CY_OTA_STATE_OTA_COMPLETE ∧ s.ota_app.reboot_at_end ≠ 0 then
        .hang { s with calls := s.calls ++
          [.cy_ota_get_state s.ota_app.ota_context, .cy_rtos_delay_milliseconds 1000,
            .cyhal_system_reset_device] }
      else
        .ret .WICED_BT_GATT_ERROR
          { s with
            ota_app := { s.ota_app with ota_context := env.cy_ota_agent_stop_context }
            calls := s.calls ++
              [.cy_ota_get_state s.ota_app.ota_context,
                .cy_ota_agent_stop s.ota_app.ota_context] } := by
  by_cases hc : env.cy_ota_get_state = .CY_OTA_STATE_OTA_COMPLETE ∧ s.ota_app.reboot_at_end ≠ 0
  · rw [if_pos hc]
    simp [app_bt_server_callback, hop, handle_value_conf, State.call, hc.1, hc.2]
  · rw [if_neg hc]
    rw [not_and_or] at hc
    rcases hc with hc | hc
    · simp [app_bt_server_callback, hop, handle_value_conf, State.call, hc]
    · simp only [ne_eq, not_not] at hc
      simp [app_bt_server_callback, hop, handle_value_conf, State.call, hc]

/-- Witness for C18: the library reports a state other than complete. -/
theorem value_confirmation_reset_or_stop_witness :
    app_bt_server_callback sample_cfg sample_env (sample_att_req .GATT_HANDLE_VALUE_CONF)
        sample_state =
      if sample_env.cy_ota_get_state = .CY_OTA_STATE_OTA_COMPLETE ∧
          sample_state.ota_app.reboot_at_end ≠ 0 then
        .hang { sample_state with calls := sample_state.calls ++
          [.cy_ota_get_state sample_state.ota_app.ota_context,
            .cy_rtos_delay_milliseconds 1000, .cyhal_system_reset_device] }
      else
        .ret .WICED_BT_GATT_ERROR
          { sample_state with
            ota_app := { sample_state.ota_app with
              ota_context := sample_env.cy_ota_agent_stop_context }
            calls := sample_state.calls ++
              [.cy_ota_get_state sample_state.ota_app.ota_context,
                .cy_ota_agent_stop sample_state.ota_app.ota_context] } :=
  value_confirmation_reset_or_stop sample_cfg sample_env
    (sample_att_req .GATT_HANDLE_VALUE_CONF) sample_state rfl

/-! ## What a request may do to the attribute table -/

theorem table_sat_bind {α β : Type} (o : Outcome α) (f : α → State → Outcome β)
    (P : List gatt_db_lookup_table_t → Prop) (ho : o.table_sat P)
    (hf : ∀ v s, P s.app_gatt_db_ext_attr_tbl → (f v s).table_sat P) :
    (o.bind f).table_sat P := by
  cases o with
  | ret v s => exact hf v s ho
  | hang s => exact ho
  | fault => trivial

theorem init_ota_table_sat (env : Env) (s : State) (P : List gatt_db_lookup_table_t → Prop)
    (h : P s.app_gatt_db_ext_attr_tbl) : (init_ota env s).table_sat P := by
  unfold init_ota
  simp only [State.call]
  repeat' split
  all_goals simpa [Outcome.table_sat] using h

theorem cmd_prepare_download_table_sat (cfg : Config) (env : Env) (s : State)
    (P : List gatt_db_lookup_table_t → Prop) (h : P s.app_gatt_db_ext_attr_tbl) :
    (cmd_prepare_download cfg env s).table_sat P := by
  unfold cmd_prepare_download
  apply table_sat_bind
  · exact init_ota_table_sat env _ P h
  · intro v s2 h2
    simp only [app_bt_ble_send_notification, State.call]
    repeat' split
    all_goals simpa [Outcome.table_sat] using h2

theorem cmd_download_table_sat (cfg : Config) (env : Env) (r : wiced_bt_gatt_write_req_t)
    (s : State) (P : List gatt_db_lookup_table_t → Prop) (h : P s.app_gatt_db_ext_attr_tbl) :
    (cmd_download cfg env r s).table_sat P := by
  unfold cmd_download
  simp only [app_bt_ble_send_notification, State.call]
  repeat' split
  all_goals simp [Outcome.table_sat, h]

theorem cmd_verify_table_sat (cfg : Config) (env : Env) (r : wiced_bt_gatt_write_req_t)
    (s : State) (P : List gatt_db_lookup_table_t → Prop) (h : P s.app_gatt_db_ext_attr_tbl) :
    (cmd_verify cfg env r s).table_sat P := by
  unfold cmd_verify
  simp only [app_bt_ble_send_indication, State.call]
  repeat' split
  all_goals simp [Outcome.table_sat, h]

theorem cmd_abort_table_sat (env : Env) (s : State) (P : List gatt_db_lookup_table_t → Prop)
    (h : P s.app_gatt_db_ext_attr_tbl) : (cmd_abort env s).table_sat P := by
  simpa [cmd_abort, Outcome.table_sat, State.call] using h

/-- The write handler ends with the table it found or with the table
`app_bt_set_value` made of it. -/
theorem write_handler_table_sat (cfg : Config) (env : Env) (r : wiced_bt_gatt_write_req_t)
    (s : State) (P : List gatt_db_lookup_table_t → Prop) (h : P s.app_gatt_db_ext_attr_tbl)
    (hset : P (app_bt_set_value s.app_gatt_db_ext_attr_tbl r.handle r.p_val r.val_len).2) :
    (app_bt_write_handler cfg env r s).table_sat P := by
  unfold app_bt_write_handler
  simp only [State.call]
  repeat' split
  all_goals first
    | exact cmd_prepare_download_table_sat cfg env s P h
    | exact cmd_download_table_sat cfg env r s P h
    | exact cmd_verify_table_sat cfg env r s P h
    | exact cmd_abort_table_sat env s P h
    | exact hset
    | simp [Outcome.table_sat, h]

theorem execute_table_sat (cfg : Config) (env : Env) (s : State)
    (P : List gatt_db_lookup_table_t → Prop) (h : P s.app_gatt_db_ext_attr_tbl)
    (hset : P (app_bt_set_value s.app_gatt_db_ext_attr_tbl s.write_buff.handle
      s.write_buff.value s.write_buff.written).2) :
    (app_bt_execute_write_handler cfg env s).table_sat P := by
  unfold app_bt_execute_write_handler
  split
  · exact h
  · apply table_sat_bind
    · exact write_handler_table_sat cfg env (execute_write_req s.write_buff) s P h hset
    · intro v s1 h1
      exact h1

theorem set_value_cons_fit (e : gatt_db_lookup_table_t) (rest : List gatt_db_lookup_table_t)
    (attr_handle : Nat) (p_val : List Nat) (len : Nat) (hh : e.handle = attr_handle)
    (hfit : e.max_len ≥ len) :
    (app_bt_set_value (e :: rest) attr_handle p_val len).2 =
      { handle := e.handle, max_len := e.max_len, cur_len := len,
        p_data := memcpy (List.replicate e.max_len 0) 0 p_val len } :: rest := by
  unfold app_bt_set_value
  simp only [hh, if_true, hfit]
  split <;> rfl

theorem set_value_cons_too_long (e : gatt_db_lookup_table_t)
    (rest : List gatt_db_lookup_table_t) (attr_handle : Nat) (p_val : List Nat) (len : Nat)
    (hh : e.handle = attr_handle) (hfit : ¬ e.max_len ≥ len) :
    app_bt_set_value (e :: rest) attr_handle p_val len =
      (.WICED_BT_GATT_INVALID_ATTR_LEN, e :: rest) := by
  unfold app_bt_set_value
  simp only [hh, if_true, hfit, if_false]

theorem set_value_cons_other (e : gatt_db_lookup_table_t) (rest : List gatt_db_lookup_table_t)
    (attr_handle : Nat) (p_val : List Nat) (len : Nat) (hh : ¬ e.handle = attr_handle) :
    app_bt_set_value (e :: rest) attr_handle p_val len =
      ((app_bt_set_value rest attr_handle p_val len).1,
        e :: (app_bt_set_value rest attr_handle p_val len).2) := by
  conv_lhs => unfold app_bt_set_value
  simp only [hh, if_false]

theorem set_value_only_first_match (tbl : List gatt_db_lookup_table_t) (attr_handle : Nat)
    (p_val : List Nat) (len : Nat) :
    only_first_match_changed attr_handle tbl
      (app_bt_set_value tbl attr_handle p_val len).2 := by
  induction tbl with
  | nil =>
    left
    rfl
  | cons e rest ih =>
    by_cases hh : e.handle = attr_handle
    · by_cases hfit : e.max_len ≥ len
      · right
        rw [set_value_cons_fit e rest attr_handle p_val len hh hfit]
        exact ⟨[], e, _, rest, rfl, rfl, hh, hh, rfl, by simp⟩
      · left
        rw [set_value_cons_too_long e rest attr_handle p_val len hh hfit]
    · rw [set_value_cons_other e rest attr_handle p_val len hh]
      rcases ih with ih | ⟨pre, x, x1, post, h1, h2, h3, h4, h5, h6⟩
      · left
        simp only [ih]
      · right
        refine ⟨e :: pre, x, x1, post, by rw [h1]; rfl, ?_, h3, h4, h5, ?_⟩
        · simp only [h2]
          rfl
        · intro y hy
          rcases List.mem_cons.mp hy with hy | hy
          · rw [hy]
            exact hh
          · exact h6 y hy

theorem only_first_match_no_match (target : Nat) (tbl tbl1 : List gatt_db_lookup_table_t)
    (h : only_first_match_changed target tbl tbl1) (hno : ∀ e ∈ tbl, e.handle ≠ target) :
    tbl1 = tbl := by
  rcases h with h | ⟨pre, e, e1, post, h1, _, h3, _⟩
  · exact h
  · exact absurd h3 (hno e (by rw [h1]; simp))

theorem set_value_bounded (tbl : List gatt_db_lookup_table_t) (attr_handle : Nat)
    (p_val : List Nat) (len : Nat) (h : table_bounded tbl) :
    table_bounded (app_bt_set_value tbl attr_handle p_val len).2 := by
  induction tbl with
  | nil =>
    intro e he
    simp [app_bt_set_value] at he
  | cons e rest ih =>
    have he : e.cur_len ≤ e.max_len := h e (by simp)
    have hrest : table_bounded rest := fun x hx => h x (by simp [hx])
    by_cases hh : e.handle = attr_handle
    · by_cases hfit : e.max_len ≥ len
      · rw [set_value_cons_fit e rest attr_handle p_val len hh hfit]
        intro x hx
        rcases List.mem_cons.mp hx with hx2 | hx2
        · rw [hx2]
          exact hfit
        · exact hrest x hx2
      · rw [set_value_cons_too_long e rest attr_handle p_val len hh hfit]
        exact h
    · rw [set_value_cons_other e rest attr_handle p_val len hh]
      intro x hx
      rcases List.mem_cons.mp hx with hx2 | hx2
      · rw [hx2]
        exact he
      · exact ih hrest x hx2

/-- C19. After a single write to handle `h`, and after an execute-write whose
buffered handle is `h`, the attribute table is the old one except, at most,
for the first row with handle `h`: every other row, in particular every row
with another handle, is as before, and if no row has handle `h` the table is
unchanged. The same holds of `app_bt_set_value` itself. -/
theorem write_touches_only_target_row (cfg : Config) (env : Env)
    (r : wiced_bt_gatt_write_req_t) (s : State) :
    (app_bt_write_handler cfg env r s).table_sat
        (fun t => only_first_match_changed r.handle s.app_gatt_db_ext_attr_tbl t ∧
          ((∀ e ∈ s.app_gatt_db_ext_attr_tbl, e.handle ≠ r.handle) →
            t = s.app_gatt_db_ext_attr_tbl)) ∧
      (app_bt_execute_write_handler cfg env s).table_sat
        (fun t =>
          only_first_match_changed s.write_buff.handle s.app_gatt_db_ext_attr_tbl t ∧
          ((∀ e ∈ s.app_gatt_db_ext_attr_tbl, e.handle ≠ s.write_buff.handle) →
            t = s.app_gatt_db_ext_attr_tbl)) ∧
      ∀ (attr_handle : Nat) (p_val : List Nat) (len : Nat),
        only_first_match_changed attr_handle s.app_gatt_db_ext_attr_tbl
          (app_bt_set_value s.app_gatt_db_ext_attr_tbl attr_handle p_val len).2 := by
  refine ⟨?_, ?_, ?_⟩
  · apply write_handler_table_sat
    · exact ⟨Or.inl rfl, fun _ => rfl⟩
    · exact ⟨set_value_only_first_match _ _ _ _,
        only_first_match_no_match _ _ _ (set_value_only_first_match _ _ _ _)⟩
  · apply execute_table_sat
    · exact ⟨Or.inl rfl, fun _ => rfl⟩
    · exact ⟨set_value_only_first_match _ _ _ _,
        only_first_match_no_match _ _ _ (set_value_only_first_match _ _ _ _)⟩
  · intro attr_handle p_val len
    exact set_value_only_first_match _ _ _ _

theorem read_handler_table (env : Env) (conn_id : Nat) (opcode : wiced_bt_gatt_opcode_t)
    (p_read_req : wiced_bt_gatt_read_t) (len_requested : Nat) (s : State) :
    (app_gatt_req_read_handler env conn_id opcode p_read_req len_requested
      s).2.app_gatt_db_ext_attr_tbl = s.app_gatt_db_ext_attr_tbl := by
  unfold app_gatt_req_read_handler
  simp only [State.call]
  repeat' split
  all_goals rfl

theorem read_by_type_table_sat (env : Env) (conn_id : Nat) (opcode : wiced_bt_gatt_opcode_t)
    (p_read_req : wiced_bt_gatt_read_by_type_t) (len_requested : Nat) (s : State)
    (P : List gatt_db_lookup_table_t → Prop) (h : P s.app_gatt_db_ext_attr_tbl) :
    (app_gatt_req_read_by_type_handler env conn_id opcode p_read_req len_requested
      s).table_sat P := by
  unfold app_gatt_req_read_by_type_handler
  simp only [State.call]
  repeat' split
  all_goals simpa [Outcome.table_sat] using h

theorem read_multi_table_sat (env : Env) (conn_id : Nat) (opcode : wiced_bt_gatt_opcode_t)
    (p_read_req : wiced_bt_gatt_read_multiple_req_t) (len_requested : Nat) (s : State)
    (P : List gatt_db_lookup_table_t → Prop) (h : P s.app_gatt_db_ext_attr_tbl) :
    (app_gatt_req_read_multi_handler env conn_id opcode p_read_req len_requested
      s).table_sat P := by
  unfold app_gatt_req_read_multi_handler
  simp only [State.call]
  repeat' split
  all_goals simp [Outcome.table_sat, h]

theorem prepare_table (cfg : Config) (conn_id : Nat) (opcode : wiced_bt_gatt_opcode_t)
    (p_req : wiced_bt_gatt_write_req_t) (s : State) :
    (app_bt_prepare_write_handler cfg conn_id opcode p_req
      s).2.app_gatt_db_ext_attr_tbl = s.app_gatt_db_ext_attr_tbl := by
  unfold app_bt_prepare_write_handler
  simp only [State.call]
  repeat' split
  all_goals rfl

theorem handle_value_conf_table_sat (env : Env) (s : State)
    (P : List gatt_db_lookup_table_t → Prop) (h : P s.app_gatt_db_ext_attr_tbl) :
    (handle_value_conf env s).table_sat P := by
  unfold handle_value_conf
  simp only [State.call]
  repeat' split
  all_goals simpa [Outcome.table_sat] using h

/-- The dispatcher ends with a table satisfying `P` if the table it found does
and `app_bt_set_value` keeps `P`. -/
theorem server_callback_table_sat (cfg : Config) (env : Env)
    (p_att_req : wiced_bt_gatt_attribute_request_t) (s : State)
    (P : List gatt_db_lookup_table_t → Prop) (h : P s.app_gatt_db_ext_attr_tbl)
    (hset : ∀ (attr_handle : Nat) (p_val : List Nat) (len : Nat),
      P (app_bt_set_value s.app_gatt_db_ext_attr_tbl attr_handle p_val len).2) :
    (app_bt_server_callback cfg env p_att_req s).table_sat P := by
  unfold app_bt_server_callback
  split
  · simp only [Outcome.table_sat, read_handler_table]
    exact h
  · simp only [Outcome.table_sat, read_handler_table]
    exact h
  · exact read_by_type_table_sat env _ _ _ _ s P h
  · exact read_multi_table_sat env _ _ _ _ s P h
  · exact read_multi_table_sat env _ _ _ _ s P h
  · apply table_sat_bind
    · exact write_handler_table_sat cfg env _ s P h (hset _ _ _)
    · intro v s1 h1
      split <;> simpa [Outcome.table_sat, State.call] using h1
  · apply table_sat_bind
    · exact write_handler_table_sat cfg env _ s P h (hset _ _ _)
    · intro v s1 h1
      split <;> simpa [Outcome.table_sat, State.call] using h1
  · apply table_sat_bind
    · exact write_handler_table_sat cfg env _ s P h (hset _ _ _)
    · intro v s1 h1
      split <;> simpa [Outcome.table_sat, State.call] using h1
  · simp only
    split <;> simpa [Outcome.table_sat, State.call, prepare_table] using h
  · apply table_sat_bind
    · exact execute_table_sat cfg env s P h (hset _ _ _)
    · intro v s1 h1
      split <;> simpa [Outcome.table_sat, State.call] using h1
  · simpa [Outcome.table_sat, State.call] using h
  · exact handle_value_conf_table_sat env s P h
  · exact h
  · exact h

/-- C20. If every row of the attribute table has `cur_len ≤ max_len`, then so
has every row of the table the dispatcher ends with, whatever the request:
reads, writes of any length, prepare-write, execute-write and the rest. -/
theorem cur_len_within_max_len (cfg : Config) (env : Env)
    (p_att_req : wiced_bt_gatt_attribute_request_t) (s : State)
    (h : table_bounded s.app_gatt_db_ext_attr_tbl) :
    (app_bt_server_callback cfg env p_att_req s).table_sat table_bounded :=
  server_callback_table_sat cfg env p_att_req s table_bounded h
    (fun attr_handle p_val len => set_value_bounded _ attr_handle p_val len h)

/-- Witness for C20: a write of two bytes to handle 5 of the sample table. -/
theorem cur_len_within_max_len_witness :
    (app_bt_server_callback sample_cfg sample_env (sample_att_req .GATT_REQ_WRITE)
      sample_state).table_sat table_bounded :=
  cur_len_within_max_len sample_cfg sample_env (sample_att_req .GATT_REQ_WRITE) sample_state
    (by simp [table_bounded, sample_state, sample_tbl])

/-! ## Bonding: link-key update and request -/

theorem address_eq_iff (a b : wiced_bt_device_address_t) :
    (a.b0 = b.b0 ∧ a.b1 = b.b1 ∧ a.b2 = b.b2 ∧ a.b3 = b.b3 ∧ a.b4 = b.b4 ∧ a.b5 = b.b5) ↔
      a = b := by
  cases a
  cases b
  simp

/-- The scan from `count` on ends at the first counted record with the address,
or past the last counted record if there is none. -/
theorem link_keys_scan_spec (bondinfo : bondinfo_t) (bd_addr : wiced_bt_device_address_t)
    (hnum : bondinfo.slot_data.NUM_BONDED ≤ bondinfo.link_keys.length)
    (hbyte : bondinfo.slot_data.NUM_BONDED ≤ 255) :
    ∀ (fuel count : Nat), bondinfo.slot_data.NUM_BONDED - count < fuel →
      (∃ i keys, count ≤ i ∧ i < bondinfo.slot_data.NUM_BONDED ∧
          bondinfo.link_keys[i]? = some keys ∧ keys.bd_addr = bd_addr ∧
          (∀ j kj, count ≤ j → j < i → bondinfo.link_keys[j]? = some kj →
            kj.bd_addr ≠ bd_addr) ∧
          link_keys_scan bondinfo bd_addr fuel count = .found keys) ∨
        ((∀ i keys, count ≤ i → i < bondinfo.slot_data.NUM_BONDED →
            bondinfo.link_keys[i]? = some keys → keys.bd_addr ≠ bd_addr) ∧
          link_keys_scan bondinfo bd_addr fuel count = .not_found) := by
  intro fuel
  induction fuel with
  | zero =>
    intro count h
    exact absurd h (Nat.not_lt_zero _)
  | succ n ih =>
    intro count h
    unfold link_keys_scan
    by_cases hc : count < bondinfo.slot_data.NUM_BONDED
    · have hlt : count < bondinfo.link_keys.length := Nat.lt_of_lt_of_le hc hnum
      have hget : bondinfo.link_keys[count]? = some (bondinfo.link_keys[count]) :=
        List.getElem?_eq_getElem hlt
      simp only [hc, if_true, hget, address_eq_iff]
      by_cases hm : (bondinfo.link_keys[count]).bd_addr = bd_addr
      · left
        refine ⟨count, _, Nat.le_refl _, hc, hget, hm, ?_, by simp [hm]⟩
        intro j kj h1 h2
        omega
      · simp only [hm, if_false]
        have hmod : (count + 1) % 2 ^ 8 = count + 1 := Nat.mod_eq_of_lt (by omega)
        rw [hmod]
        rcases ih (count + 1) (by omega) with ⟨i, keys, h1, h2, h3, h4, h5, h6⟩ | ⟨h1, h2⟩
        · left
          refine ⟨i, keys, by omega, h2, h3, h4, ?_, h6⟩
          intro j kj hj1 hj2 hj3
          by_cases hjc : j = count
          · subst hjc
            rw [hget] at hj3
            cases hj3
            exact hm
          · exact h5 j kj (by omega) hj2 hj3
        · right
          refine ⟨?_, h2⟩
          intro i keys hi1 hi2 hi3
          by_cases hic : i = count
          · subst hic
            rw [hget] at hi3
            cases hi3
            exact hm
          · exact h1 i keys (by omega) hi2 hi3
    · right
      simp only [hc, if_false]
      refine ⟨?_, trivial⟩
      intro i keys hi1 hi2
      omega

/-- C21. From the zeroed bond table, an update event for record `sample_keys 7`
followed by a request event for the same address: the update stores the record
but the request returns `WICED_BT_ERROR` and hands nothing back, because
`slot_data[NUM_BONDED]` is still 0. -/
theorem bond_round_trip_fails :
    (btm_paired_device_link_keys_update_evt sample_env (sample_keys 7)
        { bondinfo := bondinfo_init, calls := [] }).bind
      (fun res => btm_paired_device_link_keys_request_evt res.2.bondinfo
        { bd_addr := (sample_keys 7).bd_addr, key_data := 0 }) =
      some (.WICED_BT_ERROR, { bd_addr := (sample_keys 7).bd_addr, key_data := 0 }) := by
  rfl

/-- C22. A link-key update event stores the record at `slot_data[NEXT_FREE]`
and touches no other record, but it leaves both slot counters as they were:
neither `NUM_BONDED` nor `NEXT_FREE` is incremented. -/
theorem link_keys_update_keeps_counters (env : Env) (r : wiced_bt_device_link_keys_t)
    (st : BtmState) :
    match btm_paired_device_link_keys_update_evt env r st with
    | some res =>
      res.2.bondinfo.slot_data = st.bondinfo.slot_data ∧
        res.2.bondinfo.link_keys = st.bondinfo.link_keys.set st.bondinfo.slot_data.NEXT_FREE r
    | none => True := by
  unfold btm_paired_device_link_keys_update_evt
  split
  · rename_i res heq
    split at heq
    · cases heq
      exact ⟨rfl, rfl⟩
    · cases heq
  · trivial

/-- C23. With at most `BOND_MAX` records counted, a link-key request event for
address `A` returns `WICED_BT_SUCCESS` and hands back the lowest-index counted
record whose address equals `A` in all six bytes, if there is one; otherwise it
returns `WICED_BT_ERROR` and leaves the request data as it was. -/
theorem link_keys_request_finds_first_match (bondinfo : bondinfo_t)
    (request : wiced_bt_device_link_keys_t)
    (hlen : bondinfo.link_keys.length = BOND_MAX)
    (hnum : bondinfo.slot_data.NUM_BONDED ≤ BOND_MAX) :
    (∃ i keys, i < bondinfo.slot_data.NUM_BONDED ∧ bondinfo.link_keys[i]? = some keys ∧
        keys.bd_addr = request.bd_addr ∧
        (∀ j kj, j < i → bondinfo.link_keys[j]? = some kj → kj.bd_addr ≠ request.bd_addr) ∧
        btm_paired_device_link_keys_request_evt bondinfo request =
          some (.WICED_BT_SUCCESS, keys)) ∨
      ((∀ i keys, i < bondinfo.slot_data.NUM_BONDED → bondinfo.link_keys[i]? = some keys →
          keys.bd_addr ≠ request.bd_addr) ∧
        btm_paired_device_link_keys_request_evt bondinfo request =
          some (.WICED_BT_ERROR, request)) := by
  have hb : BOND_MAX = 4 := rfl
  rcases link_keys_scan_spec bondinfo request.bd_addr (by omega) (by omega)
      (bondinfo.slot_data.NUM_BONDED + 1) 0 (by omega) with
    ⟨i, keys, _, h2, h3, h4, h5, h6⟩ | ⟨h1, h2⟩
  · left
    refine ⟨i, keys, h2, h3, h4, fun j kj hj hk => h5 j kj (Nat.zero_le _) hj hk, ?_⟩
    simp [btm_paired_device_link_keys_request_evt, h6]
  · right
    refine ⟨fun i keys hi hk => h1 i keys (Nat.zero_le _) hi hk, ?_⟩
    simp [btm_paired_device_link_keys_request_evt, h2]

/-- Witness for C23: the sample table, which counts two records. -/
theorem link_keys_request_finds_first_match_witness :
    (∃ i keys, i < sample_bondinfo.slot_data.NUM_BONDED ∧
        sample_bondinfo.link_keys[i]? = some keys ∧
        keys.bd_addr = (sample_keys 2).bd_addr ∧
        (∀ j kj, j < i → sample_bondinfo.link_keys[j]? = some kj →
          kj.bd_addr ≠ (sample_keys 2).bd_addr) ∧
        btm_paired_device_link_keys_request_evt sample_bondinfo
            { bd_addr := (sample_keys 2).bd_addr, key_data := 0 } =
          some (.WICED_BT_SUCCESS, keys)) ∨
      ((∀ i keys, i < sample_bondinfo.slot_data.NUM_BONDED →
          sample_bondinfo.link_keys[i]? = some keys →
          keys.bd_addr ≠ (sample_keys 2).bd_addr) ∧
        btm_paired_device_link_keys_request_evt sample_bondinfo
            { bd_addr := (sample_keys 2).bd_addr, key_data := 0 } =
          some (.WICED_BT_ERROR, { bd_addr := (sample_keys 2).bd_addr, key_data := 0 })) :=
  link_keys_request_finds_first_match sample_bondinfo
    { bd_addr := (sample_keys 2).bd_addr, key_data := 0 } (by decide) (by decide)

theorem link_keys_update_step (env : Env) (r : wiced_bt_device_link_keys_t) (st : BtmState) :
    match btm_paired_device_link_keys_update_evt env r st with
    | some res =>
      res.2.bondinfo.slot_data = st.bondinfo.slot_data ∧
        res.2.bondinfo.link_keys = st.bondinfo.link_keys.set st.bondinfo.slot_data.NEXT_FREE r
    | none => True := by
  unfold btm_paired_device_link_keys_update_evt
  split
  · rename_i res heq
    split at heq
    · cases heq
      exact ⟨rfl, rfl⟩
    · cases heq
  · trivial

theorem bond_reachable_inv (st : BtmState) (h : BondReachable st) :
    st.bondinfo.slot_data.NEXT_FREE < BOND_MAX ∧ st.bondinfo.link_keys.length = BOND_MAX := by
  induction h with
  | init calls => exact ⟨by simp [bondinfo_init, BOND_MAX], by simp [bondinfo_init]⟩
  | update st env r status st1 _ hstep ih =>
    have hk := link_keys_update_step env r st
    rw [hstep] at hk
    simp only at hk
    rw [hk.1, hk.2, List.length_set]
    exact ih

/-- C24 as stated fails: after update events for four different addresses, a
fifth update event for yet another address is not answered with an error, and
the table after the four does not hold the four records. -/
theorem bond_exhaustion_counterexample :
    ¬ ∃ (st4 st5 : BtmState) (status : wiced_result_t),
        link_keys_updates sample_env [sample_keys 1, sample_keys 2, sample_keys 3, sample_keys 4]
            { bondinfo := bondinfo_init, calls := [] } = some st4 ∧
          btm_paired_device_link_keys_update_evt sample_env (sample_keys 5) st4 =
            some (status, st5) ∧
          (∀ n ∈ [1, 2, 3, 4], sample_keys n ∈ st4.bondinfo.link_keys) ∧
          status ≠ .WICED_BT_SUCCESS ∧
          st5.bondinfo.link_keys = st4.bondinfo.link_keys := by
  rintro ⟨st4, st5, status, _, h5, _, hstatus, _⟩
  have h5eval : ∀ st, (btm_paired_device_link_keys_update_evt sample_env (sample_keys 5)
      st).map Prod.fst = none ∨ (btm_paired_device_link_keys_update_evt sample_env
      (sample_keys 5) st).map Prod.fst = some .WICED_BT_SUCCESS := by
    intro st
    unfold btm_paired_device_link_keys_update_evt
    split
    · right
      rfl
    · left
      rfl
  rcases h5eval _ with h | h
  · rw [h5] at h
    cases h
  · rw [h5] at h
    simp only [Option.map_some', Option.some.injEq] at h
    exact hstatus h

/-- C24, amended. In every state reachable from the zeroed bond table the index
`slot_data[NEXT_FREE]` used for storing is below `BOND_MAX`, and a link-key
update event is never refused: whatever was stored before, it assigns the
record at that index, hands it to the address resolution database and returns
that call's result. -/
theorem link_keys_update_never_refused (st : BtmState) (h : BondReachable st) :
    st.bondinfo.slot_data.NEXT_FREE < BOND_MAX ∧
      ∀ (env : Env) (r : wiced_bt_device_link_keys_t),
        btm_paired_device_link_keys_update_evt env r st =
          some (env.wiced_bt_dev_add_device_to_address_resolution_db,
            { bondinfo := { st.bondinfo with
                link_keys := st.bondinfo.link_keys.set st.bondinfo.slot_data.NEXT_FREE r }
              calls := st.calls ++ [.wiced_bt_dev_add_device_to_address_resolution_db r] }) := by
  have hinv := bond_reachable_inv st h
  refine ⟨hinv.1, ?_⟩
  intro env r
  have hlt : st.bondinfo.slot_data.NEXT_FREE < st.bondinfo.link_keys.length := by
    rw [hinv.2]
    exact hinv.1
  simp [btm_paired_device_link_keys_update_evt, hlt]

/-- Witness for C24, amended: the state after one update event. -/
theorem link_keys_update_never_refused_witness :
    ({ bondinfo := { bondinfo_init with
          link_keys := bondinfo_init.link_keys.set bondinfo_init.slot_data.NEXT_FREE
            (sample_keys 1) }
       calls := [.wiced_bt_dev_add_device_to_address_resolution_db (sample_keys 1)] } :
        BtmState).bondinfo.slot_data.NEXT_FREE < BOND_MAX :=
  (link_keys_update_never_refused _
    (BondReachable.update { bondinfo := bondinfo_init, calls := [] } sample_env (sample_keys 1)
      .WICED_BT_SUCCESS _ (BondReachable.init []) rfl)).1

/-! ## Connection events and the long-write buffer -/

/-- C25 as stated fails: after a disconnect the stored peer address is still
the one of the connection that ended, not zero. -/
theorem disconnect_clears_context_counterexample :
    ¬ ∀ (env : Env) (p_conn_status : wiced_bt_gatt_connection_status_t) (s : State),
        p_conn_status.connected = false →
        (app_bt_connect_callback env p_conn_status s).2.ota_app.bt_conn_id = 0 ∧
          (app_bt_connect_callback env p_conn_status s).2.ota_app.bt_peer_addr =
            List.replicate BD_ADDR_LEN 0 ∧
          (app_bt_connect_callback env p_conn_status s).2.ota_app.bt_config_descriptor = 0 := by
  intro h
  have h1 := h sample_env
    { connected := false, bd_addr := (sample_keys 1).bd_addr, conn_id := 1 }
    sample_state rfl
  exact absurd h1.2.1 (by decide)

/-- C25, amended. A disconnect event sets the stored connection id to 0 and
restarts advertising; the stored peer address, the configuration descriptor
and every other global keep their values. The status is the stack's. -/
theorem disconnect_clears_conn_id (env : Env)
    (p_conn_status : wiced_bt_gatt_connection_status_t) (s : State)
    (hdis : p_conn_status.connected = false) :
    app_bt_connect_callback env p_conn_status s =
      (env.wiced_bt_start_advertisements,
        { s with
          ota_app := { s.ota_app with bt_conn_id := 0 }
          calls := s.calls ++
            [.wiced_bt_start_advertisements .BTM_BLE_ADVERT_UNDIRECTED_HIGH] }) := by
  simp [app_bt_connect_callback, hdis, State.call]

/-- Witness for C25, amended: a disconnect on the sample state. -/
theorem disconnect_clears_conn_id_witness :
    app_bt_connect_callback sample_env
        { connected := false, bd_addr := (sample_keys 1).bd_addr, conn_id := 1 } sample_state =
      (sample_env.wiced_bt_start_advertisements,
        { sample_state with
          ota_app := { sample_state.ota_app with bt_conn_id := 0 }
          calls := sample_state.calls ++
            [.wiced_bt_start_advertisements .BTM_BLE_ADVERT_UNDIRECTED_HIGH] }) :=
  disconnect_clears_conn_id sample_env
    { connected := false, bd_addr := (sample_keys 1).bd_addr, conn_id := 1 } sample_state rfl

theorem connect_callback_write_buff (env : Env)
    (p_conn_status : wiced_bt_gatt_connection_status_t) (s : State) :
    (app_bt_connect_callback env p_conn_status s).2.write_buff = s.write_buff := by
  unfold app_bt_connect_callback
  simp only [State.call]
  split <;> rfl

theorem read_handler_write_buff (env : Env) (conn_id : Nat) (opcode : wiced_bt_gatt_opcode_t)
    (p_read_req : wiced_bt_gatt_read_t) (len_requested : Nat) (s : State) :
    (app_gatt_req_read_handler env conn_id opcode p_read_req len_requested s).2.write_buff =
      s.write_buff := by
  unfold app_gatt_req_read_handler
  simp only [State.call]
  repeat' split
  all_goals rfl

theorem read_by_type_keeps_write_buff (env : Env) (conn_id : Nat)
    (opcode : wiced_bt_gatt_opcode_t) (p_read_req : wiced_bt_gatt_read_by_type_t)
    (len_requested : Nat) (s : State) :
    (app_gatt_req_read_by_type_handler env conn_id opcode p_read_req len_requested
      s).keeps_write_buff s.write_buff := by
  unfold app_gatt_req_read_by_type_handler
  simp only [State.call]
  repeat' split
  all_goals simp [Outcome.keeps_write_buff]

theorem read_multi_keeps_write_buff (env : Env) (conn_id : Nat)
    (opcode : wiced_bt_gatt_opcode_t) (p_read_req : wiced_bt_gatt_read_multiple_req_t)
    (len_requested : Nat) (s : State) :
    (app_gatt_req_read_multi_handler env conn_id opcode p_read_req len_requested
      s).keeps_write_buff s.write_buff := by
  unfold app_gatt_req_read_multi_handler
  simp only [State.call]
  repeat' split
  all_goals simp [Outcome.keeps_write_buff]

theorem handle_value_conf_keeps_write_buff (env : Env) (s : State) :
    (handle_value_conf env s).keeps_write_buff s.write_buff := by
  unfold handle_value_conf
  simp only [State.call]
  repeat' split
  all_goals simp [Outcome.keeps_write_buff]

/-- Outside prepare-write and execute-write the dispatcher leaves `write_buff` alone. -/
theorem server_callback_keeps_write_buff (cfg : Config) (env : Env)
    (p_att_req : wiced_bt_gatt_attribute_request_t) (s : State)
    (hp : p_att_req.opcode ≠ .GATT_REQ_PREPARE_WRITE)
    (he : p_att_req.opcode ≠ .GATT_REQ_EXECUTE_WRITE) :
    (app_bt_server_callback cfg env p_att_req s).keeps_write_buff s.write_buff := by
  unfold app_bt_server_callback
  split
  · simp only [Outcome.keeps_write_buff, read_handler_write_buff]
  · simp only [Outcome.keeps_write_buff, read_handler_write_buff]
  · exact read_by_type_keeps_write_buff env _ _ _ _ s
  · exact read_multi_keeps_write_buff env _ _ _ _ s
  · exact read_multi_keeps_write_buff env _ _ _ _ s
  · apply keeps_write_buff_bind
    · exact write_handler_keeps_write_buff cfg env _ s
    · intro v s1 h1
      split <;> simpa [Outcome.keeps_write_buff, State.call] using h1
  · apply keeps_write_buff_bind
    · exact write_handler_keeps_write_buff cfg env _ s
    · intro v s1 h1
      split <;> simpa [Outcome.keeps_write_buff, State.call] using h1
  · apply keeps_write_buff_bind
    · exact write_handler_keeps_write_buff cfg env _ s
    · intro v s1 h1
      split <;> simpa [Outcome.keeps_write_buff, State.call] using h1
  · rename_i heq
    exact absurd heq hp
  · rename_i heq
    exact absurd heq he
  · simp [Outcome.keeps_write_buff, State.call]
  · exact handle_value_conf_keeps_write_buff env s
  · simp [Outcome.keeps_write_buff]
  · simp [Outcome.keeps_write_buff]

theorem server_callback_prepare (cfg : Config) (env : Env)
    (p_att_req : wiced_bt_gatt_attribute_request_t) (s : State)
    (hop : p_att_req.opcode = .GATT_REQ_PREPARE_WRITE) :
    app_bt_server_callback cfg env p_att_req s =
      if (app_bt_prepare_write_handler cfg p_att_req.conn_id p_att_req.opcode
          p_att_req.write_req s).1 ≠ .WICED_BT_GATT_SUCCESS then
        .ret (app_bt_prepare_write_handler cfg p_att_req.conn_id p_att_req.opcode
            p_att_req.write_req s).1
          ((app_bt_prepare_write_handler cfg p_att_req.conn_id p_att_req.opcode
            p_att_req.write_req s).2.call
            (.wiced_bt_gatt_server_send_error_rsp p_att_req.conn_id p_att_req.opcode
              p_att_req.write_req.handle
              (app_bt_prepare_write_handler cfg p_att_req.conn_id p_att_req.opcode
                p_att_req.write_req s).1))
      else
        .ret (app_bt_prepare_write_handler cfg p_att_req.conn_id p_att_req.opcode
            p_att_req.write_req s).1
          (app_bt_prepare_write_handler cfg p_att_req.conn_id p_att_req.opcode
            p_att_req.write_req s).2 := by
  simp only [app_bt_server_callback, hop, true_and]

/-- After a prepare-write the buffer is in use; after a refused one it is the
buffer the opening block left. -/
theorem prepare_write_buff_after (cfg : Config) (conn_id : Nat)
    (opcode : wiced_bt_gatt_opcode_t) (p_req : wiced_bt_gatt_write_req_t) (s : State) :
    (app_bt_prepare_write_handler cfg conn_id opcode p_req s).2.write_buff.in_use = true ∧
      ((app_bt_prepare_write_handler cfg conn_id opcode p_req s).1 ≠ .WICED_BT_GATT_SUCCESS →
        (app_bt_prepare_write_handler cfg conn_id opcode p_req s).2.write_buff =
          begin_sequence cfg s.write_buff) := by
  by_cases hrej : (begin_sequence cfg s.write_buff).written ≠ p_req.offset ∨
      cfg.CY_BT_MTU_SIZE < (begin_sequence cfg s.write_buff).written + p_req.val_len
  · rw [prepare_reject cfg conn_id opcode p_req s hrej]
    exact ⟨begin_sequence_in_use cfg s.write_buff, fun _ => rfl⟩
  · have hoff : (begin_sequence cfg s.write_buff).written = p_req.offset := by
      by_contra hne
      exact hrej (Or.inl hne)
    have hfit : (begin_sequence cfg s.write_buff).written + p_req.val_len ≤
        cfg.CY_BT_MTU_SIZE := by
      by_contra hgt
      exact hrej (Or.inr (Nat.lt_of_not_le hgt))
    rw [prepare_accept cfg conn_id opcode p_req s hoff hfit]
    exact ⟨begin_sequence_in_use cfg s.write_buff, fun hne => absurd rfl hne⟩

/-- C26. With the long-write buffer in use, every GATT event other than a
prepare-write or execute-write request (connect, disconnect, reads, single
writes, MTU, confirmations, buffer events) leaves `write_buff` exactly as it
was; a prepare-write request returns with `in_use` still true, and if it was
refused `write_buff` is exactly as it was. -/
theorem in_use_survives_other_events (cfg : Config) (env : Env) (s : State)
    (hin : s.write_buff.in_use = true) :
    (∀ event : wiced_bt_gatt_event,
        (∀ req, event = .GATT_ATTRIBUTE_REQUEST_EVT req →
          req.opcode ≠ .GATT_REQ_PREPARE_WRITE ∧ req.opcode ≠ .GATT_REQ_EXECUTE_WRITE) →
        (app_bt_gatt_event_handler cfg env event s).keeps_write_buff s.write_buff) ∧
      ∀ req : wiced_bt_gatt_attribute_request_t, req.opcode = .GATT_REQ_PREPARE_WRITE →
        ∃ st s1, app_bt_gatt_event_handler cfg env (.GATT_ATTRIBUTE_REQUEST_EVT req) s =
            .ret st s1 ∧
          s1.write_buff.in_use = true ∧
          (st ≠ .WICED_BT_GATT_SUCCESS → s1.write_buff = s.write_buff) := by
  constructor
  · intro event hev
    cases event with
    | GATT_CONNECTION_STATUS_EVT cs =>
      simp only [app_bt_gatt_event_handler, Outcome.keeps_write_buff,
        connect_callback_write_buff]
    | GATT_ATTRIBUTE_REQUEST_EVT req =>
      exact server_callback_keeps_write_buff cfg env req s (hev req rfl).1 (hev req rfl).2
    | GATT_GET_RESPONSE_BUFFER_EVT n => simp [app_bt_gatt_event_handler, Outcome.keeps_write_buff]
    | GATT_APP_BUFFER_TRANSMITTED_EVT =>
      simp [app_bt_gatt_event_handler, Outcome.keeps_write_buff]
    | GATT_OPERATION_CPLT_EVT => simp [app_bt_gatt_event_handler, Outcome.keeps_write_buff]
    | other code => simp [app_bt_gatt_event_handler, Outcome.keeps_write_buff]
  · intro req hop
    have hb := begin_sequence_of_in_use cfg s.write_buff hin
    have hform := server_callback_prepare cfg env req s hop
    have hu := prepare_write_buff_after cfg req.conn_id req.opcode req.write_req s
    by_cases hst : (app_bt_prepare_write_handler cfg req.conn_id req.opcode req.write_req s).1 =
        .WICED_BT_GATT_SUCCESS
    · refine ⟨(app_bt_prepare_write_handler cfg req.conn_id req.opcode req.write_req s).1,
        (app_bt_prepare_write_handler cfg req.conn_id req.opcode req.write_req s).2,
        ?_, hu.1, ?_⟩
      · simp only [app_bt_gatt_event_handler]
        rw [hform, if_neg (not_not.mpr hst)]
      · intro hne
        exact absurd hst hne
    · refine ⟨(app_bt_prepare_write_handler cfg req.conn_id req.opcode req.write_req s).1,
        (app_bt_prepare_write_handler cfg req.conn_id req.opcode req.write_req s).2.call
          (.wiced_bt_gatt_server_send_error_rsp req.conn_id req.opcode req.write_req.handle
            (app_bt_prepare_write_handler cfg req.conn_id req.opcode req.write_req s).1),
        ?_, ?_, ?_⟩
      · simp only [app_bt_gatt_event_handler]
        rw [hform, if_pos hst]
      · simpa [State.call] using hu.1
      · intro _
        simp only [State.call]
        rw [hu.2 hst, hb]

/-- Witness for C26: a disconnect while four bytes are buffered for handle 5. -/
theorem in_use_survives_other_events_witness :
    (app_bt_gatt_event_handler sample_cfg sample_env
        (.GATT_CONNECTION_STATUS_EVT
          { connected := false, bd_addr := (sample_keys 1).bd_addr, conn_id := 1 })
        { sample_state with write_buff :=
            { value := List.replicate 23 0, written := 4, handle := 5,
              in_use := true } }).keeps_write_buff
      { value := List.replicate 23 0, written := 4, handle := 5, in_use := true } :=
  (in_use_survives_other_events sample_cfg sample_env
    { sample_state with write_buff :=
        { value := List.replicate 23 0, written := 4, handle := 5, in_use := true } }
    rfl).1
    (.GATT_CONNECTION_STATUS_EVT
      { connected := false, bd_addr := (sample_keys 1).bd_addr, conn_id := 1 })
    (by
      intro req hreq
      cases hreq)

/-! ## Termination of the Prepare command -/

/-- C27. A Prepare command on a context with a valid tag, `cy_ota_agent_start`
failing with any error code: the write handler does not return. -/
theorem prepare_blocks_on_agent_start_failure (env : Env) (code : Nat) (s : State) :
    (app_bt_write_handler sample_cfg { env with cy_ota_agent_start := .failure code }
        { handle := 11, offset := 0, p_val := [1], val_len := 1 }
        { s with ota_app := { s.ota_app with tag := OTA_APP_TAG_VALID } }).returns = false := by
  have hop : payload_get
      ({ handle := 11, offset := 0, p_val := [1], val_len := 1 } : wiced_bt_gatt_write_req_t)
      0 = some 1 := rfl
  have hcmd : (1 : Nat) = sample_cfg.CY_OTA_UPGRADE_COMMAND_PREPARE_DOWNLOAD := rfl
  rw [write_handler_control_point sample_cfg _ _ _ 1 (by decide) rfl hop]
  simp only [hcmd, if_true, cmd_prepare_download_outcome]
  simp [Outcome.returns]

/-! ## The value store -/

theorem memcpy_into_zeros (max_len len : Nat) (p_val : List Nat) :
    memcpy (List.replicate max_len 0) 0 p_val len =
      p_val.take len ++ List.replicate (max_len - len) 0 := by
  simp [memcpy, List.drop_replicate]

theorem memcmp_after_memcpy (max_len len : Nat) (p_val : List Nat)
    (hv : len ≤ p_val.length) :
    memcmp_eq (memcpy (List.replicate max_len 0) 0 p_val len) p_val len = true := by
  have hl : (p_val.take len).length = len := by
    rw [List.length_take]
    omega
  rw [memcpy_into_zeros]
  simp only [memcmp_eq, List.take_left' hl, beq_self_eq_true]

theorem set_value_cons_fit_status (e : gatt_db_lookup_table_t)
    (rest : List gatt_db_lookup_table_t) (attr_handle : Nat) (p_val : List Nat) (len : Nat)
    (hh : e.handle = attr_handle) (hfit : e.max_len ≥ len) (hv : len ≤ p_val.length) :
    app_bt_set_value (e :: rest) attr_handle p_val len =
      (.WICED_BT_GATT_SUCCESS,
        { handle := e.handle, max_len := e.max_len, cur_len := len,
          p_data := p_val.take len ++ List.replicate (e.max_len - len) 0 } :: rest) := by
  have hm := memcmp_after_memcpy e.max_len len p_val hv
  rw [memcpy_into_zeros] at hm
  unfold app_bt_set_value
  simp only [hh, if_true, hfit, memcpy_into_zeros, hm]

/-- C28. For a value of `len` bytes, `app_bt_set_value` returns success exactly
when a row has the handle and the first such row has `max_len ≥ len`; that row
then has `cur_len = len` and holds the value followed by zeros up to `max_len`,
all other rows being as before. Without such a row it returns
`INVALID_HANDLE`, and with `len > max_len` it returns `INVALID_ATTR_LEN`, the
table unchanged in both cases. -/
theorem set_value_spec (tbl : List gatt_db_lookup_table_t) (attr_handle : Nat)
    (p_val : List Nat) (len : Nat) (hv : len ≤ p_val.length) :
    (app_bt_find_by_handle tbl attr_handle = none →
        app_bt_set_value tbl attr_handle p_val len = (.WICED_BT_GATT_INVALID_HANDLE, tbl)) ∧
      (∀ e, app_bt_find_by_handle tbl attr_handle = some e → len > e.max_len →
        app_bt_set_value tbl attr_handle p_val len = (.WICED_BT_GATT_INVALID_ATTR_LEN, tbl)) ∧
      (∀ e, app_bt_find_by_handle tbl attr_handle = some e → e.max_len ≥ len →
        ∃ pre post, tbl = pre ++ e :: post ∧ (∀ x ∈ pre, x.handle ≠ attr_handle) ∧
          app_bt_set_value tbl attr_handle p_val len =
            (.WICED_BT_GATT_SUCCESS,
              pre ++
                { handle := e.handle, max_len := e.max_len, cur_len := len,
                  p_data := p_val.take len ++ List.replicate (e.max_len - len) 0 } :: post)) ∧
      ((app_bt_set_value tbl attr_handle p_val len).1 = .WICED_BT_GATT_SUCCESS ↔
        ∃ e, app_bt_find_by_handle tbl attr_handle = some e ∧ e.max_len ≥ len) := by
  induction tbl with
  | nil =>
    refine ⟨fun _ => rfl, ?_, ?_, ?_⟩
    · intro e he
      simp [app_bt_find_by_handle] at he
    · intro e he
      simp [app_bt_find_by_handle] at he
    · simp [app_bt_set_value, app_bt_find_by_handle]
  | cons x rest ih =>
    by_cases hh : x.handle = attr_handle
    · have hfind : app_bt_find_by_handle (x :: rest) attr_handle = some x := by
        simp [app_bt_find_by_handle, hh]
      rw [hfind]
      by_cases hfit : x.max_len ≥ len
      · rw [set_value_cons_fit_status x rest attr_handle p_val len hh hfit hv]
        refine ⟨fun h => (by cases h), ?_, ?_, ?_⟩
        · intro e he hgt
          cases he
          omega
        · intro e he _
          cases he
          exact ⟨[], rest, rfl, by simp, rfl⟩
        · simp only [true_iff]
          exact ⟨x, rfl, hfit⟩
      · rw [set_value_cons_too_long x rest attr_handle p_val len hh hfit]
        refine ⟨fun h => (by cases h), fun _ _ _ => rfl, ?_, ?_⟩
        · intro e he hge
          cases he
          exact absurd hge hfit
        · simp only [reduceCtorEq, false_iff, not_exists, not_and]
          intro e he
          cases he
          exact hfit
    · have hfind : app_bt_find_by_handle (x :: rest) attr_handle =
          app_bt_find_by_handle rest attr_handle := by
        simp [app_bt_find_by_handle, hh]
      rw [hfind, set_value_cons_other x rest attr_handle p_val len hh]
      obtain ⟨ih1, ih2, ih3, ih4⟩ := ih
      refine ⟨?_, ?_, ?_, ?_⟩
      · intro hnone
        rw [ih1 hnone]
      · intro e he hgt
        rw [ih2 e he hgt]
      · intro e he hge
        obtain ⟨pre, post, h1, h2, h3⟩ := ih3 e he hge
        refine ⟨x :: pre, post, by rw [h1]; rfl, ?_, ?_⟩
        · intro y hy
          rcases List.mem_cons.mp hy with hy | hy
          · rw [hy]
            exact hh
          · exact h2 y hy
        · rw [h3]
          rfl
      · exact ih4

/-- Witness for C28: three bytes written to handle 5 of the sample table. -/
theorem set_value_spec_witness :
    (app_bt_set_value sample_tbl 5 [1, 2, 3] 3).1 = .WICED_BT_GATT_SUCCESS ↔
      ∃ e, app_bt_find_by_handle sample_tbl 5 = some e ∧ e.max_len ≥ 3 :=
  (set_value_spec sample_tbl 5 [1, 2, 3] 3 (by decide)).2.2.2

/-! ## Payload indexing -/

/-- C30. A write of length 0 to the client configuration descriptor of the
control point, and one to the control point itself, both read `p_val[0]`,
which is not below `val_len`; a Download command of length 4 reads `p_val[4]`.
In all three the handler takes the out-of-range branch. -/
theorem zero_length_write_reads_out_of_range (env : Env) (s : State) :
    app_bt_write_handler sample_cfg env
        { handle := 12, offset := 0, p_val := [], val_len := 0 } s = .fault ∧
      app_bt_write_handler sample_cfg env
        { handle := 11, offset := 0, p_val := [], val_len := 0 } s = .fault ∧
      app_bt_write_handler sample_cfg env
        { handle := 11, offset := 0, p_val := [2, 0, 0, 0], val_len := 4 } s = .fault := by
  exact ⟨rfl, rfl, rfl⟩

/-! ## Long writes: the handle of the dispatched write -/

theorem payload_length (r : wiced_bt_gatt_write_req_t) (h : r.val_len ≤ r.p_val.length) :
    (payload r).length = r.val_len := by
  rw [payload, List.length_take]
  omega

theorem memcpy_payload (dst : List Nat) (off : Nat) (r : wiced_bt_gatt_write_req_t)
    (h : r.val_len ≤ r.p_val.length) :
    memcpy dst off r.p_val r.val_len = memcpy dst off (payload r) (payload r).length := by
  rw [payload_length r h]
  unfold memcpy payload
  rw [List.take_take, Nat.min_self]

theorem getLast_cons_of_ne (a : wiced_bt_gatt_write_req_t)
    (l : List wiced_bt_gatt_write_req_t) (h : l ≠ []) :
    (a :: l).getLast? = l.getLast? := by
  cases l with
  | nil => exact absurd rfl h
  | cons b l => simp [List.getLast?_cons_cons]

theorem prepare_all_accepted (cfg : Config) (conn_id : Nat) (opcode : wiced_bt_gatt_opcode_t)
    (hmtu : cfg.CY_BT_MTU_SIZE ≤ 65535) :
    ∀ (reqs : List wiced_bt_gatt_write_req_t) (pre : List Nat) (s : State),
      s.write_buff.in_use = true → s.write_buff.written = pre.length →
      s.write_buff.value = pre ++ List.replicate (cfg.CY_BT_MTU_SIZE - pre.length) 0 →
      pre.length ≤ cfg.CY_BT_MTU_SIZE →
      (∀ r ∈ reqs, r.val_len ≤ r.p_val.length) →
      (∀ st ∈ (prepare_all cfg conn_id opcode reqs s).1, st = .WICED_BT_GATT_SUCCESS) →
      (prepare_all cfg conn_id opcode reqs s).2.write_buff.in_use = true ∧
        (prepare_all cfg conn_id opcode reqs s).2.write_buff.written =
          pre.length + (reqs.map payload).flatten.length ∧
        (prepare_all cfg conn_id opcode reqs s).2.write_buff.value =
          (pre ++ (reqs.map payload).flatten) ++
            List.replicate
              (cfg.CY_BT_MTU_SIZE - (pre.length + (reqs.map payload).flatten.length)) 0 ∧
        (∀ last, reqs.getLast? = some last →
          (prepare_all cfg conn_id opcode reqs s).2.write_buff.handle = last.handle) := by
  intro reqs
  induction reqs with
  | nil =>
    intro pre s hin hw hv _ _ _
    simp [prepare_all, hin, hw, hv]
  | cons r rs ih =>
    intro pre s hin hw hv hpre hwf hall
    have hb := begin_sequence_of_in_use cfg s.write_buff hin
    have hr : r.val_len ≤ r.p_val.length := hwf r (List.mem_cons_self r rs)
    have hpl := payload_length r hr
    have hfirst : (app_bt_prepare_write_handler cfg conn_id opcode r s).1 =
        .WICED_BT_GATT_SUCCESS := hall _ (by simp [prepare_all])
    have hrest : ∀ st ∈ (prepare_all cfg conn_id opcode rs
        (app_bt_prepare_write_handler cfg conn_id opcode r s).2).1,
        st = .WICED_BT_GATT_SUCCESS := by
      intro st hst
      exact hall st (by simp [prepare_all, hst])
    by_cases hrej : (begin_sequence cfg s.write_buff).written ≠ r.offset ∨
        cfg.CY_BT_MTU_SIZE < (begin_sequence cfg s.write_buff).written + r.val_len
    · rw [prepare_reject cfg conn_id opcode r s hrej] at hfirst
      cases hfirst
    · have hoff : (begin_sequence cfg s.write_buff).written = r.offset := by
        by_contra hne
        exact hrej (Or.inl hne)
      have hfit : (begin_sequence cfg s.write_buff).written + r.val_len ≤
          cfg.CY_BT_MTU_SIZE := by
        by_contra hgt
        exact hrej (Or.inr (Nat.lt_of_not_le hgt))
      have hacc := prepare_accept cfg conn_id opcode r s hoff hfit
      rw [hb, hw] at hfit
      rw [hb, hw, hv, memcpy_payload _ _ r hr, memcpy_append_zeros] at hacc
      have hmod : (pre.length + r.val_len) % 2 ^ 16 = pre.length + r.val_len :=
        Nat.mod_eq_of_lt (by omega)
      rw [hmod] at hacc
      have hstep := ih (pre ++ payload r)
        (app_bt_prepare_write_handler cfg conn_id opcode r s).2
        (by rw [hacc]; exact hin)
        (by rw [hacc]; simp [hpl])
        (by rw [hacc]; simp [Nat.sub_sub, hpl])
        (by rw [List.length_append, hpl]; omega)
        (fun x hx => hwf x (List.mem_cons_of_mem r hx))
        hrest
      rw [List.length_append, hpl] at hstep
      obtain ⟨h1, h2, h3, h4⟩ := hstep
      simp only [prepare_all, List.map_cons, List.flatten_cons, List.length_append, hpl]
      refine ⟨h1, ?_, ?_, ?_⟩
      · rw [h2]
        omega
      · rw [h3, List.append_assoc pre (payload r), Nat.add_assoc]
      · intro last hlast
        by_cases hrs : rs = []
        · subst hrs
          simp only [List.getLast?_singleton, Option.some.injEq] at hlast
          simp only [prepare_all]
          rw [hacc, ← hlast]
        · rw [getLast_cons_of_ne r rs hrs] at hlast
          exact h4 last hlast

theorem prepare_all_rejected (cfg : Config) (conn_id : Nat) (opcode : wiced_bt_gatt_opcode_t) :
    ∀ (reqs : List wiced_bt_gatt_write_req_t) (s : State),
      s.write_buff.in_use = true →
      (∀ st ∈ (prepare_all cfg conn_id opcode reqs s).1, st ≠ .WICED_BT_GATT_SUCCESS) →
      (prepare_all cfg conn_id opcode reqs s).2.write_buff = s.write_buff := by
  intro reqs
  induction reqs with
  | nil =>
    intro s _ _
    rfl
  | cons r rs ih =>
    intro s hin hall
    have hb := begin_sequence_of_in_use cfg s.write_buff hin
    have hafter := prepare_write_buff_after cfg conn_id opcode r s
    have hfirst : (app_bt_prepare_write_handler cfg conn_id opcode r s).1 ≠
        .WICED_BT_GATT_SUCCESS := hall _ (by simp [prepare_all])
    have hstep := ih (app_bt_prepare_write_handler cfg conn_id opcode r s).2 hafter.1
      (fun st hst => hall st (by simp [prepare_all, hst]))
    simp only [prepare_all]
    rw [hstep, hafter.2 hfirst, hb]

theorem prepare_all_in_use (cfg : Config) (conn_id : Nat) (opcode : wiced_bt_gatt_opcode_t) :
    ∀ (reqs : List wiced_bt_gatt_write_req_t) (s : State),
      s.write_buff.in_use = true ∨ reqs ≠ [] →
      (prepare_all cfg conn_id opcode reqs s).2.write_buff.in_use = true := by
  intro reqs
  induction reqs with
  | nil =>
    intro s h
    rcases h with h | h
    · exact h
    · exact absurd rfl h
  | cons r rs ih =>
    intro s _
    simp only [prepare_all]
    exact ih _ (Or.inl (prepare_write_buff_after cfg conn_id opcode r s).1)

theorem prepare_all_from_idle (cfg : Config) (conn_id : Nat) (opcode : wiced_bt_gatt_opcode_t)
    (reqs : List wiced_bt_gatt_write_req_t) (s : State) (hne : reqs ≠ []) :
    prepare_all cfg conn_id opcode reqs s =
      prepare_all cfg conn_id opcode reqs
        { s with write_buff := begin_sequence cfg s.write_buff } := by
  cases reqs with
  | nil => exact absurd rfl hne
  | cons r rs => simp only [prepare_all, prepare_after_begin_sequence]

/-- C29. From an idle buffer, after a non-empty sequence of prepare-writes
that were all accepted, whatever their handles, the request that execute-write
hands to the write path has the handle of the last of them, offset 0, and as
value their payloads concatenated; after a non-empty sequence of prepare-writes
that were all rejected it has handle 0 and length 0. In both cases the
execute-write handler does dispatch that request to the write path. -/
theorem execute_targets_last_handle (cfg : Config) (conn_id : Nat)
    (opcode : wiced_bt_gatt_opcode_t) (reqs : List wiced_bt_gatt_write_req_t) (s : State)
    (hmtu : cfg.CY_BT_MTU_SIZE ≤ 65535) (hidle : s.write_buff.in_use = false)
    (hne : reqs ≠ []) (hwf : ∀ r ∈ reqs, r.val_len ≤ r.p_val.length) :
    ((∀ st ∈ (prepare_all cfg conn_id opcode reqs s).1, st = .WICED_BT_GATT_SUCCESS) →
        ∀ last, reqs.getLast? = some last →
          execute_write_req (prepare_all cfg conn_id opcode reqs s).2.write_buff =
              { handle := last.handle, offset := 0,
                val_len := (reqs.map payload).flatten.length,
                p_val := (reqs.map payload).flatten ++
                  List.replicate
                    (cfg.CY_BT_MTU_SIZE - (reqs.map payload).flatten.length) 0 } ∧
            payload (execute_write_req (prepare_all cfg conn_id opcode reqs s).2.write_buff) =
              (reqs.map payload).flatten) ∧
      ((∀ st ∈ (prepare_all cfg conn_id opcode reqs s).1, st ≠ .WICED_BT_GATT_SUCCESS) →
        execute_write_req (prepare_all cfg conn_id opcode reqs s).2.write_buff =
            { handle := 0, offset := 0, val_len := 0,
              p_val := List.replicate cfg.CY_BT_MTU_SIZE 0 } ∧
          payload (execute_write_req (prepare_all cfg conn_id opcode reqs s).2.write_buff) =
            []) ∧
      ∀ env : Env,
        app_bt_execute_write_handler cfg env (prepare_all cfg conn_id opcode reqs s).2 =
          (app_bt_write_handler cfg env
            (execute_write_req (prepare_all cfg conn_id opcode reqs s).2.write_buff)
            (prepare_all cfg conn_id opcode reqs s).2).bind
            fun status s1 =>
              .ret status { s1 with write_buff := { s1.write_buff with in_use := false } } := by
  have hrun := prepare_all_from_idle cfg conn_id opcode reqs s hne
  have hbegin := begin_sequence_of_idle cfg s.write_buff hidle
  refine ⟨?_, ?_, ?_⟩
  · intro hall last hlast
    rw [hrun] at hall
    have hspec := prepare_all_accepted cfg conn_id opcode hmtu reqs []
      { s with write_buff := begin_sequence cfg s.write_buff }
      (begin_sequence_in_use cfg s.write_buff)
      (by simp [hbegin]) (by simp [hbegin]) (by simp) hwf hall
    simp only [List.length_nil, Nat.zero_add, List.nil_append] at hspec
    rw [← hrun] at hspec
    obtain ⟨_, h2, h3, h4⟩ := hspec
    have hreq : execute_write_req (prepare_all cfg conn_id opcode reqs s).2.write_buff =
        { handle := last.handle, offset := 0,
          val_len := (reqs.map payload).flatten.length,
          p_val := (reqs.map payload).flatten ++
            List.replicate (cfg.CY_BT_MTU_SIZE - (reqs.map payload).flatten.length) 0 } := by
      simp only [execute_write_req, h2, h3, h4 last hlast]
    refine ⟨hreq, ?_⟩
    rw [hreq]
    simp [payload]
  · intro hall
    rw [hrun] at hall
    have hkeep := prepare_all_rejected cfg conn_id opcode reqs
      { s with write_buff := begin_sequence cfg s.write_buff }
      (begin_sequence_in_use cfg s.write_buff) hall
    rw [← hrun] at hkeep
    simp only [hkeep, hbegin, execute_write_req, payload, List.take_zero, and_self]
  · intro env
    have hin := prepare_all_in_use cfg conn_id opcode reqs s (Or.inr hne)
    simp [app_bt_execute_write_handler, hin]

/-- Witness for C29: two accepted chunks, the first for handle 3 and the
second for handle 5. -/
theorem execute_targets_last_handle_witness :
    payload (execute_write_req
        (prepare_all sample_cfg 1 .GATT_REQ_PREPARE_WRITE
          [{ handle := 3, offset := 0, p_val := [1, 2], val_len := 2 },
            { handle := 5, offset := 2, p_val := [3], val_len := 1 }]
          sample_state).2.write_buff) = [1, 2, 3] ∧
      (execute_write_req
        (prepare_all sample_cfg 1 .GATT_REQ_PREPARE_WRITE
          [{ handle := 3, offset := 0, p_val := [1, 2], val_len := 2 },
            { handle := 5, offset := 2, p_val := [3], val_len := 1 }]
          sample_state).2.write_buff).handle = 5 :=
  have h := (execute_targets_last_handle sample_cfg 1 .GATT_REQ_PREPARE_WRITE
    [{ handle := 3, offset := 0, p_val := [1, 2], val_len := 2 },
      { handle := 5, offset := 2, p_val := [3], val_len := 1 }]
    sample_state (by decide) (by decide) (by decide) (by decide)).1 (by decide)
    { handle := 5, offset := 2, p_val := [3], val_len := 1 } rfl
  ⟨h.2, by rw [h.1]⟩

end LeOta
